import Mathlib

/-!
# led_state: result debouncer, payload encoder and advertising lifecycle

A shallow embedding of `src/modules/led_state.c` (with the board configuration
`configuration/thingy52_nrf52832/led_state_def.h`).

Conventions of the embedding

* The module's file-scope and function-scope `static` variables are the fields of `State`;
  every C function becomes a function from the state before the call to the state after
  it, together with the list of externally visible calls it made (`Ev`), in program order.
* A C string is the list of its bytes before the terminating NUL (`CStr`); a nullable
  `const char *` is an `Option CStr`.  The source compares labels by pointer identity or
  `strcmp`; on values this is equality of the texts, with NULL different from every text.
* `float` scores are exact rationals, the thresholds are `CONFIG_... / 1000`.
* Values the C code obtains from its environment (the uptime clock, the return value of
  the radio stack) are passed in as `Env`.
* Kconfig values and the macros of headers that are not part of the repository are the
  fields of `Config`.
-/

namespace LedState

/-! ## Data model -/

/-- The bytes of a NUL-terminated C string, terminator excluded. -/
abbrev CStr := List Nat

/-- The bytes of an ASCII string literal of the source. -/
def cstr (s : String) : CStr := s.toList.map Char.toNat

/-- The `struct led_effect` fields read by this module. -/
structure led_effect where
  step_count : Nat
  loop_forever : Bool
  deriving DecidableEq

/-- The `struct ml_result_led_effect`: a classification label and its LED effect. -/
structure ml_result_led_effect where
  label : Option CStr
  effect : led_effect
  deriving DecidableEq

/-- A `const struct led_effect *`: the address of the effect of an entry of
`ml_result_led_effects`, of an entry of `ei_data_forwarder_led_effects`, or any other
address. -/
inductive led_effect_ptr where
  | ml_result (i : Nat)
  | ei_data_forwarder (i : Nat)
  | other (addr : Nat)
  deriving DecidableEq

/-- The `enum ml_app_mode`; the variable starts as `ML_APP_MODE_COUNT`. -/
inductive MlAppMode where
  | ML_APP_MODE_MODEL_RUNNING
  | ML_APP_MODE_DATA_FORWARDING
  | ML_APP_MODE_COUNT
  deriving DecidableEq

/-- The `enum ei_data_forwarder_state`. -/
inductive EiDataForwarderState where
  | EI_DATA_FORWARDER_STATE_DISABLED
  | EI_DATA_FORWARDER_STATE_DISCONNECTED
  | EI_DATA_FORWARDER_STATE_CONNECTED
  | EI_DATA_FORWARDER_STATE_TRANSMITTING
  deriving DecidableEq

/-- The `struct bt_data`: one advertising-data element. `data_len` is a `uint8_t`; `data`
holds the bytes the `data` pointer refers to at the time the element is built. -/
structure bt_data where
  type : Nat
  data_len : Nat
  data : List Nat
  deriving DecidableEq

/-- Build-time configuration: Kconfig options and the `ANOMALY_LABEL` macro of
`led_state.h`, none of which is in the repository, and the effect table, whose entries
are written with LED-effect macros of the CAF library. -/
structure Config where
  /-- The option `CONFIG_ML_APP_LED_STATE_ANOMALY_THRESH`, in thousandths. -/
  CONFIG_ML_APP_LED_STATE_ANOMALY_THRESH : Int
  /-- The option `CONFIG_ML_APP_LED_STATE_VALUE_THRESH`, in thousandths. -/
  CONFIG_ML_APP_LED_STATE_VALUE_THRESH : Int
  /-- The option `CONFIG_ML_APP_LED_STATE_PREDICTION_STREAK_THRESH`. -/
  PREDICTION_STREAK_THRESH : Nat
  /-- The reserved label of the anomaly effect (a string literal: `validate_configuration`
  passes it to `strcmp`). -/
  ANOMALY_LABEL : CStr
  /-- Whether `CONFIG_ML_APP_SENSOR_SIM_EVENTS` is enabled. -/
  DISPLAY_SIM_SIGNAL : Bool
  /-- The table `ml_result_led_effects`; entry 0 is the default effect. -/
  ml_result_led_effects : List ml_result_led_effect

/-- The macro `ANOMALY_THRESH`. -/
def ANOMALY_THRESH (cfg : Config) : ℚ := (cfg.CONFIG_ML_APP_LED_STATE_ANOMALY_THRESH : ℚ) / 1000

/-- The macro `VALUE_THRESH`. -/
def VALUE_THRESH (cfg : Config) : ℚ := (cfg.CONFIG_ML_APP_LED_STATE_VALUE_THRESH : ℚ) / 1000

/-- The macro `ADV_MIN_UPDATE_MS`. -/
def ADV_MIN_UPDATE_MS : Int := 50

/-- The errno value `EAGAIN` of Zephyr's `errno.h`. -/
def EAGAIN : Int := 11
/-- The errno value `EBUSY` of Zephyr's `errno.h`. -/
def EBUSY : Int := 16
/-- The errno value `ENOTSUP` of Zephyr's `errno.h`. -/
def ENOTSUP : Int := 134

/-- The AD type `BT_DATA_FLAGS`. -/
def BT_DATA_FLAGS : Nat := 0x01
/-- The AD type `BT_DATA_UUID16_ALL`. -/
def BT_DATA_UUID16_ALL : Nat := 0x03
/-- The AD type `BT_DATA_SVC_DATA16`. -/
def BT_DATA_SVC_DATA16 : Nat := 0x16

/-- The `led_map` of `led_state_def.h`, indexed by `LED_ID_ML_STATE = 0` and
`LED_ID_SENSOR_SIM = 1`; `LED_UNAVAILABLE` is `0xFF`. -/
def led_map : List Nat := [0, 0xFF]

/-- The index `LED_ID_ML_STATE` of `led_map`. -/
def LED_ID_ML_STATE : Nat := 0
/-- The index `LED_ID_SENSOR_SIM` of `led_map`. -/
def LED_ID_SENSOR_SIM : Nat := 1

/-- The externally visible calls of the module, and the entries into the two internal
functions whose invocations the specification counts. -/
inductive Ev where
  /-- An `led_event` submitted by `send_led_event`. -/
  | led_event (led_id : Nat) (effect : led_effect_ptr)
  /-- An `ml_result_signin_event` submitted by `ml_result_set_signin_state`. -/
  | signin (state : Bool)
  /-- A call of `bt_le_adv_start` with the advertising data `ad1`. -/
  | bt_le_adv_start (ad : List bt_data)
  /-- A call of `bt_le_adv_update_data` with the advertising data `ad1`. -/
  | bt_le_adv_update_data (ad : List bt_data)
  /-- A call of `bt_le_adv_stop`. -/
  | bt_le_adv_stop
  /-- A call of `k_work_reschedule` on `adv_retry_work` with a delay in milliseconds. -/
  | k_work_reschedule (delay_ms : Nat)
  /-- A call of `k_work_cancel_delayable` on `adv_retry_work`. -/
  | k_work_cancel_delayable
  /-- Entry into `display_ml_result`. -/
  | display_ml_result (label : Option CStr) (force_update : Bool)
  /-- Entry into `adv_start_or_update` with `svc_len` bytes at `svc_data`. -/
  | adv_start_or_update (svc_data : List Nat)
  /-- A call of `module_set_state(MODULE_STATE_READY)`. -/
  | module_set_state_ready
  /-- A call of `bt_enable(bt_ready_cb)`. -/
  | bt_enable
  deriving DecidableEq

/-- The static variables of the module.  The counter `prediction_streak` is a `size_t`;
it is below `PREDICTION_STREAK_THRESH` after every call of `update_ml_result`
(`debounce_streak_lt`), so it is modelled without wrap-around. -/
structure State where
  ml_app_mode : MlAppMode
  forwarder_state : EiDataForwarderState
  blocking_led_effect : Option led_effect_ptr
  cur_label : Option CStr
  prediction_streak : Nat
  ble_ready : Bool
  adv_started : Bool
  adv_last_update_ms : Int
  /-- The delayable work item `adv_retry_work`: `none` when it is not scheduled, `some d`
  when it is scheduled to run `d` milliseconds after the call that scheduled it. -/
  adv_retry_work : Option Nat
  last_svc_buf : List Nat
  last_svc_len : Nat
  ad1 : List bt_data
  /-- The `static` local `ml_result_effect` of `display_ml_result`: an index into
  `ml_result_led_effects`, or NULL. -/
  ml_result_effect : Option Nat
  /-- The `static` local `sensor_sim_effect` of `display_sensor_sim`. -/
  sensor_sim_effect : Option Nat
  /-- The `static` local `adata` of `update_ml_result` (64 bytes). -/
  adata : List Nat
  /-- The `static` local `adatasize` of `update_ml_result`. -/
  adatasize : Nat
  deriving DecidableEq

/-- What one call of `adv_start_or_update` reads from its environment: the value of
`k_uptime_get()` and the return value of the radio-stack call it makes, if it makes one. -/
structure Env where
  now : Int
  err : Int
  deriving DecidableEq

/-! ## Effect resolver and display -/

/-- The function `is_led_effect_blocking`. -/
def is_led_effect_blocking (le : led_effect) : Bool :=
  (!le.loop_forever) && decide (le.step_count > 1)

/-- The function `clear_prediction`. -/
def clear_prediction (s : State) : State :=
  { s with cur_label := none, prediction_streak := 0 }

/-- The loop of `get_led_effect`: the first index, counting from `i` for the head of the
list, of an entry whose label is the text `label` (`t->label == label` or `strcmp` equal).
An entry with a NULL label never matches; `validate_configuration` asserts that there is
none behind entry 0. -/
def get_led_effect_loop (label : CStr) : List ml_result_led_effect → Nat → Option Nat
  | [], _ => none
  | t :: rest, i => if t.label = some label then some i else get_led_effect_loop label rest (i + 1)

/-- The function `get_led_effect`; the result is an index into `ml_result_led_effects`,
`DEFAULT_EFFECT` being index 0. -/
def get_led_effect (cfg : Config) (label : Option CStr) : Nat :=
  match label with
  | none => 0
  | some l => (get_led_effect_loop l (cfg.ml_result_led_effects.drop 1) 1).getD 0

/-- The effect of table entry `i`. -/
def effect_at (cfg : Config) (i : Nat) : led_effect :=
  ((cfg.ml_result_led_effects.get? i).map (fun t => t.effect)).getD ⟨0, false⟩

/-- The function `display_sensor_sim`. -/
def display_sensor_sim (cfg : Config) (s : State) (label : Option CStr) : State × List Ev :=
  let s1 : State :=
    match label with
    | some _ => { s with sensor_sim_effect := some (get_led_effect cfg label) }
    | none => s
  match s1.sensor_sim_effect with
  | some i => (s1, [Ev.led_event (led_map.getD LED_ID_SENSOR_SIM 0) (led_effect_ptr.ml_result i)])
  | none => (s1, [])

/-- The function `display_ml_result`. -/
def display_ml_result (cfg : Config) (s : State) (label : Option CStr) (force_update : Bool) :
    State × List Ev :=
  let new_effect := get_led_effect cfg label
  if s.ml_result_effect = some new_effect ∧ force_update = false then
    (s, [Ev.display_ml_result label force_update])
  else
    let (s1, tr1) :=
      if cfg.DISPLAY_SIM_SIGNAL = true ∧ new_effect ≠ 0 then display_sensor_sim cfg s none
      else (s, [])
    let s2 : State := { s1 with ml_result_effect := some new_effect }
    let tr2 := [Ev.led_event (led_map.getD LED_ID_ML_STATE 0) (led_effect_ptr.ml_result new_effect)]
    if is_led_effect_blocking (effect_at cfg new_effect) = true then
      ({ s2 with blocking_led_effect := some (led_effect_ptr.ml_result new_effect) },
        Ev.display_ml_result label force_update :: (tr1 ++ tr2 ++ [Ev.signin false]))
    else
      ({ s2 with blocking_led_effect := none },
        Ev.display_ml_result label force_update :: (tr1 ++ tr2 ++ [Ev.signin true]))

/-! ## Result debouncer -/

/-- The label test of `update_ml_result`:
`new_label != cur_label && ((!new_label || !cur_label) || strcmp(new_label, cur_label))`. -/
def label_changed (new_label cur_label : Option CStr) : Bool :=
  match new_label, cur_label with
  | none, none => false
  | some a, some b => decide (a ≠ b)
  | _, _ => true

/-- The acceptance rule of `update_ml_result`: the pair `(new_label, accept)`. -/
def classify (cfg : Config) (label : Option CStr) (value anomaly : ℚ) : Option CStr × Bool :=
  let anomaly_available : Bool := decide (anomaly ≥ 0)
  if anomaly_available = true ∧ anomaly > ANOMALY_THRESH cfg then
    (some cfg.ANOMALY_LABEL, true)
  else if value ≥ VALUE_THRESH cfg then
    (label, true)
  else if anomaly_available = false then
    (some (cstr "idle"), true)
  else
    (none, false)

/-- The part of `update_ml_result` after `new_label` and `accept` are decided: the label
test, the streak increment and the threshold test. -/
def debounce (cfg : Config) (s : State) (new_label : Option CStr) (accept : Bool) :
    State × List Ev :=
  let s1 : State :=
    if label_changed new_label s.cur_label = true then
      { s with cur_label := new_label, prediction_streak := 0 }
    else s
  let s2 : State :=
    if accept = true then { s1 with prediction_streak := s1.prediction_streak + 1 } else s1
  if s2.prediction_streak ≥ cfg.PREDICTION_STREAK_THRESH then
    (clear_prediction (display_ml_result cfg s2 s2.cur_label false).1,
      (display_ml_result cfg s2 s2.cur_label false).2)
  else
    (s2, [])

/-- The second section of `update_ml_result`, "Classification acceptance & LED label
selection": everything after the payload is built and before `adv_start_or_update` is
called. -/
def update_ml_result_led (cfg : Config) (s : State) (label : Option CStr) (value anomaly : ℚ) :
    State × List Ev :=
  debounce cfg s (classify cfg label value anomaly).1 (classify cfg label value anomaly).2

/-! ## Payload encoder -/

/-- The C call `strncat(dst, src, n)` on a destination array of `cap` bytes: it appends the
first `n` bytes of `src` (all of it when shorter) and a terminating NUL.  The call has no
defined result (`none`) when string and terminator do not fit into the array. -/
def strncat (cap : Nat) (dst src : CStr) (n : Nat) : Option CStr :=
  if (dst ++ src.take n).length + 1 ≤ cap then some (dst ++ src.take n) else none

/-- The decimal digits of a natural number, as bytes. -/
def dec_digits (n : Nat) : CStr := (Nat.toDigits 10 n).map Char.toNat

/-- The text `printf` produces for `"%d"`. -/
def fmt_d (v : Int) : CStr :=
  if v < 0 then 45 :: dec_digits v.natAbs else dec_digits v.natAbs

/-- The C call `snprintf(snum, size, "%d", v)`: at most `size - 1` bytes are stored. -/
def snprintf_d (size : Nat) (v : Int) : CStr := (fmt_d v).take (size - 1)

/-- The string composition of `update_ml_result`: the content of `rs` (an array of 40
bytes) after the seven `strncat` calls, `none` when one of them writes beyond `rs`. -/
def compose_rs (label : Option CStr) (dsptime classification_time anomaly_time : Int) :
    Option CStr := do
  let rs0 : CStr := []
  let rs1 ← (match label with
    | some l => strncat 40 rs0 l 39
    | none => some rs0)
  let rs2 ← strncat 40 rs1 (cstr ";") 39
  let rs3 ← strncat 40 rs2 (snprintf_d 16 dsptime) 39
  let rs4 ← strncat 40 rs3 (cstr ";") 39
  let rs5 ← strncat 40 rs4 (snprintf_d 16 classification_time) 39
  let rs6 ← strncat 40 rs5 (cstr ";") 39
  strncat 40 rs6 (snprintf_d 16 anomaly_time) 39

/-- The constant `RS_MAX_LEN` of `update_ml_result`. -/
def RS_MAX_LEN : Nat := 17

/-- The copy loop `for (i = 0; i < l; i++) adata[i + 5] = (uint8_t)rs[i];`. -/
def copy_rs (rs : CStr) (l : Nat) (adata : List Nat) : List Nat :=
  (List.range l).foldl (fun a i => a.set (i + 5) (rs.getD i 0)) adata

/-- The end of the first section of `update_ml_result`, from `RS_MAX_LEN` on, for a cap
`cap` in place of 17: the new `adata` and `adatasize`. -/
def store_rs (cap : Nat) (adata : List Nat) (rs : CStr) : List Nat × Nat :=
  let l := min rs.length cap
  (copy_rs rs l adata, (5 + l % 256) % 256)

/-- The first section of `update_ml_result`, "Build your service-data payload". -/
def update_ml_result_payload (s : State) (label : Option CStr)
    (dsptime classification_time anomaly_time : Int) : Option State :=
  match compose_rs label dsptime classification_time anomaly_time with
  | none => none
  | some rs =>
    some { s with adata := (store_rs RS_MAX_LEN s.adata rs).1,
                  adatasize := (store_rs RS_MAX_LEN s.adata rs).2 }

/-! ## Advertising lifecycle -/

/-- The macro `BT_DATA(type, data, data_len)`. -/
def BT_DATA (type : Nat) (data : List Nat) (data_len : Nat) : bt_data :=
  ⟨type, data_len % 256, data⟩

/-- The function `adv_start_or_update`; `svc_data` are the `svc_len` bytes at the pointer
`svc_data`. -/
def adv_start_or_update (s : State) (svc_data : List Nat) (env : Env) : State × List Ev :=
  let svc_len := svc_data.length
  let svc := BT_DATA BT_DATA_SVC_DATA16 svc_data svc_len
  let copy_len := min svc_len 31
  let s0 : State :=
    { s with last_svc_buf := svc_data.take copy_len ++ s.last_svc_buf.drop copy_len,
             last_svc_len := copy_len }
  let entry := Ev.adv_start_or_update svc_data
  if s0.ble_ready = false then
    ({ s0 with adv_retry_work := some 150 }, [entry, Ev.k_work_reschedule 150])
  else if s0.adv_started = false then
    let s1 : State := { s0 with ad1 := s0.ad1.set 2 svc }
    if env.err ≠ 0 then
      if env.err = -EAGAIN ∨ env.err = -EBUSY then
        ({ s1 with adv_retry_work := some 150 },
          [entry, Ev.bt_le_adv_start s1.ad1, Ev.k_work_reschedule 150])
      else
        (s1, [entry, Ev.bt_le_adv_start s1.ad1])
    else
      ({ s1 with adv_retry_work := none, adv_started := true, adv_last_update_ms := env.now },
        [entry, Ev.bt_le_adv_start s1.ad1, Ev.k_work_cancel_delayable])
  else
    let now := env.now
    if now - s0.adv_last_update_ms < ADV_MIN_UPDATE_MS then
      (s0, [entry])
    else
      let s1 : State := { s0 with ad1 := s0.ad1.set 2 svc }
      if env.err = 0 then
        ({ s1 with adv_last_update_ms := now }, [entry, Ev.bt_le_adv_update_data s1.ad1])
      else if env.err = -EAGAIN ∨ env.err = -EBUSY then
        ({ s1 with adv_retry_work := some 150 },
          [entry, Ev.bt_le_adv_update_data s1.ad1, Ev.k_work_reschedule 150])
      else if env.err = -ENOTSUP then
        ({ s1 with adv_started := false, adv_retry_work := some 0 },
          [entry, Ev.bt_le_adv_update_data s1.ad1, Ev.bt_le_adv_stop, Ev.k_work_reschedule 0])
      else
        (s1, [entry, Ev.bt_le_adv_update_data s1.ad1])

/-- The work handler `adv_retry_fn`, run by the work queue when `adv_retry_work` is due;
the work item is no longer scheduled when its handler runs. -/
def adv_retry_fn (s : State) (env : Env) : State × List Ev :=
  adv_start_or_update { s with adv_retry_work := none } (s.last_svc_buf.take s.last_svc_len) env

/-! ## The sample handler -/

/-- The `struct ml_result_event`. -/
structure ml_result_event where
  label : Option CStr
  value : ℚ
  anomaly : ℚ
  dsp_time : Int
  classification_time : Int
  anomaly_time : Int

/-- The function `update_ml_result`: payload section, LED section, then the call of
`adv_start_or_update(adata, adatasize)`.  The result is `none` when the payload section
writes beyond `rs`. -/
def update_ml_result (cfg : Config) (s : State) (label : Option CStr) (value anomaly : ℚ)
    (dsptime classification_time anomaly_time : Int) (env : Env) : Option (State × List Ev) :=
  match update_ml_result_payload s label dsptime classification_time anomaly_time with
  | none => none
  | some s1 =>
    let r2 := update_ml_result_led cfg s1 label value anomaly
    let r3 := adv_start_or_update r2.1 (r2.1.adata.take r2.1.adatasize) env
    some (r3.1, r2.2 ++ r3.2)

/-- The function `handle_ml_result_event`. -/
def handle_ml_result_event (cfg : Config) (s : State) (event : ml_result_event) (env : Env) :
    Option (State × List Ev) :=
  if s.ml_app_mode = MlAppMode.ML_APP_MODE_MODEL_RUNNING ∧ s.blocking_led_effect = none then
    update_ml_result cfg s event.label event.value event.anomaly event.dsp_time
      event.classification_time event.anomaly_time env
  else
    some (s, [])

/-! ## Initial state and the shipped configuration -/

/-- The macro `BT_DATA_BYTES(type, bytes...)`. -/
def BT_DATA_BYTES (type : Nat) (bytes : List Nat) : bt_data :=
  BT_DATA type bytes bytes.length

/-- The five bytes every service-data payload starts with: the Eddystone UUID `AA FE`,
the frame type `10`, the Tx power `00` and the URL scheme prefix `00`. -/
def preamble : List Nat := [0xaa, 0xfe, 0x10, 0x00, 0x00]

/-- The initializer of the array `ad1`. -/
def ad1_init : List bt_data :=
  [BT_DATA_BYTES BT_DATA_FLAGS [0x02 ||| 0x04],
   BT_DATA_BYTES BT_DATA_UUID16_ALL [0xaa, 0xfe],
   BT_DATA_BYTES BT_DATA_SVC_DATA16 (preamble ++ cstr "zephyr" ++ cstr "project" ++ [0x08])]

/-- The initializer of the 64-byte array `adata` of `update_ml_result`. -/
def adata_init : List Nat :=
  preamble ++ cstr "zephyrprojects" ++ [0x08] ++ List.replicate 44 0

/-- The array `init_adata` of `start_initial_adv`. -/
def init_adata : List Nat := preamble ++ cstr "idle;0;0;-1"

/-- The values of the static variables at start-up; the initial `forwarder_state` depends
on whether `CONFIG_ML_APP_EI_DATA_FORWARDER_EVENTS` is enabled. -/
def init_state (DISPLAY_DATA_FORWARDER : Bool) : State where
  ml_app_mode := MlAppMode.ML_APP_MODE_COUNT
  forwarder_state :=
    if DISPLAY_DATA_FORWARDER then EiDataForwarderState.EI_DATA_FORWARDER_STATE_DISCONNECTED
    else EiDataForwarderState.EI_DATA_FORWARDER_STATE_TRANSMITTING
  blocking_led_effect := none
  cur_label := none
  prediction_streak := 0
  ble_ready := false
  adv_started := false
  adv_last_update_ms := 0
  adv_retry_work := none
  last_svc_buf := List.replicate 31 0
  last_svc_len := 0
  ad1 := ad1_init
  ml_result_effect := none
  sensor_sim_effect := none
  adata := adata_init
  adatasize := 19

/-- The CAF macro `LED_EFFECT_LED_ON(color)`: one step, not looping. -/
def LED_EFFECT_LED_ON : led_effect := ⟨1, false⟩

/-- The CAF macro `LED_EFFECT_LED_BLINK2(period_on, period_off, color)`: two steps, looping
forever. -/
def LED_EFFECT_LED_BLINK2 : led_effect := ⟨2, true⟩

/-- The table `ml_result_led_effects` of `led_state_def.h`, for a given `ANOMALY_LABEL`. -/
def ml_result_led_effects (ANOMALY_LABEL : CStr) : List ml_result_led_effect :=
  [⟨none, LED_EFFECT_LED_BLINK2⟩,
   ⟨some ANOMALY_LABEL, LED_EFFECT_LED_ON⟩,
   ⟨some (cstr "idle"), LED_EFFECT_LED_ON⟩,
   ⟨some (cstr "zoom_in"), LED_EFFECT_LED_ON⟩,
   ⟨some (cstr "zoom_out"), LED_EFFECT_LED_ON⟩,
   ⟨some (cstr "rot_left"), LED_EFFECT_LED_ON⟩,
   ⟨some (cstr "rot_right"), LED_EFFECT_LED_ON⟩,
   ⟨some (cstr "move_left"), LED_EFFECT_LED_ON⟩,
   ⟨some (cstr "move_right"), LED_EFFECT_LED_ON⟩]

/-- A configuration with the shipped effect table.  The values chosen for the Kconfig
options and for `ANOMALY_LABEL` are examples: anomaly threshold 2.5, value threshold 0.8,
streak threshold 3. -/
def thingy52_config : Config where
  CONFIG_ML_APP_LED_STATE_ANOMALY_THRESH := 2500
  CONFIG_ML_APP_LED_STATE_VALUE_THRESH := 800
  PREDICTION_STREAK_THRESH := 3
  ANOMALY_LABEL := cstr "_anomaly"
  DISPLAY_SIM_SIGNAL := false
  ml_result_led_effects := ml_result_led_effects (cstr "_anomaly")

/-- A sample with label `"zoom_in"`, confidence 0.9, anomaly score 0.1 and timings
12, 345 and 0. -/
def zoom_in_sample : ml_result_event := ⟨some (cstr "zoom_in"), 9 / 10, 1 / 10, 12, 345, 0⟩

/-- A sample with label `"zoom_in"`, confidence 0.5 and anomaly score 0.1. -/
def low_confidence_sample : ml_result_event := ⟨some (cstr "zoom_in"), 1 / 2, 1 / 10, 12, 345, 0⟩

/-- A sample with confidence 0.5 and anomaly score 3. -/
def anomalous_sample : ml_result_event := ⟨some (cstr "zoom_in"), 1 / 2, 3, 12, 345, 0⟩

/-! ## Observations on traces and runs -/

/-- The entries into `display_ml_result` recorded in a trace: label and `force_update`. -/
def display_calls : List Ev → List (Option CStr × Bool)
  | [] => []
  | Ev.display_ml_result l f :: tr => (l, f) :: display_calls tr
  | _ :: tr => display_calls tr

/-- Feeding a sequence of samples to the LED section of `update_ml_result`, one call per
sample: the state after each call and the trace of that call. -/
def feed_led (cfg : Config) : State → List ml_result_event → List (State × List Ev)
  | _, [] => []
  | s, e :: es =>
    (update_ml_result_led cfg s e.label e.value e.anomaly) ::
      feed_led cfg (update_ml_result_led cfg s e.label e.value e.anomaly).1 es

/-- A sample accepted by rule 2 of the acceptance rule: the anomaly score is not above the
anomaly threshold and the confidence reaches the value threshold. -/
def accepted_by_value (cfg : Config) (e : ml_result_event) : Prop :=
  ¬ (e.anomaly ≥ 0 ∧ e.anomaly > ANOMALY_THRESH cfg) ∧ e.value ≥ VALUE_THRESH cfg

/-- All entries into `display_ml_result` made during a run, in order. -/
def run_display_calls : List (State × List Ev) → List (Option CStr × Bool)
  | [] => []
  | r :: rs => display_calls r.2 ++ run_display_calls rs

/-- The prediction state reached `c` accepted samples with label `L` after the last
clearing: streak `c`, and current label `L` once a sample was counted. -/
def streak_state (L : Option CStr) (c : Nat) (s : State) : Prop :=
  s.prediction_streak = c ∧ (c = 0 → s.cur_label = none) ∧ (c ≠ 0 → s.cur_label = L)

/-- A sample rejected by the acceptance rule (rule 4): the confidence is below the value
threshold and the anomaly score is available but not above the anomaly threshold. -/
def rejected (cfg : Config) (e : ml_result_event) : Prop :=
  e.value < VALUE_THRESH cfg ∧ e.anomaly ≥ 0 ∧ ¬ e.anomaly > ANOMALY_THRESH cfg

/-- The text field as the specification words it: `"<label>;<t1>;<t2>;<t3>"`, the label
empty when absent and the timings in decimal. -/
def text_field (label : Option CStr) (t1 t2 t3 : Int) : CStr :=
  label.getD [] ++ cstr ";" ++ fmt_d t1 ++ cstr ";" ++ fmt_d t2 ++ cstr ";" ++ fmt_d t3

/-- The values of the C type `int` (32 bits). -/
def is_int (v : Int) : Prop := -2 ^ 31 ≤ v ∧ v < 2 ^ 31

/-- A sequence of `strncat(rs, src, sizeof(rs) - 1)` calls on the 40-byte array `rs`. -/
def strncat_all : CStr → List CStr → Option CStr
  | dst, [] => some dst
  | dst, src :: rest => (strncat 40 dst src 39).bind (fun d => strncat_all d rest)

/-- The concatenation of a list of strings. -/
def concat_all : List CStr → CStr
  | [] => []
  | x :: xs => x ++ concat_all xs

/-- What every call of `update_ml_result` finds in `adata`: 64 bytes, the first five being
the preamble of the initializer, which are never written. -/
def adata_ok (s : State) : Prop := s.adata.length = 64 ∧ s.adata.take 5 = preamble

/-- What every call of `adv_start_or_update` finds in `ad1`: three elements, the first two
being those of the initializer, which are never written. -/
def ad1_ok (s : State) : Prop := s.ad1.length = 3 ∧ s.ad1.take 2 = ad1_init.take 2

/-- The payload `update_ml_result` hands to `adv_start_or_update`: the first `adatasize`
bytes of `adata`. -/
def payload (s : State) : List Nat := s.adata.take s.adatasize

/-- The number of bytes of advertising data: each element takes a length byte, a type
byte and its `data_len` data bytes. -/
def ad_total_len : List bt_data → Nat
  | [] => 0
  | d :: ds => 2 + d.data_len + ad_total_len ds

/-- The entries into `adv_start_or_update` recorded in a trace: the payloads. -/
def adv_calls : List Ev → List (List Nat)
  | [] => []
  | Ev.adv_start_or_update p :: tr => p :: adv_calls tr
  | _ :: tr => adv_calls tr

/-- The calls to the radio stack recorded in a trace. -/
def radio_calls : List Ev → List Ev
  | [] => []
  | Ev.bt_le_adv_start ad :: tr => Ev.bt_le_adv_start ad :: radio_calls tr
  | Ev.bt_le_adv_update_data ad :: tr => Ev.bt_le_adv_update_data ad :: radio_calls tr
  | Ev.bt_le_adv_stop :: tr => Ev.bt_le_adv_stop :: radio_calls tr
  | _ :: tr => radio_calls tr

/-- The calls of `bt_le_adv_update_data` recorded in a trace: their advertising data. -/
def update_calls : List Ev → List (List bt_data)
  | [] => []
  | Ev.bt_le_adv_update_data ad :: tr => ad :: update_calls tr
  | _ :: tr => update_calls tr

/-- The calls of `k_work_reschedule` recorded in a trace: their delays. -/
def reschedules : List Ev → List Nat
  | [] => []
  | Ev.k_work_reschedule d :: tr => d :: reschedules tr
  | _ :: tr => reschedules tr

/-- The cached payload: the first `last_svc_len` bytes of `last_svc_buf`. -/
def cached_payload (s : State) : List Nat := s.last_svc_buf.take s.last_svc_len

/-- A label of 40 bytes, all `'a'`. -/
def long_label : CStr := List.replicate 40 97

/-- The state the payload section leaves for a text `text` that fits into `rs`. -/
def after_payload (s : State) (text : CStr) : State :=
  { s with
    adata := s.adata.take 5 ++ text.take 17 ++ s.adata.drop (5 + min text.length 17),
    adatasize := 5 + min text.length 17 }

/-- The advertising data of the `bt_le_adv_start` and `bt_le_adv_update_data` calls
recorded in a trace. -/
def radio_ads : List Ev → List (List bt_data)
  | [] => []
  | Ev.bt_le_adv_start ad :: tr => ad :: radio_ads tr
  | Ev.bt_le_adv_update_data ad :: tr => ad :: radio_ads tr
  | _ :: tr => radio_ads tr

/-- A state in data-forwarding mode. -/
def forwarding_state : State :=
  { init_state true with ml_app_mode := MlAppMode.ML_APP_MODE_DATA_FORWARDING }

/-- A state in model-running mode with the radio stack ready and advertising not started. -/
def ready_idle_state : State :=
  { init_state false with
    ml_app_mode := MlAppMode.ML_APP_MODE_MODEL_RUNNING, ble_ready := true }

/-- A state with the radio stack ready and advertising started, last updated at time 0. -/
def active_state : State :=
  { ready_idle_state with adv_started := true, adv_last_update_ms := 0 }

/-- A state in which the radio stack is not ready and a retry is already pending. -/
def not_ready_state : State :=
  { init_state false with adv_retry_work := some 150 }

/-- A sample with confidence 0.5 and no anomaly score (the sentinel -1). -/
def no_anomaly_sample : ml_result_event := ⟨some (cstr "zoom_in"), 1 / 2, -1, 12, 345, 0⟩

/-! ## Event handlers -/

/-- The errno value `EALREADY` of Zephyr's `errno.h`. -/
def EALREADY : Int := 120

/-- The `struct led_ready_event` of CAF: the LED and the effect that finished. -/
structure led_ready_event where
  led_id : Nat
  led_effect : led_effect_ptr
  deriving DecidableEq

/-- The `struct ml_app_mode_event`. -/
structure ml_app_mode_event where
  mode : MlAppMode
  deriving DecidableEq

/-- The `struct sensor_sim_event`. -/
structure sensor_sim_event where
  label : Option CStr
  deriving DecidableEq

/-- The `struct ei_data_forwarder_event`. -/
structure ei_data_forwarder_event where
  state : EiDataForwarderState
  deriving DecidableEq

/-- The modules whose state events `handle_module_state_event` tells apart. -/
inductive ModuleId where
  | ble_state
  | main
  | other
  deriving DecidableEq

/-- The `struct module_state_event`: a module and whether its new state is
`MODULE_STATE_READY`. -/
structure module_state_event where
  module_id : ModuleId
  is_ready : Bool
  deriving DecidableEq

/-- The build options of the event handlers that are not fields of `Config`. -/
structure Features where
  /-- Whether `CONFIG_ML_APP_ML_RESULT_EVENTS` is enabled. -/
  DISPLAY_ML_RESULTS : Bool
  /-- Whether `CONFIG_ML_APP_EI_DATA_FORWARDER_EVENTS` is enabled. -/
  DISPLAY_DATA_FORWARDER : Bool
  /-- Whether `CONFIG_CAF_BLE_STATE` is defined. -/
  CONFIG_CAF_BLE_STATE : Bool
  deriving DecidableEq

/-- The index of a forwarder state in `ei_data_forwarder_led_effects`: its enum value. -/
def forwarder_index : EiDataForwarderState → Nat
  | EiDataForwarderState.EI_DATA_FORWARDER_STATE_DISABLED => 0
  | EiDataForwarderState.EI_DATA_FORWARDER_STATE_DISCONNECTED => 1
  | EiDataForwarderState.EI_DATA_FORWARDER_STATE_CONNECTED => 2
  | EiDataForwarderState.EI_DATA_FORWARDER_STATE_TRANSMITTING => 3

/-- The function `start_initial_adv`. -/
def start_initial_adv (s : State) (env : Env) : State × List Ev :=
  adv_start_or_update s init_adata env

/-- The function `bt_ready_cb`. -/
def bt_ready_cb (s : State) (err : Int) (env : Env) : State × List Ev :=
  if err ≠ 0 then (s, [])
  else start_initial_adv { s with ble_ready := true } env

/-- The function `led_ble_sysinit`; `bt_enable_err` is the return value of `bt_enable`. -/
def led_ble_sysinit (s : State) (bt_enable_err : Int) (env : Env) : State × List Ev :=
  if bt_enable_err = -EALREADY then
    ((start_initial_adv { s with ble_ready := true } env).1,
      Ev.bt_enable :: (start_initial_adv { s with ble_ready := true } env).2)
  else (s, [Ev.bt_enable])

/-- The function `handle_sensor_sim_event`. -/
def handle_sensor_sim_event (cfg : Config) (s : State) (event : sensor_sim_event) :
    State × List Ev :=
  display_sensor_sim cfg s event.label

/-- The function `handle_ei_data_forwarder_event`. -/
def handle_ei_data_forwarder_event (s : State) (event : ei_data_forwarder_event) :
    State × List Ev :=
  if s.ml_app_mode = MlAppMode.ML_APP_MODE_DATA_FORWARDING then
    ({ s with forwarder_state := event.state },
      [Ev.led_event (led_map.getD LED_ID_ML_STATE 0)
        (led_effect_ptr.ei_data_forwarder (forwarder_index event.state))])
  else ({ s with forwarder_state := event.state }, [])

/-- The function `handle_led_ready_event`. -/
def handle_led_ready_event (cfg : Config) (s : State) (event : led_ready_event) :
    State × List Ev :=
  if event.led_id = led_map.getD LED_ID_ML_STATE 0 ∧
      s.ml_app_mode = MlAppMode.ML_APP_MODE_MODEL_RUNNING ∧
      s.blocking_led_effect = some event.led_effect then
    display_ml_result cfg s none true
  else (s, [])

/-- The function `handle_ml_app_mode_event`. -/
def handle_ml_app_mode_event (cfg : Config) (s : State) (event : ml_app_mode_event) :
    State × List Ev :=
  match event.mode with
  | MlAppMode.ML_APP_MODE_MODEL_RUNNING =>
    display_ml_result cfg (clear_prediction { s with ml_app_mode := event.mode }) none true
  | MlAppMode.ML_APP_MODE_DATA_FORWARDING =>
    ({ s with ml_app_mode := event.mode },
      [Ev.led_event (led_map.getD LED_ID_ML_STATE 0)
        (led_effect_ptr.ei_data_forwarder (forwarder_index s.forwarder_state))])
  | MlAppMode.ML_APP_MODE_COUNT => ({ s with ml_app_mode := event.mode }, [])

/-- The function `handle_module_state_event`; `bt_enable_err` is the return value of
`bt_enable` if it is called.  The `static` flag `initialized` is read only by an
assertion and is left out. -/
def handle_module_state_event (feat : Features) (s : State) (event : module_state_event)
    (bt_enable_err : Int) (env : Env) : State × List Ev :=
  if feat.CONFIG_CAF_BLE_STATE = true ∧ event.module_id = ModuleId.ble_state ∧
      event.is_ready = true then
    start_initial_adv { s with ble_ready := true } env
  else if event.module_id = ModuleId.main ∧ event.is_ready = true then
    if s.ble_ready = false then
      ((led_ble_sysinit s bt_enable_err env).1,
        Ev.module_set_state_ready :: Ev.signin true :: (led_ble_sysinit s bt_enable_err env).2)
    else (s, [Ev.module_set_state_ready, Ev.signin true])
  else (s, [])

/-- The events the module listens to. -/
inductive app_event where
  | ml_result (e : ml_result_event)
  | sensor_sim (e : sensor_sim_event)
  | ei_data_forwarder (e : ei_data_forwarder_event)
  | led_ready (e : led_ready_event)
  | ml_app_mode (e : ml_app_mode_event)
  | module_state (e : module_state_event)

/-- The function `app_event_handler`; an event whose kind is not handled in the build
leaves the state as it is. -/
def app_event_handler (cfg : Config) (feat : Features) (s : State) (ev : app_event)
    (bt_enable_err : Int) (env : Env) : Option (State × List Ev) :=
  match ev with
  | app_event.ml_result e =>
    if feat.DISPLAY_ML_RESULTS = true then handle_ml_result_event cfg s e env else some (s, [])
  | app_event.sensor_sim e =>
    if cfg.DISPLAY_SIM_SIGNAL = true then some (handle_sensor_sim_event cfg s e)
    else some (s, [])
  | app_event.ei_data_forwarder e =>
    if feat.DISPLAY_DATA_FORWARDER = true then some (handle_ei_data_forwarder_event s e)
    else some (s, [])
  | app_event.led_ready e => some (handle_led_ready_event cfg s e)
  | app_event.ml_app_mode e => some (handle_ml_app_mode_event cfg s e)
  | app_event.module_state e => some (handle_module_state_event feat s e bt_enable_err env)

/-- The states the module can be in: the start-up state and every state reached from it
by an event, by the callback `bt_ready_cb`, by the start-up hook `led_ble_sysinit` or by
the retry work item running while it is scheduled. -/
inductive Reachable (cfg : Config) (feat : Features) : State → Prop where
  | init : Reachable cfg feat (init_state feat.DISPLAY_DATA_FORWARDER)
  | event (s : State) (ev : app_event) (bt_enable_err : Int) (env : Env)
      (r : State × List Ev) :
      Reachable cfg feat s → app_event_handler cfg feat s ev bt_enable_err env = some r →
      Reachable cfg feat r.1
  | bt_ready (s : State) (err : Int) (env : Env) :
      Reachable cfg feat s → Reachable cfg feat (bt_ready_cb s err env).1
  | sysinit (s : State) (bt_enable_err : Int) (env : Env) :
      Reachable cfg feat s → Reachable cfg feat (led_ble_sysinit s bt_enable_err env).1
  | retry (s : State) (env : Env) :
      Reachable cfg feat s → s.adv_retry_work ≠ none →
      Reachable cfg feat (adv_retry_fn s env).1

/-- The events submitted to the application during a trace: LED display requests and
sign-in notifications. -/
def emissions : List Ev → List Ev
  | [] => []
  | Ev.led_event i e :: tr => Ev.led_event i e :: emissions tr
  | Ev.signin b :: tr => Ev.signin b :: emissions tr
  | _ :: tr => emissions tr

/-- Delivering a sequence of classification samples to `handle_ml_result_event`, each
with its environment: the final state and the whole trace. -/
def run_samples (cfg : Config) : State → List (ml_result_event × Env) →
    Option (State × List Ev)
  | s, [] => some (s, [])
  | s, (e, env) :: rest =>
    match handle_ml_result_event cfg s e env with
    | none => none
    | some r =>
      match run_samples cfg r.1 rest with
      | none => none
      | some r2 => some (r2.1, r.2 ++ r2.2)

/-- Delivering a sequence of events to `app_event_handler`: the state after each event
and the trace of its handling. -/
def run_events (cfg : Config) (feat : Features) : State → List (app_event × Int × Env) →
    Option (List (State × List Ev))
  | _, [] => some []
  | s, (ev, bt_enable_err, env) :: rest =>
    match app_event_handler cfg feat s ev bt_enable_err env with
    | none => none
    | some r =>
      match run_events cfg feat r.1 rest with
      | none => none
      | some rs => some (r :: rs)

/-- Whether an event can end the suspension by the blocking effect `b`: the driver's
acknowledgment of `b` on the ML-state LED, or an entry into model-running mode. -/
def releases (b : led_effect_ptr) : app_event → Prop
  | app_event.led_ready e => e.led_id = led_map.getD LED_ID_ML_STATE 0 ∧ e.led_effect = b
  | app_event.ml_app_mode e => e.mode = MlAppMode.ML_APP_MODE_MODEL_RUNNING
  | _ => False

/-- The payload encoded from the sample `"zoom_in"` with timings 12, 345, 0. -/
def zoom_in_payload : List Nat := preamble ++ cstr "zoom_in;12;345;0"

/-- A state in which the radio stack is not ready and the cached payload is
`zoom_in_payload`: the start-up state after a request with that payload. -/
def not_ready_cached_state : State :=
  (adv_start_or_update (init_state false) zoom_in_payload ⟨500, 0⟩).1

/-- A build in which all optional event kinds are handled. -/
def all_features : Features := ⟨true, true, true⟩

/-- A state in model-running mode in which the effect of table entry 3 is pending as the
blocking effect. -/
def suspended_state : State :=
  { ready_idle_state with blocking_led_effect := some (led_effect_ptr.ml_result 3) }

/-- The request by which `display_ml_result` re-displays the sensor-simulation effect on
its LED before it displays the effect of table entry `new_effect`: made when
`DISPLAY_SIM_SIGNAL` is enabled, `new_effect` is not the default effect and a
sensor-simulation effect is set. -/
def sensor_sim_sync (cfg : Config) (s : State) (new_effect : Nat) : List Ev :=
  if cfg.DISPLAY_SIM_SIGNAL = true ∧ new_effect ≠ 0 then
    match s.sensor_sim_effect with
    | some j => [Ev.led_event (led_map.getD LED_ID_SENSOR_SIM 0) (led_effect_ptr.ml_result j)]
    | none => []
  else []

/-- The pending blocking effect `display_ml_result` records for table entry `i`. -/
def blocking_after (cfg : Config) (i : Nat) : Option led_effect_ptr :=
  if is_led_effect_blocking (effect_at cfg i) = true then some (led_effect_ptr.ml_result i)
  else none

/-- The shipped configuration with `CONFIG_ML_APP_SENSOR_SIM_EVENTS` enabled. -/
def sensor_sim_config : Config := { thingy52_config with DISPLAY_SIM_SIGNAL := true }

/-- The state after a sensor-simulation event with label `"zoom_in"` in model-running
mode. -/
def sensor_sim_state : State :=
  (handle_sensor_sim_event sensor_sim_config ready_idle_state ⟨some (cstr "zoom_in")⟩).1

/-- What holds in every reachable state: `adata` is 64 bytes with the preamble in front,
and while a blocking effect is pending the prediction state is cleared. -/
def state_inv (s : State) : Prop :=
  adata_ok s ∧ (s.blocking_led_effect ≠ none → s.cur_label = none ∧ s.prediction_streak = 0)

/-- A configuration like the shipped one, except that the streak threshold is 1 and the
effect of `"zoom_in"` is a two-step effect that does not loop, hence a blocking one. -/
def blocking_config : Config :=
  { thingy52_config with
    PREDICTION_STREAK_THRESH := 1,
    ml_result_led_effects :=
      (ml_result_led_effects (cstr "_anomaly")).set 3 ⟨some (cstr "zoom_in"), ⟨2, false⟩⟩ }

/-- The state after the module entered model-running mode from start-up. -/
def running_state (cfg : Config) : State :=
  (handle_ml_app_mode_event cfg (init_state true) ⟨MlAppMode.ML_APP_MODE_MODEL_RUNNING⟩).1

/-- What `display_ml_result(label, false)` submits in state `s`: nothing when the effect
of the label is the displayed one, else the sensor-simulation request if any, the request
for the effect on the ML-state LED and the notification. -/
def stable_emissions (cfg : Config) (s : State) (label : Option CStr) : List Ev :=
  if s.ml_result_effect = some (get_led_effect cfg label) then []
  else
    sensor_sim_sync cfg s (get_led_effect cfg label) ++
      [Ev.led_event (led_map.getD LED_ID_ML_STATE 0)
          (led_effect_ptr.ml_result (get_led_effect cfg label)),
       Ev.signin (!is_led_effect_blocking (effect_at cfg (get_led_effect cfg label)))]

/-- A sample that the scenario of a run of accepted samples with label `L` delivers: it
has label `L`, is accepted by the value rule, its timings are C `int`s and its text fits
into `rs`. -/
def scenario_sample (cfg : Config) (L : Option CStr) (e : ml_result_event) : Prop :=
  e.label = L ∧ accepted_by_value cfg e ∧
  is_int e.dsp_time ∧ is_int e.classification_time ∧ is_int e.anomaly_time ∧
  (text_field e.label e.dsp_time e.classification_time e.anomaly_time).length ≤ 39

/-- Three deliveries of the accepted `"zoom_in"` sample: a full streak for the shipped
configuration. -/
def zoom_in_run : List (ml_result_event × Env) :=
  [(zoom_in_sample, ⟨1000, 0⟩), (zoom_in_sample, ⟨1100, 0⟩), (zoom_in_sample, ⟨1200, 0⟩)]

/-! ## Activations of the module -/

/-- The bytes `adv_start_or_update` copies into `last_svc_buf`:
`memcpy(last_svc_buf, svc_data, MIN(svc_len, sizeof(last_svc_buf)))`. -/
def cached_bytes (svc_data : List Nat) : List Nat := svc_data.take (min svc_data.length 31)

/-- One activation of the module: an event delivered to `app_event_handler`, the callback
`bt_ready_cb`, the start-up hook `led_ble_sysinit`, or the work queue reaching
`adv_retry_work`. -/
inductive Step where
  | event (ev : app_event) (bt_enable_err : Int) (env : Env)
  | bt_ready (err : Int) (env : Env)
  | sysinit (bt_enable_err : Int) (env : Env)
  | retry (env : Env)

/-- One activation run in state `s`.  The work queue runs `adv_retry_fn` only while the
work item is scheduled. -/
def step (cfg : Config) (feat : Features) (s : State) : Step → Option (State × List Ev)
  | Step.event ev bt_enable_err env => app_event_handler cfg feat s ev bt_enable_err env
  | Step.bt_ready err env => some (bt_ready_cb s err env)
  | Step.sysinit bt_enable_err env => some (led_ble_sysinit s bt_enable_err env)
  | Step.retry env =>
    if s.adv_retry_work = none then some (s, []) else some (adv_retry_fn s env)

/-- A sequence of activations: the final state and the whole trace. -/
def run_steps (cfg : Config) (feat : Features) : State → List Step →
    Option (State × List Ev)
  | s, [] => some (s, [])
  | s, st :: rest =>
    match step cfg feat s st with
    | none => none
    | some r =>
      match run_steps cfg feat r.1 rest with
      | none => none
      | some r2 => some (r2.1, r.2 ++ r2.2)

/-- What one activation does to the cache: it makes no request and leaves `last_svc_buf`
and `last_svc_len` as they were, or it makes one request and the cache holds its bytes. -/
def cache_tracks (s : State) (r : State × List Ev) : Prop :=
  (adv_calls r.2 = [] ∧ r.1.last_svc_buf = s.last_svc_buf ∧ r.1.last_svc_len = s.last_svc_len) ∨
  (∃ q, adv_calls r.2 = [q] ∧ cached_payload r.1 = cached_bytes q ∧
    r.1.last_svc_len = min q.length 31)

/-- A state with advertising started, the last update made at time 1060 and a retry
pending: from `active_state`, an update refused with `-EBUSY` at time 1000 schedules the
retry, and the update that succeeds at time 1060 leaves it scheduled. -/
def retry_pending_state : State :=
  (adv_start_or_update (adv_start_or_update active_state init_adata ⟨1000, -EBUSY⟩).1
    init_adata ⟨1060, 0⟩).1

/-! ## Lemmas on the debouncer -/

theorem label_changed_iff (a b : Option CStr) : label_changed a b = true ↔ a ≠ b := by
  cases a <;> cases b <;> simp [label_changed]

theorem display_calls_append (a b : List Ev) :
    display_calls (a ++ b) = display_calls a ++ display_calls b := by
  induction a with
  | nil => rfl
  | cons e a ih => cases e <;> simp [display_calls, ih]

theorem display_calls_display_sensor_sim (cfg : Config) (s : State) (l : Option CStr) :
    display_calls (display_sensor_sim cfg s l).2 = [] := by
  unfold display_sensor_sim
  cases l <;> simp only <;> (try split) <;> simp [display_calls]

/-- A call of `display_ml_result` records exactly its own entry. -/
theorem display_calls_display_ml_result (cfg : Config) (s : State) (l : Option CStr) (f : Bool) :
    display_calls (display_ml_result cfg s l f).2 = [(l, f)] := by
  unfold display_ml_result
  simp only
  split
  · simp [display_calls]
  · split <;> split <;>
      simp [display_calls, display_calls_append, display_calls_display_sensor_sim]

/-- The function `display_ml_result` does not touch the prediction state. -/
theorem display_ml_result_prediction (cfg : Config) (s : State) (l : Option CStr) (f : Bool) :
    (display_ml_result cfg s l f).1.cur_label = s.cur_label ∧
    (display_ml_result cfg s l f).1.prediction_streak = s.prediction_streak := by
  unfold display_ml_result display_sensor_sim
  simp only
  split
  · simp
  · split <;> split <;> (try split) <;> simp

theorem classify_accepted_by_value (cfg : Config) (e : ml_result_event)
    (h : accepted_by_value cfg e) : classify cfg e.label e.value e.anomaly = (e.label, true) := by
  obtain ⟨h1, h2⟩ := h
  unfold classify
  simp only [decide_eq_true_eq]
  rw [if_neg h1, if_pos h2]

/-- The state after the label test and the increment, for an accepted sample. -/
theorem debounce_accept_cases (cfg : Config) (s : State) (l : Option CStr) :
    debounce cfg s l true =
      (if (if l = s.cur_label then s.prediction_streak else 0) + 1 ≥ cfg.PREDICTION_STREAK_THRESH
        then
          (clear_prediction (display_ml_result cfg
              { s with cur_label := l,
                       prediction_streak := (if l = s.cur_label then s.prediction_streak else 0) + 1 }
              l false).1,
           (display_ml_result cfg
              { s with cur_label := l,
                       prediction_streak := (if l = s.cur_label then s.prediction_streak else 0) + 1 }
              l false).2)
        else
          ({ s with cur_label := l,
                    prediction_streak := (if l = s.cur_label then s.prediction_streak else 0) + 1 },
           [])) := by
  unfold debounce
  by_cases h : l = s.cur_label
  · have hch : label_changed l s.cur_label = false := by
      rw [← Bool.not_eq_true, label_changed_iff]; simp [h]
    rw [hch]
    subst h
    simp
  · have hch : label_changed l s.cur_label = true := (label_changed_iff _ _).2 h
    rw [hch]
    simp only [if_true, if_neg h]

/-- The state after the label test, for a sample that is not accepted. -/
theorem debounce_reject_cases (cfg : Config) (s : State) (l : Option CStr) :
    debounce cfg s l false =
      (if (if l = s.cur_label then s.prediction_streak else 0) ≥ cfg.PREDICTION_STREAK_THRESH
        then
          (clear_prediction (display_ml_result cfg
              { s with cur_label := l,
                       prediction_streak := (if l = s.cur_label then s.prediction_streak else 0) }
              l false).1,
           (display_ml_result cfg
              { s with cur_label := l,
                       prediction_streak := (if l = s.cur_label then s.prediction_streak else 0) }
              l false).2)
        else
          ({ s with cur_label := l,
                    prediction_streak := (if l = s.cur_label then s.prediction_streak else 0) },
           [])) := by
  unfold debounce
  by_cases h : l = s.cur_label
  · have hch : label_changed l s.cur_label = false := by
      rw [← Bool.not_eq_true, label_changed_iff]; simp [h]
    rw [hch]
    subst h
    simp
  · have hch : label_changed l s.cur_label = true := (label_changed_iff _ _).2 h
    rw [hch]
    simp only [if_true, if_neg h]
    rfl

/-- One accepted sample with label `L`, `c` such samples having been counted: the call
stabilises exactly when it is the `PREDICTION_STREAK_THRESH`-th, and then clears. -/
theorem led_step_accepted (cfg : Config) (L : Option CStr) (c : Nat) (s : State)
    (hc : c < cfg.PREDICTION_STREAK_THRESH) (hs : streak_state L c s)
    (e : ml_result_event) (hl : e.label = L) (ha : accepted_by_value cfg e) :
    (c + 1 = cfg.PREDICTION_STREAK_THRESH →
      display_calls (update_ml_result_led cfg s e.label e.value e.anomaly).2 = [(L, false)] ∧
      streak_state L 0 (update_ml_result_led cfg s e.label e.value e.anomaly).1) ∧
    (c + 1 ≠ cfg.PREDICTION_STREAK_THRESH →
      display_calls (update_ml_result_led cfg s e.label e.value e.anomaly).2 = [] ∧
      streak_state L (c + 1) (update_ml_result_led cfg s e.label e.value e.anomaly).1) := by
  obtain ⟨hs1, hs2, hs3⟩ := hs
  have hcl := classify_accepted_by_value cfg e ha
  have key : (if L = s.cur_label then s.prediction_streak else 0) = c := by
    by_cases h : L = s.cur_label
    · rw [if_pos h, hs1]
    · rw [if_neg h]
      by_contra h0
      exact h (hs3 (Ne.symm h0)).symm
  unfold update_ml_result_led
  rw [hcl, hl]
  simp only
  rw [debounce_accept_cases, key]
  constructor
  · intro hN
    rw [if_pos (by omega)]
    exact ⟨display_calls_display_ml_result _ _ _ _, by simp [streak_state, clear_prediction]⟩
  · intro hN
    rw [if_neg (by omega)]
    exact ⟨rfl, rfl, by simp, fun _ => rfl⟩

theorem dvd_succ_iff_eq_of_lt {N c : Nat} (hc : c < N) : N ∣ c + 1 ↔ c + 1 = N := by
  constructor
  · intro h
    have := Nat.le_of_dvd (Nat.succ_pos c) h
    omega
  · intro h
    rw [h]

/-- A run of accepted samples with label `L`, started when `c` such samples had been
counted: sample number `k + 1` of the run stabilises exactly when the threshold divides
`c + k + 1`. -/
theorem feed_led_accepted (cfg : Config) (L : Option CStr) :
    ∀ (es : List ml_result_event) (s : State) (c : Nat),
      c < cfg.PREDICTION_STREAK_THRESH → streak_state L c s →
      (∀ e ∈ es, e.label = L ∧ accepted_by_value cfg e) →
      ∀ (k : Nat) (r : State × List Ev), (feed_led cfg s es)[k]? = some r →
        display_calls r.2 =
          (if cfg.PREDICTION_STREAK_THRESH ∣ c + k + 1 then [(L, false)] else []) ∧
        (cfg.PREDICTION_STREAK_THRESH ∣ c + k + 1 →
          r.1.prediction_streak = 0 ∧ r.1.cur_label = none) := by
  intro es
  induction es with
  | nil => intro s c _ _ _ k r h; simp [feed_led] at h
  | cons e es ih =>
    intro s c hc hs hes k r h
    have he := hes e (List.mem_cons_self _ _)
    have hstep := led_step_accepted cfg L c s hc hs e he.1 he.2
    have hes' : ∀ e ∈ es, e.label = L ∧ accepted_by_value cfg e :=
      fun x hx => hes x (List.mem_cons_of_mem _ hx)
    cases k with
    | zero =>
      simp only [feed_led, List.getElem?_cons_zero, Option.some.injEq] at h
      subst h
      simp only [Nat.add_zero]
      by_cases hN : c + 1 = cfg.PREDICTION_STREAK_THRESH
      · have hd := (dvd_succ_iff_eq_of_lt hc).2 hN
        obtain ⟨h1, h2, h3, _⟩ := hstep.1 hN
        exact ⟨by rw [if_pos hd]; exact h1, fun _ => ⟨h2, h3 rfl⟩⟩
      · have hd : ¬ cfg.PREDICTION_STREAK_THRESH ∣ c + 1 :=
          fun hd => hN ((dvd_succ_iff_eq_of_lt hc).1 hd)
        obtain ⟨h1, _⟩ := hstep.2 hN
        exact ⟨by rw [if_neg hd]; exact h1, fun h0 => absurd h0 hd⟩
    | succ k =>
      simp only [feed_led, List.getElem?_cons_succ] at h
      by_cases hN : c + 1 = cfg.PREDICTION_STREAK_THRESH
      · obtain ⟨_, h2⟩ := hstep.1 hN
        have := ih _ 0 (by omega) h2 hes' k r h
        have hiff : cfg.PREDICTION_STREAK_THRESH ∣ c + (k + 1) + 1 ↔
            cfg.PREDICTION_STREAK_THRESH ∣ 0 + k + 1 := by
          have e1 : c + (k + 1) + 1 = cfg.PREDICTION_STREAK_THRESH + (0 + k + 1) := by omega
          rw [e1]
          exact Nat.dvd_add_right (dvd_refl _)
        simpa only [hiff] using this
      · obtain ⟨_, h2⟩ := hstep.2 hN
        have := ih _ (c + 1) (by omega) h2 hes' k r h
        have e1 : c + (k + 1) + 1 = c + 1 + k + 1 := by omega
        simpa only [e1] using this

/-- A run of accepted samples with label `L` that does not go beyond the next
stabilisation: it stabilises once if it reaches the threshold and not at all otherwise. -/
theorem run_display_calls_accepted (cfg : Config) (L : Option CStr) :
    ∀ (es : List ml_result_event) (s : State) (c : Nat),
      c < cfg.PREDICTION_STREAK_THRESH → streak_state L c s →
      (∀ e ∈ es, e.label = L ∧ accepted_by_value cfg e) →
      c + es.length ≤ cfg.PREDICTION_STREAK_THRESH →
      run_display_calls (feed_led cfg s es) =
        (if c + es.length = cfg.PREDICTION_STREAK_THRESH then [(L, false)] else []) := by
  intro es
  induction es with
  | nil =>
    intro s c hc _ _ _
    have : ¬ (c + ([] : List ml_result_event).length = cfg.PREDICTION_STREAK_THRESH) := by
      simp only [List.length_nil]; omega
    rw [if_neg this]; rfl
  | cons e es ih =>
    intro s c hc hs hes hlen
    have he := hes e (List.mem_cons_self _ _)
    have hstep := led_step_accepted cfg L c s hc hs e he.1 he.2
    have hes' : ∀ e ∈ es, e.label = L ∧ accepted_by_value cfg e :=
      fun x hx => hes x (List.mem_cons_of_mem _ hx)
    simp only [List.length_cons] at hlen ⊢
    simp only [feed_led, run_display_calls]
    by_cases hN : c + 1 = cfg.PREDICTION_STREAK_THRESH
    · obtain ⟨h1, _⟩ := hstep.1 hN
      have hnil : es = [] := List.eq_nil_of_length_eq_zero (by omega)
      subst hnil
      rw [h1, if_pos (by simp only [List.length_nil]; omega)]
      rfl
    · obtain ⟨h1, h2⟩ := hstep.2 hN
      rw [h1, ih _ (c + 1) (by omega) h2 hes' (by omega)]
      have e1 : c + 1 + es.length = c + (es.length + 1) := by omega
      simp only [e1, List.nil_append]

theorem classify_rejected (cfg : Config) (e : ml_result_event) (h : rejected cfg e) :
    classify cfg e.label e.value e.anomaly = (none, false) := by
  obtain ⟨h1, h2, h3⟩ := h
  unfold classify
  simp only [decide_eq_true_eq, decide_eq_false_iff_not]
  rw [if_neg (fun h => h3 h.2), if_neg (not_le.2 h1), if_neg (fun h => h h2)]

/-- What the LED section does with a rejected sample: `new_label` is NULL, so a current
label that is a text is replaced by NULL and the streak is set to 0. -/
theorem update_ml_result_led_rejected (cfg : Config) (s : State) (e : ml_result_event)
    (hN : 0 < cfg.PREDICTION_STREAK_THRESH) (h : rejected cfg e) (hl : s.cur_label ≠ none) :
    update_ml_result_led cfg s e.label e.value e.anomaly =
      ({ s with cur_label := none, prediction_streak := 0 }, []) := by
  unfold update_ml_result_led
  rw [classify_rejected cfg e h]
  simp only
  rw [debounce_reject_cases, if_neg (Ne.symm hl), if_neg (by omega)]

/-- With no current label, a rejected sample leaves the state as it is. -/
theorem update_ml_result_led_rejected_none (cfg : Config) (s : State) (e : ml_result_event)
    (h : rejected cfg e) (hl : s.cur_label = none)
    (hst : s.prediction_streak < cfg.PREDICTION_STREAK_THRESH) :
    update_ml_result_led cfg s e.label e.value e.anomaly = (s, []) := by
  unfold update_ml_result_led
  rw [classify_rejected cfg e h]
  simp only
  rw [debounce_reject_cases, if_pos hl.symm, if_neg (by omega), ← hl]

theorem classify_anomaly (cfg : Config) (label : Option CStr) (value anomaly : ℚ)
    (h0 : anomaly ≥ 0) (h1 : anomaly > ANOMALY_THRESH cfg) :
    classify cfg label value anomaly = (some cfg.ANOMALY_LABEL, true) := by
  unfold classify
  simp only [decide_eq_true_eq]
  rw [if_pos ⟨h0, h1⟩]

/-- After every call of the LED section the streak is below the threshold, so the
`size_t` counter never wraps. -/
theorem debounce_streak_lt (cfg : Config) (s : State) (l : Option CStr) (a : Bool)
    (hN : 0 < cfg.PREDICTION_STREAK_THRESH) :
    (debounce cfg s l a).1.prediction_streak < cfg.PREDICTION_STREAK_THRESH := by
  cases a
  · rw [debounce_reject_cases]
    by_cases h : (if l = s.cur_label then s.prediction_streak else 0) ≥
        cfg.PREDICTION_STREAK_THRESH
    · rw [if_pos h]
      simpa [clear_prediction] using hN
    · rw [if_neg h]
      simpa using h
  · rw [debounce_accept_cases]
    by_cases h : (if l = s.cur_label then s.prediction_streak else 0) + 1 ≥
        cfg.PREDICTION_STREAK_THRESH
    · rw [if_pos h]
      simpa [clear_prediction] using hN
    · rw [if_neg h]
      simpa using h

theorem zoom_in_sample_accepted : accepted_by_value thingy52_config zoom_in_sample := by
  simp only [accepted_by_value, zoom_in_sample, ANOMALY_THRESH, VALUE_THRESH, thingy52_config]
  norm_num

theorem low_confidence_sample_rejected : rejected thingy52_config low_confidence_sample := by
  simp only [rejected, low_confidence_sample, ANOMALY_THRESH, VALUE_THRESH, thingy52_config]
  norm_num

/-! ## Lemmas on the payload encoder -/

theorem cstr_semicolon : cstr ";" = [59] := by decide

theorem dec_digits_length_le (n : Nat) (h : n < 10 ^ 10) : (dec_digits n).length ≤ 10 := by
  unfold dec_digits Nat.toDigits
  rw [List.length_map]
  exact Nat.toDigitsCore_length 10 (by decide) (n + 1) n 10 h (by decide)

theorem fmt_d_length_le (v : Int) (h : is_int v) : (fmt_d v).length ≤ 11 := by
  obtain ⟨h1, h2⟩ := h
  have hn : v.natAbs < 10 ^ 10 := by omega
  have := dec_digits_length_le _ hn
  unfold fmt_d
  split
  · simp only [List.length_cons]; omega
  · omega

theorem snprintf_d_eq (v : Int) (h : is_int v) : snprintf_d 16 v = fmt_d v := by
  unfold snprintf_d
  exact List.take_of_length_le (by have := fmt_d_length_le v h; omega)

theorem strncat_eq (dst src : CStr) (h : src.length ≤ 39) :
    strncat 40 dst src 39 =
      if dst.length + src.length ≤ 39 then some (dst ++ src) else none := by
  unfold strncat
  rw [List.take_of_length_le h]
  simp only [List.length_append]
  by_cases h2 : dst.length + src.length ≤ 39
  · rw [if_pos (by omega), if_pos h2]
  · rw [if_neg (by omega), if_neg h2]


theorem strncat_all_eq : ∀ (srcs : List CStr) (dst : CStr),
    dst.length ≤ 39 → (∀ x ∈ srcs, x.length ≤ 39) →
    strncat_all dst srcs =
      if (dst ++ concat_all srcs).length ≤ 39 then some (dst ++ concat_all srcs) else none := by
  intro srcs
  induction srcs with
  | nil =>
    intro dst hd _
    simp only [strncat_all, concat_all, List.append_nil]
    rw [if_pos hd]
  | cons x xs ih =>
    intro dst hd hx
    have hx0 := hx x (List.mem_cons_self _ _)
    have hxs : ∀ y ∈ xs, y.length ≤ 39 := fun y hy => hx y (List.mem_cons_of_mem _ hy)
    simp only [strncat_all, concat_all, strncat_eq dst x hx0]
    by_cases h : dst.length + x.length ≤ 39
    · rw [if_pos h, Option.some_bind, ih (dst ++ x) (by simpa using h) hxs, List.append_assoc]
    · rw [if_neg h, Option.none_bind, if_neg]
      simp only [List.length_append]
      omega

theorem compose_rs_eq (label : Option CStr) (t1 t2 t3 : Int)
    (h1 : is_int t1) (h2 : is_int t2) (h3 : is_int t3) :
    compose_rs label t1 t2 t3 =
      if (text_field label t1 t2 t3).length ≤ 39 then some (text_field label t1 t2 t3)
      else none := by
  have l1 := fmt_d_length_le t1 h1
  have l2 := fmt_d_length_le t2 h2
  have l3 := fmt_d_length_le t3 h3
  have hall : ∀ x ∈ [[59], fmt_d t1, [59], fmt_d t2, [59], fmt_d t3], x.length ≤ 39 := by
    intro x hx
    simp only [List.mem_cons, List.mem_singleton, List.not_mem_nil, or_false] at hx
    rcases hx with h | h | h | h | h | h <;> subst h <;> first | omega | simp
  have hchain : ∀ rs1 : CStr, strncat_all rs1 [[59], fmt_d t1, [59], fmt_d t2, [59], fmt_d t3] =
      (strncat 40 rs1 [59] 39).bind fun rs2 => (strncat 40 rs2 (fmt_d t1) 39).bind fun rs3 =>
      (strncat 40 rs3 [59] 39).bind fun rs4 => (strncat 40 rs4 (fmt_d t2) 39).bind fun rs5 =>
      (strncat 40 rs5 [59] 39).bind fun rs6 => strncat 40 rs6 (fmt_d t3) 39 := by
    intro rs1
    simp only [strncat_all, Option.bind_some]
  have hcomp : compose_rs label t1 t2 t3 =
      (match label with
        | some l => strncat 40 [] l 39
        | none => some []).bind
      fun rs1 => strncat_all rs1 [[59], fmt_d t1, [59], fmt_d t2, [59], fmt_d t3] := by
    simp only [hchain]
    unfold compose_rs
    rw [snprintf_d_eq t1 h1, snprintf_d_eq t2 h2, snprintf_d_eq t3 h3, cstr_semicolon]
    rfl
  rw [hcomp]
  unfold text_field
  rw [cstr_semicolon]
  cases label with
  | none =>
    simp only [Option.some_bind, Option.getD_none]
    rw [strncat_all_eq _ _ (by simp) hall]
    simp only [concat_all, List.append_assoc, List.append_nil]
  | some l =>
    simp only [Option.getD_some]
    by_cases hl : l.length ≤ 39
    · rw [strncat_eq [] l hl, if_pos (by simpa using hl), Option.some_bind,
        strncat_all_eq _ _ (by simpa using hl) hall]
      simp only [concat_all, List.append_assoc, List.append_nil, List.nil_append]
    · have : strncat 40 [] l 39 = some (l.take 39) := by
        unfold strncat
        rw [if_pos (by simp [List.length_take]), List.nil_append]
      have hlen : (l.take 39).length = 39 := by rw [List.length_take]; omega
      rw [this, Option.some_bind, strncat_all_eq _ _ (by omega) hall, if_neg, if_neg]
      · simp only [List.length_append]; omega
      · simp only [concat_all, List.length_append, List.length_singleton, hlen]; omega

theorem copy_rs_eq (rs : CStr) (adata : List Nat) :
    ∀ l : Nat, l ≤ rs.length → 5 + l ≤ adata.length →
      copy_rs rs l adata = adata.take 5 ++ rs.take l ++ adata.drop (5 + l) := by
  intro l
  induction l with
  | zero =>
    intro _ _
    simp [copy_rs]
  | succ l ih =>
    intro h1 h2
    have ih' := ih (by omega) (by omega)
    unfold copy_rs at ih' ⊢
    rw [List.range_succ, List.foldl_append, ih']
    simp only [List.foldl_cons, List.foldl_nil]
    have hlen : (adata.take 5 ++ rs.take l).length = l + 5 := by
      simp only [List.length_append, List.length_take]; omega
    rw [List.set_append_right _ _ (by omega), hlen, Nat.sub_self,
      List.drop_eq_getElem_cons (by omega : 5 + l < adata.length), List.set_cons_zero,
      List.getD_eq_getElem _ _ (by omega : l < rs.length),
      (List.take_succ : rs.take (l + 1) = _),
      List.getElem?_eq_getElem (by omega : l < rs.length)]
    simp only [Option.toList, List.append_assoc, List.singleton_append, Nat.add_assoc]

theorem store_rs_eq (adata : List Nat) (rs : CStr) (h : 22 ≤ adata.length) :
    store_rs RS_MAX_LEN adata rs =
      (adata.take 5 ++ rs.take 17 ++ adata.drop (5 + min rs.length 17), 5 + min rs.length 17) := by
  unfold store_rs RS_MAX_LEN
  simp only
  rw [copy_rs_eq rs adata _ (Nat.min_le_left _ _) (by omega)]
  have h1 : rs.take (min rs.length 17) = rs.take 17 := by
    rw [Nat.min_comm, ← List.take_take, List.take_length]
  have h2 : (5 + min rs.length 17 % 256) % 256 = 5 + min rs.length 17 := by omega
  rw [h1, h2]

/-- The payload section, when the text fits into `rs`: `adata` keeps its first five bytes,
takes the first 17 bytes of the text behind them and keeps the rest; `adatasize` is 5
plus the number of bytes taken. -/
theorem update_ml_result_payload_fits (s : State) (label : Option CStr) (t1 t2 t3 : Int)
    (h1 : is_int t1) (h2 : is_int t2) (h3 : is_int t3) (hok : adata_ok s)
    (hfit : (text_field label t1 t2 t3).length ≤ 39) :
    update_ml_result_payload s label t1 t2 t3 =
      some (after_payload s (text_field label t1 t2 t3)) := by
  unfold update_ml_result_payload after_payload
  rw [compose_rs_eq label t1 t2 t3 h1 h2 h3, if_pos hfit]
  simp only
  rw [store_rs_eq _ _ (by rw [hok.1]; decide)]

/-- The payload section, when the text does not fit into `rs`: a `strncat` call writes
beyond the array. -/
theorem update_ml_result_payload_overflow (s : State) (label : Option CStr) (t1 t2 t3 : Int)
    (h1 : is_int t1) (h2 : is_int t2) (h3 : is_int t3)
    (hfit : ¬ (text_field label t1 t2 t3).length ≤ 39) :
    update_ml_result_payload s label t1 t2 t3 = none := by
  unfold update_ml_result_payload
  rw [compose_rs_eq label t1 t2 t3 h1 h2 h3, if_neg hfit]

/-- The payload built from a text that fits: the preamble and the first 17 bytes of the
text, whatever `adata` held behind its first five bytes. -/
theorem payload_after_payload_section (s : State) (label : Option CStr) (t1 t2 t3 : Int)
    (hok : adata_ok s) :
    payload (after_payload s (text_field label t1 t2 t3)) =
      preamble ++ (text_field label t1 t2 t3).take 17 := by
  unfold payload after_payload
  simp only
  rw [hok.2]
  apply List.take_left'
  simp only [List.length_append, List.length_take, preamble, List.length_cons, List.length_nil]
  omega

/-- The payload section keeps `adata` at 64 bytes with the preamble in front. -/
theorem adata_ok_after_payload_section (s : State) (label : Option CStr) (t1 t2 t3 : Int)
    (hok : adata_ok s) :
    adata_ok (after_payload s (text_field label t1 t2 t3)) := by
  obtain ⟨hlen, hpre⟩ := hok
  unfold after_payload
  constructor
  · simp only [List.length_append, List.length_take, List.length_drop, hlen]
    omega
  · simp only
    rw [List.append_assoc]
    refine (List.take_left' ?_).trans hpre
    rw [List.length_take, hlen]
    rfl

/-- The function `display_ml_result` writes only `ml_result_effect`, `sensor_sim_effect`
and `blocking_led_effect`. -/
theorem display_ml_result_frame (cfg : Config) (s : State) (l : Option CStr) (f : Bool) :
    (display_ml_result cfg s l f).1 =
      { s with ml_result_effect := (display_ml_result cfg s l f).1.ml_result_effect,
               sensor_sim_effect := (display_ml_result cfg s l f).1.sensor_sim_effect,
               blocking_led_effect := (display_ml_result cfg s l f).1.blocking_led_effect } := by
  unfold display_ml_result display_sensor_sim
  simp only
  split
  · rfl
  · split <;> split <;> (try split) <;> rfl

/-- The LED section writes only the prediction state and what `display_ml_result` writes. -/
theorem debounce_frame (cfg : Config) (s : State) (l : Option CStr) (a : Bool) :
    (debounce cfg s l a).1 =
      { s with cur_label := (debounce cfg s l a).1.cur_label,
               prediction_streak := (debounce cfg s l a).1.prediction_streak,
               ml_result_effect := (debounce cfg s l a).1.ml_result_effect,
               sensor_sim_effect := (debounce cfg s l a).1.sensor_sim_effect,
               blocking_led_effect := (debounce cfg s l a).1.blocking_led_effect } := by
  cases a
  · rw [debounce_reject_cases]
    split_ifs <;> first | rfl | (simp only [clear_prediction]; rw [display_ml_result_frame])
  · rw [debounce_accept_cases]
    split_ifs <;> first | rfl | (simp only [clear_prediction]; rw [display_ml_result_frame])

theorem adv_calls_append (a b : List Ev) : adv_calls (a ++ b) = adv_calls a ++ adv_calls b := by
  induction a with
  | nil => rfl
  | cons e a ih => cases e <;> simp [adv_calls, ih]

theorem adv_calls_display_ml_result (cfg : Config) (s : State) (l : Option CStr) (f : Bool) :
    adv_calls (display_ml_result cfg s l f).2 = [] := by
  unfold display_ml_result display_sensor_sim
  simp only
  split
  · rfl
  · split <;> split <;> (try split) <;> rfl

/-- The LED section does not call `adv_start_or_update`. -/
theorem adv_calls_debounce (cfg : Config) (s : State) (l : Option CStr) (a : Bool) :
    adv_calls (debounce cfg s l a).2 = [] := by
  cases a
  · rw [debounce_reject_cases]
    split_ifs <;> first | rfl | exact adv_calls_display_ml_result _ _ _ _
  · rw [debounce_accept_cases]
    split_ifs <;> first | rfl | exact adv_calls_display_ml_result _ _ _ _

/-- Each call of `adv_start_or_update` records exactly its own entry. -/
theorem adv_calls_adv_start_or_update (s : State) (p : List Nat) (env : Env) :
    adv_calls (adv_start_or_update s p env).2 = [p] := by
  unfold adv_start_or_update
  simp only
  split
  · rfl
  · split
    · split
      · split <;> rfl
      · rfl
    · split
      · rfl
      · split
        · rfl
        · split
          · rfl
          · split <;> rfl

theorem radio_ads_append (a b : List Ev) : radio_ads (a ++ b) = radio_ads a ++ radio_ads b := by
  induction a with
  | nil => rfl
  | cons e a ih => cases e <;> simp [radio_ads, ih]

theorem radio_ads_display_ml_result (cfg : Config) (s : State) (l : Option CStr) (f : Bool) :
    radio_ads (display_ml_result cfg s l f).2 = [] := by
  unfold display_ml_result display_sensor_sim
  simp only
  split
  · rfl
  · split <;> split <;> (try split) <;> rfl

/-- The LED section does not call the radio stack. -/
theorem radio_ads_debounce (cfg : Config) (s : State) (l : Option CStr) (a : Bool) :
    radio_ads (debounce cfg s l a).2 = [] := by
  cases a
  · rw [debounce_reject_cases]
    split_ifs <;> first | rfl | exact radio_ads_display_ml_result _ _ _ _
  · rw [debounce_accept_cases]
    split_ifs <;> first | rfl | exact radio_ads_display_ml_result _ _ _ _

/-- The advertising data `adv_start_or_update` passes to the radio stack is `ad1` with
element 2 replaced by the service data built from its argument. -/
theorem radio_ads_adv_start_or_update (s : State) (p : List Nat) (env : Env) :
    ∀ ad ∈ radio_ads (adv_start_or_update s p env).2,
      ad = s.ad1.set 2 (BT_DATA BT_DATA_SVC_DATA16 p p.length) := by
  unfold adv_start_or_update
  simp only
  split_ifs <;> simp [radio_ads]

/-- The size of the advertising data when element 2 of `ad1` is `d`. -/
theorem ad_total_len_set (s : State) (hok : ad1_ok s) (d : bt_data) :
    ad_total_len (s.ad1.set 2 d) = 9 + d.data_len := by
  obtain ⟨hlen, htake⟩ := hok
  match h : s.ad1, hlen with
  | [a, b, c], _ =>
    rw [h] at htake
    simp only [ad1_init, List.take_succ_cons, List.take_zero, List.cons.injEq, and_true] at htake
    obtain ⟨ha, hb⟩ := htake
    subst ha hb
    simp only [List.set_cons_succ, List.set_cons_zero, ad_total_len, BT_DATA_BYTES, BT_DATA,
      List.length_cons, List.length_nil]
    omega

/-- The function `update_ml_result` for a sample whose text fits into `rs`. -/
theorem update_ml_result_fits (cfg : Config) (s : State) (label : Option CStr) (value anomaly : ℚ)
    (t1 t2 t3 : Int) (env : Env)
    (h1 : is_int t1) (h2 : is_int t2) (h3 : is_int t3) (hok : adata_ok s)
    (hfit : (text_field label t1 t2 t3).length ≤ 39) :
    update_ml_result cfg s label value anomaly t1 t2 t3 env =
      some ((adv_start_or_update
              (update_ml_result_led cfg (after_payload s (text_field label t1 t2 t3))
                label value anomaly).1
              (preamble ++ (text_field label t1 t2 t3).take 17) env).1,
            (update_ml_result_led cfg (after_payload s (text_field label t1 t2 t3))
                label value anomaly).2 ++
            (adv_start_or_update
              (update_ml_result_led cfg (after_payload s (text_field label t1 t2 t3))
                label value anomaly).1
              (preamble ++ (text_field label t1 t2 t3).take 17) env).2) := by
  unfold update_ml_result
  rw [update_ml_result_payload_fits s label t1 t2 t3 h1 h2 h3 hok hfit]
  simp only
  have hp : (update_ml_result_led cfg (after_payload s (text_field label t1 t2 t3))
        label value anomaly).1.adata.take
      (update_ml_result_led cfg (after_payload s (text_field label t1 t2 t3))
        label value anomaly).1.adatasize =
      preamble ++ (text_field label t1 t2 t3).take 17 := by
    rw [← payload_after_payload_section s label t1 t2 t3 hok]
    unfold update_ml_result_led
    rw [debounce_frame]
    rfl
  rw [hp]

/-- The payload encoder on every input whose text fits into `rs`: the payload is the
preamble followed by the first 17 bytes of the text, whatever `adata` held before. -/
theorem payload_section_correct (s : State) (label : Option CStr) (t1 t2 t3 : Int)
    (h1 : is_int t1) (h2 : is_int t2) (h3 : is_int t3) (hok : adata_ok s)
    (hfit : (text_field label t1 t2 t3).length ≤ 39) :
    update_ml_result_payload s label t1 t2 t3 =
      some (after_payload s (text_field label t1 t2 t3)) ∧
    payload (after_payload s (text_field label t1 t2 t3)) =
      preamble ++ (text_field label t1 t2 t3).take 17 ∧
    (payload (after_payload s (text_field label t1 t2 t3))).length =
      5 + min (text_field label t1 t2 t3).length 17 ∧
    adata_ok (after_payload s (text_field label t1 t2 t3)) := by
  refine ⟨update_ml_result_payload_fits s label t1 t2 t3 h1 h2 h3 hok hfit,
    payload_after_payload_section s label t1 t2 t3 hok, ?_,
    adata_ok_after_payload_section s label t1 t2 t3 hok⟩
  rw [payload_after_payload_section s label t1 t2 t3 hok]
  simp only [List.length_append, List.length_take, preamble, List.length_cons, List.length_nil]
  omega

theorem is_int_small (v : Int) (h : -1000000 ≤ v ∧ v ≤ 1000000) : is_int v := by
  unfold is_int
  constructor <;> omega

theorem adata_ok_init (b : Bool) : adata_ok (init_state b) := by
  cases b <;> constructor <;> decide

theorem ad1_ok_init (b : Bool) : ad1_ok (init_state b) := by
  cases b <;> constructor <;> decide

/-! ## The LED section inside `update_ml_result` -/

theorem display_ml_result_after_payload (cfg : Config) (s : State) (text : CStr)
    (l : Option CStr) (f : Bool) :
    display_ml_result cfg (after_payload s text) l f =
      (after_payload (display_ml_result cfg s l f).1 text, (display_ml_result cfg s l f).2) := by
  unfold display_ml_result display_sensor_sim after_payload
  simp only
  split_ifs <;> first | rfl | (split <;> rfl)

/-- The LED section neither reads nor writes `adata` and `adatasize`. -/
theorem debounce_after_payload (cfg : Config) (s : State) (text : CStr)
    (l : Option CStr) (a : Bool) :
    debounce cfg (after_payload s text) l a =
      (after_payload (debounce cfg s l a).1 text, (debounce cfg s l a).2) := by
  cases a
  · rw [debounce_reject_cases, debounce_reject_cases]
    have h1 : (after_payload s text).cur_label = s.cur_label := rfl
    have h2 : (after_payload s text).prediction_streak = s.prediction_streak := rfl
    rw [h1, h2]
    split_ifs <;>
      first
      | rfl
      | (rw [show ∀ c n, ({ after_payload s text with cur_label := c, prediction_streak := n } :
              State) = after_payload { s with cur_label := c, prediction_streak := n } text
            from fun _ _ => rfl, display_ml_result_after_payload]
         rfl)
  · rw [debounce_accept_cases, debounce_accept_cases]
    have h1 : (after_payload s text).cur_label = s.cur_label := rfl
    have h2 : (after_payload s text).prediction_streak = s.prediction_streak := rfl
    rw [h1, h2]
    split_ifs <;>
      first
      | rfl
      | (rw [show ∀ c n, ({ after_payload s text with cur_label := c, prediction_streak := n } :
              State) = after_payload { s with cur_label := c, prediction_streak := n } text
            from fun _ _ => rfl, display_ml_result_after_payload]
         rfl)

/-- The function `adv_start_or_update` neither reads nor writes the prediction state, and
calls neither `display_ml_result` nor the LED. -/
theorem adv_start_or_update_prediction (s : State) (p : List Nat) (env : Env) :
    (adv_start_or_update s p env).1.cur_label = s.cur_label ∧
    (adv_start_or_update s p env).1.prediction_streak = s.prediction_streak ∧
    display_calls (adv_start_or_update s p env).2 = [] := by
  unfold adv_start_or_update
  simp only
  split_ifs <;> exact ⟨rfl, rfl, rfl⟩

/-- Whenever `update_ml_result` returns, the prediction state it leaves and the calls of
`display_ml_result` it makes are those of its LED section run on the state before the
call. -/
theorem update_ml_result_led_part (cfg : Config) (s : State) (label : Option CStr)
    (value anomaly : ℚ) (t1 t2 t3 : Int) (env : Env) (r : State × List Ev)
    (h1 : is_int t1) (h2 : is_int t2) (h3 : is_int t3) (hok : adata_ok s)
    (hr : update_ml_result cfg s label value anomaly t1 t2 t3 env = some r) :
    r.1.cur_label = (update_ml_result_led cfg s label value anomaly).1.cur_label ∧
    r.1.prediction_streak = (update_ml_result_led cfg s label value anomaly).1.prediction_streak ∧
    display_calls r.2 = display_calls (update_ml_result_led cfg s label value anomaly).2 := by
  by_cases hfit : (text_field label t1 t2 t3).length ≤ 39
  · rw [update_ml_result_fits cfg s label value anomaly t1 t2 t3 env h1 h2 h3 hok hfit] at hr
    simp only [Option.some.injEq] at hr
    subst hr
    obtain ⟨a1, a2, a3⟩ := adv_start_or_update_prediction
      (update_ml_result_led cfg (after_payload s (text_field label t1 t2 t3))
        label value anomaly).1 (preamble ++ (text_field label t1 t2 t3).take 17) env
    simp only [display_calls_append, a1, a2, a3, List.append_nil]
    unfold update_ml_result_led
    rw [debounce_after_payload]
    exact ⟨rfl, rfl, rfl⟩
  · rw [update_ml_result, update_ml_result_payload_overflow s label t1 t2 t3 h1 h2 h3 hfit] at hr
    exact absurd hr (by simp)

/-! ## Lemmas on the advertising lifecycle -/

/-- What `adv_start_or_update` leaves as it was, besides the prediction state. -/
theorem adv_start_or_update_frame (s : State) (p : List Nat) (env : Env) :
    (adv_start_or_update s p env).1.adata = s.adata ∧
    (adv_start_or_update s p env).1.adatasize = s.adatasize ∧
    (adv_start_or_update s p env).1.ml_app_mode = s.ml_app_mode ∧
    (adv_start_or_update s p env).1.blocking_led_effect = s.blocking_led_effect ∧
    (adv_start_or_update s p env).1.ml_result_effect = s.ml_result_effect ∧
    (adv_start_or_update s p env).1.sensor_sim_effect = s.sensor_sim_effect ∧
    (adv_start_or_update s p env).1.forwarder_state = s.forwarder_state := by
  unfold adv_start_or_update
  simp only
  split_ifs <;> exact ⟨rfl, rfl, rfl, rfl, rfl, rfl, rfl⟩

/-- Every call of `update_ml_result` that returns keeps `adata` at 64 bytes with the
preamble in front. -/
theorem update_ml_result_adata_ok (cfg : Config) (s : State) (label : Option CStr)
    (value anomaly : ℚ) (t1 t2 t3 : Int) (env : Env) (r : State × List Ev)
    (h1 : is_int t1) (h2 : is_int t2) (h3 : is_int t3) (hok : adata_ok s)
    (hr : update_ml_result cfg s label value anomaly t1 t2 t3 env = some r) :
    adata_ok r.1 := by
  by_cases hfit : (text_field label t1 t2 t3).length ≤ 39
  · rw [update_ml_result_fits cfg s label value anomaly t1 t2 t3 env h1 h2 h3 hok hfit] at hr
    simp only [Option.some.injEq] at hr
    subst hr
    have h := adata_ok_after_payload_section s label t1 t2 t3 hok
    unfold adata_ok at h ⊢
    simp only
    rw [(adv_start_or_update_frame _ _ _).1]
    unfold update_ml_result_led
    rw [debounce_frame]
    exact h
  · rw [update_ml_result, update_ml_result_payload_overflow s label t1 t2 t3 h1 h2 h3 hfit] at hr
    exact absurd hr (by simp)


/-- After every call of `adv_start_or_update` the cache holds the first 31 bytes of the
payload. -/
theorem cached_payload_adv_start_or_update (s : State) (p : List Nat) (env : Env) :
    cached_payload (adv_start_or_update s p env).1 = p.take 31 ∧
    (adv_start_or_update s p env).1.last_svc_len = min p.length 31 := by
  have hc : List.take (min p.length 31)
      (List.take (min p.length 31) p ++ List.drop (min p.length 31) s.last_svc_buf) =
      List.take 31 p := by
    rw [List.take_left' (by rw [List.length_take]; omega), Nat.min_comm, ← List.take_take,
      List.take_length]
  unfold adv_start_or_update cached_payload
  simp only
  split_ifs <;> exact ⟨hc, rfl⟩

/-- The function `adv_start_or_update` never clears the readiness flag. -/
theorem ble_ready_adv_start_or_update (s : State) (p : List Nat) (env : Env) :
    (adv_start_or_update s p env).1.ble_ready = s.ble_ready := by
  unfold adv_start_or_update
  simp only
  split_ifs <;> rfl

/-! ## Lemmas on the effect resolver -/

theorem get_led_effect_loop_some (l : CStr) :
    ∀ (tbl : List ml_result_led_effect) (start i : Nat),
      get_led_effect_loop l tbl start = some i →
      start ≤ i ∧ (∃ t, tbl[i - start]? = some t ∧ t.label = some l) ∧
      ∀ j, j < i - start → ∀ t, tbl[j]? = some t → t.label ≠ some l := by
  intro tbl
  induction tbl with
  | nil => intro start i h; simp [get_led_effect_loop] at h
  | cons t rest ih =>
    intro start i h
    unfold get_led_effect_loop at h
    by_cases ht : t.label = some l
    · rw [if_pos ht] at h
      simp only [Option.some.injEq] at h
      subst h
      refine ⟨Nat.le_refl _, ⟨t, by simp, ht⟩, ?_⟩
      intro j hj
      omega
    · rw [if_neg ht] at h
      obtain ⟨h1, ⟨t', h2, h3⟩, h4⟩ := ih (start + 1) i h
      refine ⟨by omega, ⟨t', ?_, h3⟩, ?_⟩
      · have : i - start = (i - (start + 1)) + 1 := by omega
        rw [this, List.getElem?_cons_succ]
        exact h2
      · intro j hj t'' hj2
        cases j with
        | zero =>
          simp only [List.getElem?_cons_zero, Option.some.injEq] at hj2
          subst hj2
          exact ht
        | succ j =>
          rw [List.getElem?_cons_succ] at hj2
          exact h4 j (by omega) t'' hj2

theorem get_led_effect_loop_none (l : CStr) :
    ∀ (tbl : List ml_result_led_effect) (start : Nat),
      get_led_effect_loop l tbl start = none →
      ∀ (j : Nat) (t : ml_result_led_effect), tbl[j]? = some t → t.label ≠ some l := by
  intro tbl
  induction tbl with
  | nil => intro start _ j t h; simp at h
  | cons t rest ih =>
    intro start h j t' hj
    unfold get_led_effect_loop at h
    by_cases ht : t.label = some l
    · rw [if_pos ht] at h
      exact absurd h (by simp)
    · rw [if_neg ht] at h
      cases j with
      | zero =>
        simp only [List.getElem?_cons_zero, Option.some.injEq] at hj
        subst hj
        exact ht
      | succ j =>
        rw [List.getElem?_cons_succ] at hj
        exact ih (start + 1) h j t' hj

/-! ## Further lemmas on the advertising lifecycle -/

/-- A successful start cancels the retry. -/
theorem adv_start_success_cancels_retry (s : State) (p : List Nat) (env : Env)
    (hready : s.ble_ready = true) (hidle : s.adv_started = false) (herr : env.err = 0) :
    adv_start_or_update s p env =
      ({ s with last_svc_buf := p.take (min p.length 31) ++ s.last_svc_buf.drop (min p.length 31),
                last_svc_len := min p.length 31,
                ad1 := s.ad1.set 2 (BT_DATA BT_DATA_SVC_DATA16 p p.length),
                adv_retry_work := none, adv_started := true, adv_last_update_ms := env.now },
       [Ev.adv_start_or_update p,
        Ev.bt_le_adv_start (s.ad1.set 2 (BT_DATA BT_DATA_SVC_DATA16 p p.length)),
        Ev.k_work_cancel_delayable]) := by
  unfold adv_start_or_update
  simp [hready, hidle, herr]

/-- A successful in-place update stamps the time and leaves `adv_retry_work` as it was. -/
theorem adv_update_success_keeps_retry (s : State) (p : List Nat) (env : Env)
    (hready : s.ble_ready = true) (hstarted : s.adv_started = true)
    (hnt : ¬ (env.now - s.adv_last_update_ms < ADV_MIN_UPDATE_MS)) (herr : env.err = 0) :
    adv_start_or_update s p env =
      ({ s with last_svc_buf := p.take (min p.length 31) ++ s.last_svc_buf.drop (min p.length 31),
                last_svc_len := min p.length 31,
                ad1 := s.ad1.set 2 (BT_DATA BT_DATA_SVC_DATA16 p p.length),
                adv_last_update_ms := env.now },
       [Ev.adv_start_or_update p,
        Ev.bt_le_adv_update_data (s.ad1.set 2 (BT_DATA BT_DATA_SVC_DATA16 p p.length))]) := by
  unfold adv_start_or_update
  simp [hready, hstarted, hnt, herr]

/-- The cached payload has at most `last_svc_len` bytes. -/
theorem cached_payload_length_le (s : State) : (cached_payload s).length ≤ s.last_svc_len := by
  unfold cached_payload
  rw [List.length_take]
  exact Nat.min_le_left _ _

theorem classify_fallback (cfg : Config) (label : Option CStr) (value anomaly : ℚ)
    (ha : anomaly < 0) (hv : value < VALUE_THRESH cfg) :
    classify cfg label value anomaly = (some (cstr "idle"), true) := by
  unfold classify
  have h1 : ¬ (anomaly ≥ 0) := not_le.2 ha
  simp only [decide_eq_true_eq, decide_eq_false_iff_not]
  rw [if_neg (fun h => h1 h.1), if_neg (not_le.2 hv), if_pos h1]

/-! ## Lemmas on the ready signal -/

theorem set_ble_ready_of_ready (s : State) (h : s.ble_ready = true) :
    { s with ble_ready := true } = s := by
  cases s
  simp only at h
  subst h
  rfl

/-- The callback `bt_ready_cb` with `err = 0` sets the readiness flag and makes a request
with the payload of `start_initial_adv`. -/
theorem bt_ready_cb_ok (s : State) (env : Env) :
    bt_ready_cb s 0 env = adv_start_or_update { s with ble_ready := true } init_adata env := by
  unfold bt_ready_cb start_initial_adv
  simp

/-- The `ble_state` READY event does the same when `CONFIG_CAF_BLE_STATE` is defined. -/
theorem handle_module_state_event_ble_ready (feat : Features) (s : State) (b : Int) (env : Env)
    (hf : feat.CONFIG_CAF_BLE_STATE = true) :
    handle_module_state_event feat s ⟨ModuleId.ble_state, true⟩ b env =
      adv_start_or_update { s with ble_ready := true } init_adata env := by
  unfold handle_module_state_event start_initial_adv
  simp [hf]

/-! ## Lemmas on the suspension -/

/-- What `display_sensor_sim` leaves as it was. -/
theorem display_sensor_sim_frame (cfg : Config) (s : State) (l : Option CStr) :
    (display_sensor_sim cfg s l).1.blocking_led_effect = s.blocking_led_effect ∧
    (display_sensor_sim cfg s l).1.cur_label = s.cur_label ∧
    (display_sensor_sim cfg s l).1.prediction_streak = s.prediction_streak ∧
    (display_sensor_sim cfg s l).1.ml_result_effect = s.ml_result_effect ∧
    (display_sensor_sim cfg s l).1.adata = s.adata := by
  unfold display_sensor_sim
  cases l <;> simp only <;> (try split) <;> simp

/-- What `handle_module_state_event` leaves as it was. -/
theorem handle_module_state_event_frame (feat : Features) (s : State)
    (e : module_state_event) (b : Int) (env : Env) :
    (handle_module_state_event feat s e b env).1.blocking_led_effect = s.blocking_led_effect ∧
    (handle_module_state_event feat s e b env).1.cur_label = s.cur_label ∧
    (handle_module_state_event feat s e b env).1.prediction_streak = s.prediction_streak ∧
    (handle_module_state_event feat s e b env).1.ml_result_effect = s.ml_result_effect ∧
    (handle_module_state_event feat s e b env).1.adata = s.adata := by
  unfold handle_module_state_event led_ble_sysinit start_initial_adv
  split_ifs <;>
    first
    | exact ⟨rfl, rfl, rfl, rfl, rfl⟩
    | exact ⟨(adv_start_or_update_frame _ _ _).2.2.2.1, (adv_start_or_update_prediction _ _ _).1,
        (adv_start_or_update_prediction _ _ _).2.1, (adv_start_or_update_frame _ _ _).2.2.2.2.1,
        (adv_start_or_update_frame _ _ _).1⟩

/-- While the blocking effect `b` is pending, an event that does not release it leaves
the suspension, the prediction state and the displayed effect as they were, and a
classification sample is dropped without any call. -/
theorem app_event_handler_suspended (cfg : Config) (feat : Features) (s : State)
    (b : led_effect_ptr) (ev : app_event) (be : Int) (env : Env)
    (hb : s.blocking_led_effect = some b) (hrel : ¬ releases b ev) :
    ∃ r, app_event_handler cfg feat s ev be env = some r ∧
      r.1.blocking_led_effect = some b ∧ r.1.cur_label = s.cur_label ∧
      r.1.prediction_streak = s.prediction_streak ∧
      r.1.ml_result_effect = s.ml_result_effect ∧
      (∀ e, ev = app_event.ml_result e → r = (s, [])) := by
  cases ev with
  | ml_result e =>
    have hg : handle_ml_result_event cfg s e env = some (s, []) := by
      unfold handle_ml_result_event
      rw [if_neg (by rw [hb]; simp)]
    refine ⟨(s, []), ?_, hb, rfl, rfl, rfl, fun _ _ => rfl⟩
    unfold app_event_handler
    simp only
    split
    · exact hg
    · rfl
  | sensor_sim e =>
    unfold app_event_handler
    simp only
    split
    · have h := display_sensor_sim_frame cfg s e.label
      exact ⟨_, rfl, h.1.trans hb, h.2.1, h.2.2.1, h.2.2.2.1, fun _ h => by cases h⟩
    · exact ⟨_, rfl, hb, rfl, rfl, rfl, fun _ h => by cases h⟩
  | ei_data_forwarder e =>
    unfold app_event_handler handle_ei_data_forwarder_event
    simp only
    split_ifs <;> exact ⟨_, rfl, hb, rfl, rfl, rfl, fun _ h => by cases h⟩
  | led_ready e =>
    have hc : ¬ (e.led_id = led_map.getD LED_ID_ML_STATE 0 ∧
        s.ml_app_mode = MlAppMode.ML_APP_MODE_MODEL_RUNNING ∧
        s.blocking_led_effect = some e.led_effect) := by
      rintro ⟨h1, _, h3⟩
      rw [hb] at h3
      exact hrel ⟨h1, (Option.some.inj h3).symm⟩
    unfold app_event_handler handle_led_ready_event
    simp only
    rw [if_neg hc]
    exact ⟨_, rfl, hb, rfl, rfl, rfl, fun _ h => by cases h⟩
  | ml_app_mode e =>
    have hm : e.mode ≠ MlAppMode.ML_APP_MODE_MODEL_RUNNING := hrel
    unfold app_event_handler handle_ml_app_mode_event
    simp only
    cases hmode : e.mode with
    | ML_APP_MODE_MODEL_RUNNING => exact absurd hmode hm
    | ML_APP_MODE_DATA_FORWARDING => exact ⟨_, rfl, hb, rfl, rfl, rfl, fun _ h => by cases h⟩
    | ML_APP_MODE_COUNT => exact ⟨_, rfl, hb, rfl, rfl, rfl, fun _ h => by cases h⟩
  | module_state e =>
    have h := handle_module_state_event_frame feat s e be env
    exact ⟨_, rfl, h.1.trans hb, h.2.1, h.2.2.1, h.2.2.2.1, fun _ h => by cases h⟩

/-- A run of events none of which releases the pending blocking effect `b`: every event
is handled, the suspension, the prediction state and the displayed effect stay as they
were throughout, and the handling of every classification sample makes no call at all. -/
theorem run_events_suspended (cfg : Config) (feat : Features) (b : led_effect_ptr) :
    ∀ (evs : List (app_event × Int × Env)) (s : State),
      s.blocking_led_effect = some b → (∀ x ∈ evs, ¬ releases b x.1) →
      ∃ rs, run_events cfg feat s evs = some rs ∧ rs.length = evs.length ∧
        (∀ r ∈ rs, r.1.blocking_led_effect = some b ∧ r.1.cur_label = s.cur_label ∧
          r.1.prediction_streak = s.prediction_streak ∧
          r.1.ml_result_effect = s.ml_result_effect) ∧
        (∀ (k : Nat) (e : ml_result_event) (be : Int) (env : Env) (r : State × List Ev),
          evs[k]? = some (app_event.ml_result e, be, env) → rs[k]? = some r → r.2 = []) := by
  intro evs
  induction evs with
  | nil =>
    intro s _ _
    refine ⟨[], rfl, rfl, ?_, ?_⟩
    · intro r hr
      exact absurd hr (List.not_mem_nil r)
    · intro k e be env r h
      rw [List.getElem?_nil] at h
      exact Option.noConfusion h
  | cons x evs ih =>
    intro s hb hrel
    obtain ⟨ev, be, env⟩ := x
    obtain ⟨r, hr, h1, h2, h3, h4, h5⟩ := app_event_handler_suspended cfg feat s b ev be env hb
      (hrel _ (List.mem_cons_self _ _))
    obtain ⟨rs, hrs, hlen, hall, hml⟩ := ih r.1 h1
      (fun y hy => hrel y (List.mem_cons_of_mem _ hy))
    refine ⟨r :: rs, ?_, by simp [hlen], ?_, ?_⟩
    · simp only [run_events, hr, hrs]
    · intro r' hr'
      rcases List.mem_cons.1 hr' with h | h
      · subst h
        exact ⟨h1, h2, h3, h4⟩
      · obtain ⟨a1, a2, a3, a4⟩ := hall r' h
        exact ⟨a1, a2.trans h2, a3.trans h3, a4.trans h4⟩
    · intro k e be' env' r' hk hrk
      cases k with
      | zero =>
        simp only [List.getElem?_cons_zero, Option.some.injEq, Prod.mk.injEq] at hk hrk
        subst hrk
        rw [h5 e hk.1]
      | succ k =>
        simp only [List.getElem?_cons_succ] at hk hrk
        exact hml k e be' env' r' hk hrk

/-! ## Lemmas on the display -/

/-- The function `display_ml_result` when no update is needed. -/
theorem display_ml_result_unchanged (cfg : Config) (s : State) (l : Option CStr) (f : Bool)
    (h : s.ml_result_effect = some (get_led_effect cfg l) ∧ f = false) :
    display_ml_result cfg s l f = (s, [Ev.display_ml_result l f]) := by
  unfold display_ml_result
  simp only
  rw [if_pos h]

/-- The function `display_ml_result` when the effect changes or the update is forced. -/
theorem display_ml_result_changed (cfg : Config) (s : State) (l : Option CStr) (f : Bool)
    (h : ¬ (s.ml_result_effect = some (get_led_effect cfg l) ∧ f = false)) :
    display_ml_result cfg s l f =
      ({ s with ml_result_effect := some (get_led_effect cfg l),
                blocking_led_effect := blocking_after cfg (get_led_effect cfg l) },
       Ev.display_ml_result l f ::
        (sensor_sim_sync cfg s (get_led_effect cfg l) ++
          [Ev.led_event (led_map.getD LED_ID_ML_STATE 0)
              (led_effect_ptr.ml_result (get_led_effect cfg l)),
           Ev.signin (!is_led_effect_blocking (effect_at cfg (get_led_effect cfg l)))])) := by
  unfold display_ml_result display_sensor_sim sensor_sim_sync blocking_after
  simp only
  rw [if_neg h]
  by_cases hsim : cfg.DISPLAY_SIM_SIGNAL = true ∧ get_led_effect cfg l ≠ 0
  · simp only [if_pos hsim]
    cases hs : s.sensor_sim_effect <;>
      by_cases hb : is_led_effect_blocking (effect_at cfg (get_led_effect cfg l)) = true <;>
      simp [hb, hs]
  · simp only [if_neg hsim]
    by_cases hb : is_led_effect_blocking (effect_at cfg (get_led_effect cfg l)) = true <;>
      simp [hb]

theorem emissions_append (a b : List Ev) : emissions (a ++ b) = emissions a ++ emissions b := by
  induction a with
  | nil => rfl
  | cons e a ih => cases e <;> simp [emissions, ih]

/-- The sensor-simulation request is an emission. -/
theorem emissions_sensor_sim_sync (cfg : Config) (s : State) (i : Nat) :
    emissions (sensor_sim_sync cfg s i) = sensor_sim_sync cfg s i := by
  unfold sensor_sim_sync
  split
  · split <;> rfl
  · rfl

/-- The function `adv_start_or_update` submits no event to the application. -/
theorem emissions_adv_start_or_update (s : State) (p : List Nat) (env : Env) :
    emissions (adv_start_or_update s p env).2 = [] := by
  unfold adv_start_or_update
  simp only
  split_ifs <;> rfl

/-! ## Invariants of the reachable states -/

theorem adata_ok_after_payload (s : State) (text : CStr) (hok : adata_ok s) :
    adata_ok (after_payload s text) := by
  obtain ⟨hlen, hpre⟩ := hok
  unfold after_payload
  constructor
  · simp only [List.length_append, List.length_take, List.length_drop, hlen]
    omega
  · simp only
    rw [List.append_assoc]
    refine (List.take_left' ?_).trans hpre
    rw [List.length_take, hlen]
    rfl

/-- Whenever the payload section returns, it leaves the state `after_payload` describes. -/
theorem update_ml_result_payload_some (s s1 : State) (label : Option CStr) (t1 t2 t3 : Int)
    (hok : adata_ok s) (h : update_ml_result_payload s label t1 t2 t3 = some s1) :
    ∃ rs, s1 = after_payload s rs := by
  unfold update_ml_result_payload at h
  cases hc : compose_rs label t1 t2 t3 with
  | none => rw [hc] at h; exact absurd h (by simp)
  | some rs =>
    rw [hc] at h
    simp only [Option.some.injEq] at h
    refine ⟨rs, ?_⟩
    rw [← h, store_rs_eq _ _ (by rw [hok.1]; decide)]
    rfl

/-- A state that agrees with one satisfying the invariant on `adata`, the pending blocking
effect and the prediction state satisfies it too. -/
theorem state_inv_of_frame (s s1 : State) (h1 : s1.adata = s.adata)
    (h2 : s1.blocking_led_effect = s.blocking_led_effect) (h3 : s1.cur_label = s.cur_label)
    (h4 : s1.prediction_streak = s.prediction_streak) (h : state_inv s) : state_inv s1 := by
  unfold state_inv adata_ok at *
  rw [h1, h2, h3, h4]
  exact h

/-- The LED section keeps the suspension invariant: it sets a blocking effect only
together with clearing the prediction state. -/
theorem debounce_state_inv (cfg : Config) (s : State) (l : Option CStr) (a : Bool)
    (hnb : s.blocking_led_effect = none) :
    (debounce cfg s l a).1.blocking_led_effect ≠ none →
      (debounce cfg s l a).1.cur_label = none ∧ (debounce cfg s l a).1.prediction_streak = 0 := by
  cases a
  · rw [debounce_reject_cases]
    by_cases h : (if l = s.cur_label then s.prediction_streak else 0) ≥
        cfg.PREDICTION_STREAK_THRESH
    · rw [if_pos h]
      intro _
      exact ⟨rfl, rfl⟩
    · rw [if_neg h]
      intro hb
      exact absurd hnb hb
  · rw [debounce_accept_cases]
    by_cases h : (if l = s.cur_label then s.prediction_streak else 0) + 1 ≥
        cfg.PREDICTION_STREAK_THRESH
    · rw [if_pos h]
      intro _
      exact ⟨rfl, rfl⟩
    · rw [if_neg h]
      intro hb
      exact absurd hnb hb

/-- The function `adv_start_or_update` keeps the invariant. -/
theorem adv_start_or_update_state_inv (s : State) (p : List Nat) (env : Env)
    (h : state_inv s) : state_inv (adv_start_or_update s p env).1 :=
  state_inv_of_frame s _ (adv_start_or_update_frame s p env).1
    (adv_start_or_update_frame s p env).2.2.2.1 (adv_start_or_update_prediction s p env).1
    (adv_start_or_update_prediction s p env).2.1 h

/-- Setting the readiness flag keeps the invariant. -/
theorem set_ble_ready_state_inv (s : State) (h : state_inv s) :
    state_inv { s with ble_ready := true } :=
  state_inv_of_frame s _ rfl rfl rfl rfl h

/-- The function `display_ml_result` with a NULL label keeps the invariant when the
prediction state is cleared or no blocking effect was pending before. -/
theorem display_ml_result_state_inv (cfg : Config) (s : State) (l : Option CStr) (f : Bool)
    (hok : adata_ok s) (hc : s.cur_label = none ∧ s.prediction_streak = 0) :
    state_inv (display_ml_result cfg s l f).1 := by
  have hfr := display_ml_result_frame cfg s l f
  have hp := display_ml_result_prediction cfg s l f
  constructor
  · unfold adata_ok at *
    rw [hfr]
    exact hok
  · intro _
    rw [hp.1, hp.2]
    exact hc

/-- The function `handle_ml_result_event` keeps the invariant. -/
theorem handle_ml_result_event_state_inv (cfg : Config) (s : State) (e : ml_result_event)
    (env : Env) (r : State × List Ev) (h : state_inv s)
    (hr : handle_ml_result_event cfg s e env = some r) : state_inv r.1 := by
  unfold handle_ml_result_event at hr
  by_cases hg : s.ml_app_mode = MlAppMode.ML_APP_MODE_MODEL_RUNNING ∧ s.blocking_led_effect = none
  · rw [if_pos hg] at hr
    unfold update_ml_result at hr
    cases hp : update_ml_result_payload s e.label e.dsp_time e.classification_time
      e.anomaly_time with
    | none => rw [hp] at hr; exact absurd hr (by simp)
    | some s1 =>
      rw [hp] at hr
      simp only [Option.some.injEq] at hr
      obtain ⟨rs, hs1⟩ := update_ml_result_payload_some s s1 e.label _ _ _ h.1 hp
      subst hs1
      rw [← hr]
      apply adv_start_or_update_state_inv
      unfold update_ml_result_led
      rw [debounce_after_payload]
      constructor
      · apply adata_ok_after_payload
        unfold adata_ok
        rw [debounce_frame]
        exact h.1
      · exact debounce_state_inv cfg s _ _ hg.2
  · rw [if_neg hg] at hr
    simp only [Option.some.injEq] at hr
    rw [← hr]
    exact h

/-- Every handler keeps the invariant. -/
theorem app_event_handler_state_inv (cfg : Config) (feat : Features) (s : State)
    (ev : app_event) (be : Int) (env : Env) (r : State × List Ev) (h : state_inv s)
    (hr : app_event_handler cfg feat s ev be env = some r) : state_inv r.1 := by
  cases ev with
  | ml_result e =>
    unfold app_event_handler at hr
    simp only at hr
    split at hr
    · exact handle_ml_result_event_state_inv cfg s e env r h hr
    · simp only [Option.some.injEq] at hr
      rw [← hr]
      exact h
  | sensor_sim e =>
    unfold app_event_handler handle_sensor_sim_event at hr
    simp only at hr
    split at hr <;> simp only [Option.some.injEq] at hr <;> rw [← hr]
    · have hf := display_sensor_sim_frame cfg s e.label
      exact state_inv_of_frame s _ hf.2.2.2.2 hf.1 hf.2.1 hf.2.2.1 h
    · exact h
  | ei_data_forwarder e =>
    unfold app_event_handler handle_ei_data_forwarder_event at hr
    simp only at hr
    split at hr <;> simp only [Option.some.injEq] at hr <;> rw [← hr]
    · split <;> exact state_inv_of_frame s _ rfl rfl rfl rfl h
    · exact h
  | led_ready e =>
    unfold app_event_handler handle_led_ready_event at hr
    simp only [Option.some.injEq] at hr
    rw [← hr]
    split
    · rename_i hc
      have hb : s.blocking_led_effect ≠ none := by rw [hc.2.2]; simp
      exact display_ml_result_state_inv cfg s none true h.1 (h.2 hb)
    · exact h
  | ml_app_mode e =>
    unfold app_event_handler handle_ml_app_mode_event at hr
    simp only [Option.some.injEq] at hr
    rw [← hr]
    split
    · exact display_ml_result_state_inv cfg _ none true h.1 ⟨rfl, rfl⟩
    · exact state_inv_of_frame s _ rfl rfl rfl rfl h
    · exact state_inv_of_frame s _ rfl rfl rfl rfl h
  | module_state e =>
    unfold app_event_handler at hr
    simp only [Option.some.injEq] at hr
    rw [← hr]
    have hf := handle_module_state_event_frame feat s e be env
    exact state_inv_of_frame s _ hf.2.2.2.2 hf.1 hf.2.1 hf.2.2.1 h

/-- The invariant holds in every reachable state. -/
theorem reachable_state_inv (cfg : Config) (feat : Features) (s : State)
    (h : Reachable cfg feat s) : state_inv s := by
  induction h with
  | init => exact ⟨adata_ok_init _, fun hb => absurd rfl hb⟩
  | event s ev be env r _ hr ih => exact app_event_handler_state_inv cfg feat s ev be env r ih hr
  | bt_ready s err env _ ih =>
    unfold bt_ready_cb start_initial_adv
    split
    · exact ih
    · exact adv_start_or_update_state_inv _ _ _ (set_ble_ready_state_inv s ih)
  | sysinit s be env _ ih =>
    unfold led_ble_sysinit start_initial_adv
    split
    · exact adv_start_or_update_state_inv _ _ _ (set_ble_ready_state_inv s ih)
    · exact ih
  | retry s env _ _ ih =>
    unfold adv_retry_fn
    exact adv_start_or_update_state_inv _ _ _ (state_inv_of_frame s _ rfl rfl rfl rfl ih)

/-! ## A reachable suspended state -/

theorem zoom_in_sample_accepted_blocking_config :
    accepted_by_value blocking_config zoom_in_sample := by
  simp only [accepted_by_value, zoom_in_sample, ANOMALY_THRESH, VALUE_THRESH, blocking_config,
    thingy52_config]
  norm_num

/-- With the blocking `"zoom_in"` effect and streak threshold 1, one accepted `"zoom_in"`
sample delivered after the entry into model-running mode leaves that effect pending. -/
theorem reachable_suspended_state :
    ∃ s, Reachable blocking_config all_features s ∧
      s.ml_app_mode = MlAppMode.ML_APP_MODE_MODEL_RUNNING ∧
      s.blocking_led_effect = some (led_effect_ptr.ml_result 3) := by
  have r1 : Reachable blocking_config all_features (running_state blocking_config) :=
    Reachable.event (init_state true)
      (app_event.ml_app_mode ⟨MlAppMode.ML_APP_MODE_MODEL_RUNNING⟩) 0 ⟨1000, 0⟩ _
      Reachable.init rfl
  have hfit : (text_field zoom_in_sample.label zoom_in_sample.dsp_time
      zoom_in_sample.classification_time zoom_in_sample.anomaly_time).length ≤ 39 := by decide
  have hu := update_ml_result_fits blocking_config (running_state blocking_config)
    zoom_in_sample.label zoom_in_sample.value zoom_in_sample.anomaly zoom_in_sample.dsp_time
    zoom_in_sample.classification_time zoom_in_sample.anomaly_time ⟨1100, 0⟩
    (is_int_small _ (by decide)) (is_int_small _ (by decide)) (is_int_small _ (by decide))
    (by constructor <;> decide) hfit
  have hgate : app_event_handler blocking_config all_features (running_state blocking_config)
      (app_event.ml_result zoom_in_sample) 0 ⟨1100, 0⟩ =
      update_ml_result blocking_config (running_state blocking_config)
        zoom_in_sample.label zoom_in_sample.value zoom_in_sample.anomaly zoom_in_sample.dsp_time
        zoom_in_sample.classification_time zoom_in_sample.anomaly_time ⟨1100, 0⟩ := by
    unfold app_event_handler handle_ml_result_event
    simp only [all_features, if_true]
    rw [if_pos (by constructor <;> decide)]
  have he := hgate.trans hu
  refine ⟨_, Reachable.event _ _ _ _ _ r1 he, ?_, ?_⟩
  · simp only
    rw [(adv_start_or_update_frame _ _ _).2.2.1]
    unfold update_ml_result_led
    rw [debounce_frame]
    decide
  · simp only
    rw [(adv_start_or_update_frame _ _ _).2.2.2.1]
    unfold update_ml_result_led
    rw [classify_accepted_by_value blocking_config zoom_in_sample
      zoom_in_sample_accepted_blocking_config]
    decide

/-! ## Runs of accepted samples through the handler -/

theorem stable_emissions_congr (cfg : Config) (s s1 : State) (L : Option CStr)
    (h1 : s1.ml_result_effect = s.ml_result_effect)
    (h2 : s1.sensor_sim_effect = s.sensor_sim_effect) :
    stable_emissions cfg s1 L = stable_emissions cfg s L := by
  unfold stable_emissions sensor_sim_sync
  rw [h1, h2]

/-- The function `display_ml_result` leaves `sensor_sim_effect` and the mode as they
were. -/
theorem display_ml_result_sensor_sim_mode (cfg : Config) (s : State) (l : Option CStr)
    (f : Bool) :
    (display_ml_result cfg s l f).1.sensor_sim_effect = s.sensor_sim_effect ∧
    (display_ml_result cfg s l f).1.ml_app_mode = s.ml_app_mode := by
  by_cases h : s.ml_result_effect = some (get_led_effect cfg l) ∧ f = false
  · rw [display_ml_result_unchanged cfg s l f h]
    exact ⟨rfl, rfl⟩
  · rw [display_ml_result_changed cfg s l f h]
    exact ⟨rfl, rfl⟩

/-- The LED section leaves `sensor_sim_effect` and the mode as they were. -/
theorem debounce_sensor_sim_mode (cfg : Config) (s : State) (l : Option CStr) (a : Bool) :
    (debounce cfg s l a).1.sensor_sim_effect = s.sensor_sim_effect ∧
    (debounce cfg s l a).1.ml_app_mode = s.ml_app_mode := by
  cases a
  · rw [debounce_reject_cases]
    split_ifs <;>
      first
      | exact ⟨rfl, rfl⟩
      | exact ⟨(display_ml_result_sensor_sim_mode _ _ _ _).1,
          (display_ml_result_sensor_sim_mode _ _ _ _).2⟩
  · rw [debounce_accept_cases]
    split_ifs <;>
      first
      | exact ⟨rfl, rfl⟩
      | exact ⟨(display_ml_result_sensor_sim_mode _ _ _ _).1,
          (display_ml_result_sensor_sim_mode _ _ _ _).2⟩

/-- What the LED section submits for an accepted sample, and the state it leaves, in
terms of the number `c` of samples counted so far. -/
theorem debounce_accepted_emissions (cfg : Config) (s : State) (L : Option CStr) (c : Nat)
    (hst : streak_state L c s) :
    (debounce cfg s L true).1.sensor_sim_effect = s.sensor_sim_effect ∧
    (debounce cfg s L true).1.ml_app_mode = s.ml_app_mode ∧
    (c + 1 < cfg.PREDICTION_STREAK_THRESH →
      emissions (debounce cfg s L true).2 = [] ∧
      streak_state L (c + 1) (debounce cfg s L true).1 ∧
      (debounce cfg s L true).1.blocking_led_effect = s.blocking_led_effect ∧
      (debounce cfg s L true).1.ml_result_effect = s.ml_result_effect) ∧
    (c + 1 ≥ cfg.PREDICTION_STREAK_THRESH →
      emissions (debounce cfg s L true).2 = stable_emissions cfg s L ∧
      (debounce cfg s L true).1.cur_label = none ∧
      (debounce cfg s L true).1.prediction_streak = 0 ∧
      (debounce cfg s L true).1.ml_result_effect = some (get_led_effect cfg L) ∧
      (debounce cfg s L true).1.blocking_led_effect =
        (if s.ml_result_effect = some (get_led_effect cfg L) then s.blocking_led_effect
          else blocking_after cfg (get_led_effect cfg L))) := by
  obtain ⟨hs1, hs2, hs3⟩ := hst
  have key : (if L = s.cur_label then s.prediction_streak else 0) = c := by
    by_cases h : L = s.cur_label
    · rw [if_pos h, hs1]
    · rw [if_neg h]
      by_contra h0
      exact h (hs3 (Ne.symm h0)).symm
  refine ⟨(debounce_sensor_sim_mode cfg s L true).1, (debounce_sensor_sim_mode cfg s L true).2,
    ?_, ?_⟩
  · intro hlt
    rw [debounce_accept_cases, key, if_neg (by omega)]
    exact ⟨rfl, ⟨rfl, by simp, fun _ => rfl⟩, rfl, rfl⟩
  · intro hge
    rw [debounce_accept_cases, key, if_pos hge]
    unfold stable_emissions
    by_cases hsame : s.ml_result_effect = some (get_led_effect cfg L)
    · have hd := display_ml_result_unchanged cfg
        { s with cur_label := L, prediction_streak := c + 1 } L false ⟨hsame, rfl⟩
      rw [hd, if_pos hsame, if_pos hsame]
      exact ⟨rfl, rfl, rfl, hsame, rfl⟩
    · have hd := display_ml_result_changed cfg
        { s with cur_label := L, prediction_streak := c + 1 } L false (fun h => hsame h.1)
      rw [hd, if_neg hsame, if_neg hsame]
      refine ⟨?_, rfl, rfl, rfl, rfl⟩
      simp only [emissions, emissions_append, emissions_sensor_sim_sync]
      rfl

/-- One accepted sample through `handle_ml_result_event`, in model-running mode with no
blocking effect pending. -/
theorem handle_ml_result_event_accepted (cfg : Config) (s : State) (L : Option CStr) (c : Nat)
    (e : ml_result_event) (env : Env)
    (hmode : s.ml_app_mode = MlAppMode.ML_APP_MODE_MODEL_RUNNING)
    (hnb : s.blocking_led_effect = none) (hok : adata_ok s) (hst : streak_state L c s)
    (he : scenario_sample cfg L e) :
    ∃ r, handle_ml_result_event cfg s e env = some r ∧ adata_ok r.1 ∧
      r.1.ml_app_mode = MlAppMode.ML_APP_MODE_MODEL_RUNNING ∧
      r.1.sensor_sim_effect = s.sensor_sim_effect ∧
      (c + 1 < cfg.PREDICTION_STREAK_THRESH →
        emissions r.2 = [] ∧ streak_state L (c + 1) r.1 ∧ r.1.blocking_led_effect = none ∧
        r.1.ml_result_effect = s.ml_result_effect) ∧
      (c + 1 ≥ cfg.PREDICTION_STREAK_THRESH →
        emissions r.2 = stable_emissions cfg s L ∧ r.1.cur_label = none ∧
        r.1.prediction_streak = 0 ∧ r.1.ml_result_effect = some (get_led_effect cfg L) ∧
        r.1.blocking_led_effect =
          (if s.ml_result_effect = some (get_led_effect cfg L) then none
            else blocking_after cfg (get_led_effect cfg L))) := by
  obtain ⟨hl, ha, i1, i2, i3, hfit⟩ := he
  have hu := update_ml_result_fits cfg s e.label e.value e.anomaly e.dsp_time
    e.classification_time e.anomaly_time env i1 i2 i3 hok hfit
  have hgate : handle_ml_result_event cfg s e env =
      update_ml_result cfg s e.label e.value e.anomaly e.dsp_time e.classification_time
        e.anomaly_time env := by
    unfold handle_ml_result_event
    rw [if_pos ⟨hmode, hnb⟩]
  have hh := hgate.trans hu
  have hokr := update_ml_result_adata_ok cfg s e.label e.value e.anomaly e.dsp_time
    e.classification_time e.anomaly_time env _ i1 i2 i3 hok hu
  have hled : update_ml_result_led cfg
      (after_payload s (text_field e.label e.dsp_time e.classification_time e.anomaly_time))
      e.label e.value e.anomaly =
      (after_payload (debounce cfg s L true).1
        (text_field e.label e.dsp_time e.classification_time e.anomaly_time),
       (debounce cfg s L true).2) := by
    unfold update_ml_result_led
    rw [classify_accepted_by_value cfg e ha, debounce_after_payload, hl]
  obtain ⟨d1, d2, d3, d4⟩ := debounce_accepted_emissions cfg s L c hst
  rw [hled] at hh hokr
  refine ⟨_, hh, hokr, ?_, ?_, ?_, ?_⟩
  · simp only
    rw [(adv_start_or_update_frame _ _ _).2.2.1]
    exact d2.trans hmode
  · simp only
    rw [(adv_start_or_update_frame _ _ _).2.2.2.2.2.1]
    exact d1
  · intro hlt
    obtain ⟨a1, a2, a3, a4⟩ := d3 hlt
    simp only
    rw [emissions_append, emissions_adv_start_or_update, List.append_nil,
      (adv_start_or_update_frame _ _ _).2.2.2.1, (adv_start_or_update_frame _ _ _).2.2.2.2.1]
    refine ⟨a1, ?_, a3.trans hnb, a4⟩
    unfold streak_state
    rw [(adv_start_or_update_prediction _ _ _).1, (adv_start_or_update_prediction _ _ _).2.1]
    exact a2
  · intro hge
    obtain ⟨a1, a2, a3, a4, a5⟩ := d4 hge
    simp only
    rw [emissions_append, emissions_adv_start_or_update, List.append_nil,
      (adv_start_or_update_prediction _ _ _).1, (adv_start_or_update_prediction _ _ _).2.1,
      (adv_start_or_update_frame _ _ _).2.2.2.2.1, (adv_start_or_update_frame _ _ _).2.2.2.1]
    refine ⟨a1, a2, a3, a4, ?_⟩
    rw [hnb] at a5
    exact a5

/-- One more sample in front of a run. -/
theorem run_samples_cons (cfg : Config) (s : State) (e : ml_result_event) (env : Env)
    (rest : List (ml_result_event × Env)) (r1 r2 : State × List Ev)
    (h1 : handle_ml_result_event cfg s e env = some r1)
    (h2 : run_samples cfg r1.1 rest = some r2) :
    run_samples cfg s ((e, env) :: rest) = some (r2.1, r1.2 ++ r2.2) := by
  simp only [run_samples, h1, h2]

/-- A run of accepted samples with label `L` that completes the streak: the samples are
all handled, only the last one displays, and it submits what `display_ml_result` submits
in the state before the run. -/
theorem run_samples_accepted (cfg : Config) (L : Option CStr) :
    ∀ (samples : List (ml_result_event × Env)) (s : State) (c : Nat),
      s.ml_app_mode = MlAppMode.ML_APP_MODE_MODEL_RUNNING → s.blocking_led_effect = none →
      adata_ok s → streak_state L c s → samples ≠ [] →
      c + samples.length = cfg.PREDICTION_STREAK_THRESH →
      (∀ x ∈ samples, scenario_sample cfg L x.1) →
      ∃ r, run_samples cfg s samples = some r ∧
        emissions r.2 = stable_emissions cfg s L ∧
        r.1.cur_label = none ∧ r.1.prediction_streak = 0 ∧
        r.1.ml_result_effect = some (get_led_effect cfg L) ∧
        r.1.ml_app_mode = MlAppMode.ML_APP_MODE_MODEL_RUNNING ∧ adata_ok r.1 ∧
        r.1.blocking_led_effect =
          (if s.ml_result_effect = some (get_led_effect cfg L) then none
            else blocking_after cfg (get_led_effect cfg L)) := by
  intro samples
  induction samples with
  | nil => intro s c _ _ _ _ hne; exact absurd rfl hne
  | cons x rest ih =>
    intro s c hmode hnb hok hst _ hlen hall
    obtain ⟨e, env⟩ := x
    obtain ⟨r1, h1, ok1, m1, ss1, lt1, ge1⟩ := handle_ml_result_event_accepted cfg s L c e env
      hmode hnb hok hst (hall (e, env) (List.mem_cons_self _ _))
    simp only [List.length_cons] at hlen
    cases rest with
    | nil =>
      simp only [List.length_nil] at hlen
      obtain ⟨a1, a2, a3, a4, a5⟩ := ge1 (by omega)
      refine ⟨(r1.1, r1.2 ++ []), ?_, ?_, a2, a3, a4, m1, ok1, a5⟩
      · exact run_samples_cons cfg s e env [] r1 (r1.1, []) h1 rfl
      · simp only [List.append_nil]
        exact a1
    | cons y rest2 =>
      simp only [List.length_cons] at hlen
      obtain ⟨b1, b2, b3, b4⟩ := lt1 (by omega)
      obtain ⟨r2, h2, c1, c2, c3, c4, c5, c6, c7⟩ := ih r1.1 (c + 1) m1 b3 ok1 b2
        (List.cons_ne_nil _ _) (by simp only [List.length_cons]; omega)
        (fun z hz => hall z (List.mem_cons_of_mem _ hz))
      refine ⟨(r2.1, r1.2 ++ r2.2), ?_, ?_, c2, c3, c4, c5, c6, ?_⟩
      · exact run_samples_cons cfg s e env (y :: rest2) r1 r2 h1 h2
      · rw [emissions_append, b1, List.nil_append, c1,
          stable_emissions_congr cfg s r1.1 L b4 ss1]
      · rw [c7, b4]

/-- Samples delivered to `handle_ml_result_event` lead from reachable states to reachable
states. -/
theorem reachable_run_samples (cfg : Config) (feat : Features)
    (hf : feat.DISPLAY_ML_RESULTS = true) :
    ∀ (samples : List (ml_result_event × Env)) (s : State) (r : State × List Ev),
      Reachable cfg feat s → run_samples cfg s samples = some r → Reachable cfg feat r.1 := by
  intro samples
  induction samples with
  | nil =>
    intro s r hs hr
    simp only [run_samples, Option.some.injEq] at hr
    rw [← hr]
    exact hs
  | cons x rest ih =>
    intro s r hs hr
    obtain ⟨e, env⟩ := x
    unfold run_samples at hr
    cases h1 : handle_ml_result_event cfg s e env with
    | none => rw [h1] at hr; exact absurd hr (by simp)
    | some r1 =>
      rw [h1] at hr
      simp only at hr
      cases h2 : run_samples cfg r1.1 rest with
      | none => rw [h2] at hr; exact absurd hr (by simp)
      | some r2 =>
        rw [h2] at hr
        simp only [Option.some.injEq] at hr
        rw [← hr]
        have hev : app_event_handler cfg feat s (app_event.ml_result e) 0 env = some r1 := by
          unfold app_event_handler
          simp only [hf, if_true]
          exact h1
        exact ih r1.1 r2 (Reachable.event s _ 0 env r1 hs hev) h2

theorem zoom_in_run_scenario :
    ∀ x ∈ zoom_in_run, scenario_sample thingy52_config (some (cstr "zoom_in")) x.1 := by
  intro x hx
  simp only [zoom_in_run, List.mem_cons, List.mem_singleton, List.not_mem_nil, or_false] at hx
  have h : scenario_sample thingy52_config (some (cstr "zoom_in")) zoom_in_sample :=
    ⟨rfl, zoom_in_sample_accepted, is_int_small _ (by decide), is_int_small _ (by decide),
      is_int_small _ (by decide), by decide⟩
  rcases hx with hx | hx | hx <;> rw [hx] <;> exact h

theorem reachable_running_state (cfg : Config) :
    Reachable cfg all_features (running_state cfg) :=
  Reachable.event (init_state true)
    (app_event.ml_app_mode ⟨MlAppMode.ML_APP_MODE_MODEL_RUNNING⟩) 0 ⟨0, 0⟩ _
    Reachable.init rfl

/-! ## Lemmas on the cache of the advertising payload -/

theorem cached_bytes_eq (p : List Nat) : cached_bytes p = p.take 31 := by
  unfold cached_bytes
  rw [Nat.min_comm, ← List.take_take, List.take_length]

theorem cached_bytes_length (p : List Nat) : (cached_bytes p).length = min p.length 31 := by
  rw [cached_bytes_eq, List.length_take, Nat.min_comm]

theorem cached_bytes_idem (p : List Nat) : cached_bytes (cached_bytes p) = cached_bytes p := by
  rw [cached_bytes_eq, cached_bytes_eq, List.take_take, Nat.min_self]

theorem cache_tracks_request (s s1 : State) (p : List Nat) (env : Env) (pre : List Ev)
    (hpre : adv_calls pre = []) :
    cache_tracks s ((adv_start_or_update s1 p env).1, pre ++ (adv_start_or_update s1 p env).2) := by
  refine Or.inr ⟨p, ?_, ?_, (cached_payload_adv_start_or_update s1 p env).2⟩
  · simp only [adv_calls_append, hpre, adv_calls_adv_start_or_update, List.nil_append]
  · rw [cached_bytes_eq]
    exact (cached_payload_adv_start_or_update s1 p env).1

theorem adv_calls_display_sensor_sim (cfg : Config) (s : State) (l : Option CStr) :
    adv_calls (display_sensor_sim cfg s l).2 = [] := by
  unfold display_sensor_sim
  cases l <;> simp only <;> (try split) <;> rfl

theorem display_sensor_sim_cache (cfg : Config) (s : State) (l : Option CStr) :
    (display_sensor_sim cfg s l).1.last_svc_buf = s.last_svc_buf ∧
    (display_sensor_sim cfg s l).1.last_svc_len = s.last_svc_len := by
  unfold display_sensor_sim
  cases l <;> simp only <;> (try split) <;> simp

theorem display_ml_result_cache (cfg : Config) (s : State) (l : Option CStr) (f : Bool) :
    (display_ml_result cfg s l f).1.last_svc_buf = s.last_svc_buf ∧
    (display_ml_result cfg s l f).1.last_svc_len = s.last_svc_len := by
  rw [display_ml_result_frame]
  exact ⟨rfl, rfl⟩

theorem debounce_cache (cfg : Config) (s : State) (l : Option CStr) (a : Bool) :
    (debounce cfg s l a).1.last_svc_buf = s.last_svc_buf ∧
    (debounce cfg s l a).1.last_svc_len = s.last_svc_len := by
  rw [debounce_frame]
  exact ⟨rfl, rfl⟩

theorem cache_tracks_keep (s s1 : State) (tr : List Ev) (htr : adv_calls tr = [])
    (h : s1.last_svc_buf = s.last_svc_buf ∧ s1.last_svc_len = s.last_svc_len) :
    cache_tracks s (s1, tr) :=
  Or.inl ⟨htr, h.1, h.2⟩

theorem update_ml_result_payload_cache (s s1 : State) (label : Option CStr) (t1 t2 t3 : Int)
    (h : update_ml_result_payload s label t1 t2 t3 = some s1) :
    s1.last_svc_buf = s.last_svc_buf ∧ s1.last_svc_len = s.last_svc_len := by
  unfold update_ml_result_payload at h
  cases hc : compose_rs label t1 t2 t3 with
  | none => rw [hc] at h; exact absurd h (by simp)
  | some rs =>
    rw [hc] at h
    simp only [Option.some.injEq] at h
    rw [← h]
    exact ⟨rfl, rfl⟩

theorem handle_ml_result_event_cache (cfg : Config) (s : State) (e : ml_result_event)
    (env : Env) (r : State × List Ev) (h : handle_ml_result_event cfg s e env = some r) :
    cache_tracks s r := by
  unfold handle_ml_result_event at h
  split_ifs at h
  · unfold update_ml_result at h
    cases hp : update_ml_result_payload s e.label e.dsp_time e.classification_time
        e.anomaly_time with
    | none => rw [hp] at h; exact absurd h (by simp)
    | some s1 =>
      rw [hp] at h
      simp only [Option.some.injEq] at h
      rw [← h]
      exact cache_tracks_request s _ _ env _ (adv_calls_debounce _ _ _ _)
  · simp only [Option.some.injEq] at h
    rw [← h]
    exact cache_tracks_keep s s [] rfl ⟨rfl, rfl⟩

theorem bt_ready_cb_cache (s : State) (err : Int) (env : Env) :
    cache_tracks s (bt_ready_cb s err env) := by
  unfold bt_ready_cb start_initial_adv
  split_ifs
  · exact cache_tracks_keep s s [] rfl ⟨rfl, rfl⟩
  · exact cache_tracks_request s _ _ env [] rfl

theorem led_ble_sysinit_cache (s : State) (b : Int) (env : Env) (pre : List Ev)
    (hpre : adv_calls pre = []) :
    cache_tracks s ((led_ble_sysinit s b env).1, pre ++ (led_ble_sysinit s b env).2) := by
  unfold led_ble_sysinit start_initial_adv
  split_ifs
  · have h := cache_tracks_request s { s with ble_ready := true } init_adata env
      (pre ++ [Ev.bt_enable]) (by rw [adv_calls_append, hpre]; rfl)
    simpa only [List.append_assoc, List.singleton_append] using h
  · exact cache_tracks_keep s s _ (by rw [adv_calls_append, hpre]; rfl) ⟨rfl, rfl⟩

theorem adv_retry_fn_cache (s : State) (env : Env) :
    cache_tracks s (adv_retry_fn s env) ∧
    adv_calls (adv_retry_fn s env).2 = [cached_payload s] := by
  unfold adv_retry_fn
  exact ⟨cache_tracks_request s _ _ env [] rfl, adv_calls_adv_start_or_update _ _ _⟩

theorem app_event_handler_cache (cfg : Config) (feat : Features) (s : State) (ev : app_event)
    (b : Int) (env : Env) (r : State × List Ev)
    (h : app_event_handler cfg feat s ev b env = some r) : cache_tracks s r := by
  cases ev with
  | ml_result e =>
    simp only [app_event_handler] at h
    split_ifs at h
    · exact handle_ml_result_event_cache cfg s e env r h
    · simp only [Option.some.injEq] at h
      rw [← h]
      exact cache_tracks_keep s s [] rfl ⟨rfl, rfl⟩
  | sensor_sim e =>
    simp only [app_event_handler] at h
    split_ifs at h <;> simp only [Option.some.injEq] at h <;> rw [← h]
    · exact cache_tracks_keep s _ _ (adv_calls_display_sensor_sim _ _ _)
        (display_sensor_sim_cache _ _ _)
    · exact cache_tracks_keep s s [] rfl ⟨rfl, rfl⟩
  | ei_data_forwarder e =>
    simp only [app_event_handler] at h
    split_ifs at h <;> simp only [Option.some.injEq] at h <;> rw [← h]
    · unfold handle_ei_data_forwarder_event
      split_ifs <;> exact cache_tracks_keep s _ _ rfl ⟨rfl, rfl⟩
    · exact cache_tracks_keep s s [] rfl ⟨rfl, rfl⟩
  | led_ready e =>
    simp only [app_event_handler, Option.some.injEq] at h
    rw [← h]
    unfold handle_led_ready_event
    split_ifs
    · exact cache_tracks_keep s _ _ (adv_calls_display_ml_result _ _ _ _)
        (display_ml_result_cache _ _ _ _)
    · exact cache_tracks_keep s s [] rfl ⟨rfl, rfl⟩
  | ml_app_mode e =>
    simp only [app_event_handler, Option.some.injEq] at h
    rw [← h]
    unfold handle_ml_app_mode_event
    split
    · exact cache_tracks_keep s _ _ (adv_calls_display_ml_result _ _ _ _)
        (display_ml_result_cache _ _ _ _)
    · exact cache_tracks_keep s _ _ rfl ⟨rfl, rfl⟩
    · exact cache_tracks_keep s _ _ rfl ⟨rfl, rfl⟩
  | module_state e =>
    simp only [app_event_handler, Option.some.injEq] at h
    rw [← h]
    unfold handle_module_state_event
    split_ifs
    · exact cache_tracks_request s _ _ env [] rfl
    · exact led_ble_sysinit_cache s b env [Ev.module_set_state_ready, Ev.signin true] rfl
    · exact cache_tracks_keep s s _ rfl ⟨rfl, rfl⟩
    · exact cache_tracks_keep s s [] rfl ⟨rfl, rfl⟩

theorem step_cache (cfg : Config) (feat : Features) (s : State) (st : Step)
    (r : State × List Ev) (h : step cfg feat s st = some r) : cache_tracks s r := by
  cases st with
  | event ev b env => exact app_event_handler_cache cfg feat s ev b env r h
  | bt_ready err env =>
    simp only [step, Option.some.injEq] at h
    rw [← h]
    exact bt_ready_cb_cache s err env
  | sysinit b env =>
    simp only [step, Option.some.injEq] at h
    rw [← h]
    exact led_ble_sysinit_cache s b env [] rfl
  | retry env =>
    simp only [step] at h
    split_ifs at h <;> simp only [Option.some.injEq] at h <;> rw [← h]
    · exact cache_tracks_keep s s [] rfl ⟨rfl, rfl⟩
    · exact (adv_retry_fn_cache s env).1

theorem cached_payload_congr (s s1 : State)
    (h : s1.last_svc_buf = s.last_svc_buf ∧ s1.last_svc_len = s.last_svc_len) :
    cached_payload s1 = cached_payload s := by
  unfold cached_payload
  rw [h.1, h.2]

/-- Along every sequence of activations the cache holds the bytes of the most recent
request. -/
theorem run_steps_cache (cfg : Config) (feat : Features) :
    ∀ (steps : List Step) (s : State) (q : List Nat) (r : State × List Ev),
      cached_payload s = cached_bytes q → s.last_svc_len = min q.length 31 →
      run_steps cfg feat s steps = some r →
      cached_payload r.1 = cached_bytes ((adv_calls r.2).getLastD q) ∧
      r.1.last_svc_len = min ((adv_calls r.2).getLastD q).length 31 := by
  intro steps
  induction steps with
  | nil =>
    intro s q r hc hl h
    simp only [run_steps, Option.some.injEq] at h
    rw [← h]
    exact ⟨hc, hl⟩
  | cons st rest ih =>
    intro s q r hc hl h
    simp only [run_steps] at h
    cases h1 : step cfg feat s st with
    | none => rw [h1] at h; exact absurd h (by simp)
    | some r1 =>
      rw [h1] at h
      simp only at h
      cases h2 : run_steps cfg feat r1.1 rest with
      | none => rw [h2] at h; exact absurd h (by simp)
      | some r2 =>
        rw [h2] at h
        simp only [Option.some.injEq] at h
        rw [← h]
        simp only [adv_calls_append]
        rcases step_cache cfg feat s st r1 h1 with ⟨hn, hk⟩ | ⟨q1, hq, hc1, hl1⟩
        · rw [hn, List.nil_append]
          exact ih r1.1 q r2 ((cached_payload_congr s r1.1 hk).trans hc) (hk.2.trans hl) h2
        · rw [hq, List.singleton_append, List.getLastD_cons]
          exact ih r1.1 q1 r2 hc1 hl1 h2

/-! ## Claims -/

/-- C1. Result debouncer: from the cleared prediction state, feeding samples that are all
accepted by the value rule with the same label `L` (confidence at least the value
threshold, anomaly not above the anomaly threshold) calls `display_ml_result` with label
`L` exactly on the samples number N, 2N, 3N, ... (N the streak threshold) and on no other
sample, and the streak is 0 right after each such call; N such samples give exactly one
call, with label `L`. -/
theorem C1_debouncer_stabilises_every_Nth (cfg : Config) (L : Option CStr) (s : State)
    (es : List ml_result_event)
    (hN : 0 < cfg.PREDICTION_STREAK_THRESH)
    (hs : s.cur_label = none ∧ s.prediction_streak = 0)
    (hes : ∀ e ∈ es, e.label = L ∧ accepted_by_value cfg e) :
    (feed_led cfg s es).length = es.length ∧
    (∀ (k : Nat) (r : State × List Ev), (feed_led cfg s es)[k]? = some r →
      display_calls r.2 =
        (if cfg.PREDICTION_STREAK_THRESH ∣ k + 1 then [(L, false)] else []) ∧
      (cfg.PREDICTION_STREAK_THRESH ∣ k + 1 → r.1.prediction_streak = 0)) ∧
    (es.length = cfg.PREDICTION_STREAK_THRESH →
      run_display_calls (feed_led cfg s es) = [(L, false)]) := by
  have hst : streak_state L 0 s := ⟨hs.2, fun _ => hs.1, fun h => absurd rfl h⟩
  refine ⟨?_, ?_, ?_⟩
  · clear hst hs hes
    induction es generalizing s with
    | nil => rfl
    | cons e es ih => simp [feed_led, ih]
  · intro k r h
    have := feed_led_accepted cfg L es s 0 hN hst hes k r h
    simp only [Nat.zero_add] at this
    exact ⟨this.1, fun hd => (this.2 hd).1⟩
  · intro hlen
    have := run_display_calls_accepted cfg L es s 0 hN hst hes (by omega)
    rw [this, if_pos (by omega)]

/-- C1 at the shipped table with streak threshold 3: three accepted `"zoom_in"` samples
from the start-up state give one call of `display_ml_result`, with `"zoom_in"`. -/
theorem C1_debouncer_stabilises_every_Nth_witness :
    run_display_calls (feed_led thingy52_config (init_state false)
      [zoom_in_sample, zoom_in_sample, zoom_in_sample]) = [(some (cstr "zoom_in"), false)] :=
  (C1_debouncer_stabilises_every_Nth thingy52_config (some (cstr "zoom_in")) (init_state false)
    [zoom_in_sample, zoom_in_sample, zoom_in_sample] (by decide) ⟨rfl, rfl⟩
    (by
      intro e he
      simp only [List.mem_cons, List.mem_singleton, List.not_mem_nil, or_false, or_self] at he
      subst he
      exact ⟨rfl, zoom_in_sample_accepted⟩)).2.2 rfl

/-- C2, evaluated on the code: with streak threshold 3, one accepted `"zoom_in"` sample from
the start-up state leaves the prediction state (`"zoom_in"`, 1); the following sample is a
rejected one (confidence 0.5 below 0.8, anomaly 0.1 available and not above 2.5), and the
call for it replaces the current label by NULL and the streak by 0 instead of leaving both
as they were.  Shown for the LED section of `update_ml_result` and for `update_ml_result`
as a whole. -/
theorem C2_rejected_sample_resets_prediction :
    rejected thingy52_config low_confidence_sample ∧
    (update_ml_result_led thingy52_config (init_state false) zoom_in_sample.label
        zoom_in_sample.value zoom_in_sample.anomaly).1.cur_label = some (cstr "zoom_in") ∧
    (update_ml_result_led thingy52_config (init_state false) zoom_in_sample.label
        zoom_in_sample.value zoom_in_sample.anomaly).1.prediction_streak = 1 ∧
    (update_ml_result_led thingy52_config
        (update_ml_result_led thingy52_config (init_state false) zoom_in_sample.label
          zoom_in_sample.value zoom_in_sample.anomaly).1
        low_confidence_sample.label low_confidence_sample.value
        low_confidence_sample.anomaly).1.cur_label = none ∧
    (update_ml_result_led thingy52_config
        (update_ml_result_led thingy52_config (init_state false) zoom_in_sample.label
          zoom_in_sample.value zoom_in_sample.anomaly).1
        low_confidence_sample.label low_confidence_sample.value
        low_confidence_sample.anomaly).1.prediction_streak = 0 ∧
    (∃ r1 r2,
      update_ml_result thingy52_config (init_state false) zoom_in_sample.label
        zoom_in_sample.value zoom_in_sample.anomaly 12 345 0 ⟨1000, 0⟩ = some r1 ∧
      r1.1.cur_label = some (cstr "zoom_in") ∧ r1.1.prediction_streak = 1 ∧
      update_ml_result thingy52_config r1.1 low_confidence_sample.label
        low_confidence_sample.value low_confidence_sample.anomaly 12 345 0 ⟨1100, 0⟩ = some r2 ∧
      r2.1.cur_label = none ∧ r2.1.prediction_streak = 0) := by
  have s1 := led_step_accepted thingy52_config (some (cstr "zoom_in")) 0 (init_state false)
    (by decide) ⟨rfl, fun _ => rfl, fun h => absurd rfl h⟩ zoom_in_sample rfl
    zoom_in_sample_accepted
  obtain ⟨_, hs, _, hl⟩ := s1.2 (by decide)
  have hl' := hl (by decide)
  have h2 := update_ml_result_led_rejected thingy52_config _ low_confidence_sample
    (by decide) low_confidence_sample_rejected (by rw [hl']; simp)
  refine ⟨low_confidence_sample_rejected, hl', hs, by rw [h2], by rw [h2], ?_⟩
  have i12 : is_int 12 := is_int_small _ (by decide)
  have i345 : is_int 345 := is_int_small _ (by decide)
  have i0 : is_int 0 := is_int_small _ (by decide)
  have hfit : (text_field (some (cstr "zoom_in")) 12 345 0).length ≤ 39 := by decide
  have e1 := update_ml_result_fits thingy52_config (init_state false) zoom_in_sample.label
      zoom_in_sample.value zoom_in_sample.anomaly 12 345 0 ⟨1000, 0⟩ i12 i345 i0
      (adata_ok_init false) hfit
  have p1 := update_ml_result_led_part thingy52_config (init_state false) zoom_in_sample.label
      zoom_in_sample.value zoom_in_sample.anomaly 12 345 0 ⟨1000, 0⟩ _ i12 i345 i0
      (adata_ok_init false) e1
  have ok1 := update_ml_result_adata_ok thingy52_config (init_state false) zoom_in_sample.label
      zoom_in_sample.value zoom_in_sample.anomaly 12 345 0 ⟨1000, 0⟩ _ i12 i345 i0
      (adata_ok_init false) e1
  have e2 := update_ml_result_fits thingy52_config _ low_confidence_sample.label
      low_confidence_sample.value low_confidence_sample.anomaly 12 345 0 ⟨1100, 0⟩ i12 i345 i0
      ok1 hfit
  have p2 := update_ml_result_led_part thingy52_config _ low_confidence_sample.label
      low_confidence_sample.value low_confidence_sample.anomaly 12 345 0 ⟨1100, 0⟩ _ i12 i345 i0
      ok1 e2
  have hrej := update_ml_result_led_rejected thingy52_config _ low_confidence_sample
    (by decide) low_confidence_sample_rejected (by rw [p1.1, hl']; simp)
  exact ⟨_, _, e1, p1.1.trans hl', p1.2.1.trans hs, e2, by rw [p2.1, hrej],
    by rw [p2.2.1, hrej]⟩

/-- C3. Anomaly priority: a sample whose anomaly score is available (at least 0) and above
the anomaly threshold is accepted with the candidate label `ANOMALY_LABEL`, whatever its
label and confidence: after the call either the current label is `ANOMALY_LABEL` with a
streak of at least 1 and nothing was displayed, or the streak reached the threshold on
this sample and `display_ml_result` was called with `ANOMALY_LABEL`. -/
theorem C3_anomaly_priority (cfg : Config) (s : State) (label : Option CStr) (value anomaly : ℚ)
    (h0 : anomaly ≥ 0) (h1 : anomaly > ANOMALY_THRESH cfg) :
    classify cfg label value anomaly = (some cfg.ANOMALY_LABEL, true) ∧
    (((update_ml_result_led cfg s label value anomaly).1.cur_label = some cfg.ANOMALY_LABEL ∧
      1 ≤ (update_ml_result_led cfg s label value anomaly).1.prediction_streak ∧
      display_calls (update_ml_result_led cfg s label value anomaly).2 = []) ∨
     (display_calls (update_ml_result_led cfg s label value anomaly).2 =
        [(some cfg.ANOMALY_LABEL, false)] ∧
      (update_ml_result_led cfg s label value anomaly).1.cur_label = none ∧
      (update_ml_result_led cfg s label value anomaly).1.prediction_streak = 0)) := by
  have hcl := classify_anomaly cfg label value anomaly h0 h1
  refine ⟨hcl, ?_⟩
  unfold update_ml_result_led
  rw [hcl]
  simp only
  rw [debounce_accept_cases]
  by_cases h : (if some cfg.ANOMALY_LABEL = s.cur_label then s.prediction_streak else 0) + 1 ≥
      cfg.PREDICTION_STREAK_THRESH
  · rw [if_pos h]
    right
    exact ⟨display_calls_display_ml_result _ _ _ _, by simp [clear_prediction],
      by simp [clear_prediction]⟩
  · rw [if_neg h]
    left
    exact ⟨rfl, by simp, rfl⟩

/-- C3 at the shipped table: a `"zoom_in"` sample with confidence 0.5 and anomaly score 3
(threshold 2.5) makes `ANOMALY_LABEL` the current label, with streak 1. -/
theorem C3_anomaly_priority_witness :
    anomalous_sample.anomaly ≥ 0 ∧ anomalous_sample.anomaly > ANOMALY_THRESH thingy52_config ∧
    classify thingy52_config anomalous_sample.label anomalous_sample.value
      anomalous_sample.anomaly = (some (cstr "_anomaly"), true) :=
  have h0 : anomalous_sample.anomaly ≥ 0 := by simp only [anomalous_sample]; norm_num
  have h1 : anomalous_sample.anomaly > ANOMALY_THRESH thingy52_config := by
    simp only [anomalous_sample, ANOMALY_THRESH, thingy52_config]; norm_num
  ⟨h0, h1, (C3_anomaly_priority thingy52_config (init_state false) anomalous_sample.label
    anomalous_sample.value anomalous_sample.anomaly h0 h1).1⟩

/-- C4, evaluated on the code: for a label of 40 bytes and timings 0, 0, 0 the first
`strncat` call fills the 40-byte array `rs` (39 bytes and the terminator) and the second
one, appending `";"`, writes beyond it, so the payload section has no defined result and
`update_ml_result` hands no payload on. -/
theorem C4_long_label_writes_beyond_rs :
    strncat 40 [] long_label 39 = some (List.replicate 39 97) ∧
    strncat 40 (List.replicate 39 97) (cstr ";") 39 = none ∧
    compose_rs (some long_label) 0 0 0 = none ∧
    update_ml_result_payload (init_state false) (some long_label) 0 0 0 = none ∧
    update_ml_result thingy52_config (init_state false) (some long_label) (9 / 10) (1 / 10)
      0 0 0 ⟨0, 0⟩ = none := by
  have h : update_ml_result_payload (init_state false) (some long_label) 0 0 0 = none := by
    decide
  refine ⟨by decide, by decide, by decide, h, ?_⟩
  unfold update_ml_result
  rw [h]

/-- C5. The 31-byte limit: every advertising data that a call of `update_ml_result` passes
to the radio stack (`ad1`: the flags element with 1 data byte, the UUID element with 2, the
service data with the encoded payload; 2 header bytes per element) has
14 + min(length of the text, 17) bytes, which is at most 31 and is 31 exactly when the text
has 17 or more bytes; and with any cap above 17 in place of `RS_MAX_LEN` a text that
reaches the cap gives more than 31 bytes. -/
theorem C5_advertising_data_at_most_31 (cfg : Config) (s : State) (label : Option CStr)
    (value anomaly : ℚ) (t1 t2 t3 : Int) (env : Env) (r : State × List Ev)
    (h1 : is_int t1) (h2 : is_int t2) (h3 : is_int t3) (hok : adata_ok s) (had : ad1_ok s)
    (hr : update_ml_result cfg s label value anomaly t1 t2 t3 env = some r) :
    (∀ ad ∈ radio_ads r.2,
      ad_total_len ad = 14 + min (text_field label t1 t2 t3).length 17 ∧
      ad_total_len ad ≤ 31 ∧
      (ad_total_len ad = 31 ↔ 17 ≤ (text_field label t1 t2 t3).length)) ∧
    (∀ (cap : Nat) (rs : CStr), 17 < cap → cap ≤ rs.length → rs.length ≤ 39 →
      31 < ad_total_len (s.ad1.set 2
        (BT_DATA BT_DATA_SVC_DATA16
          ((store_rs cap s.adata rs).1.take (store_rs cap s.adata rs).2)
          (store_rs cap s.adata rs).2))) := by
  constructor
  · by_cases hfit : (text_field label t1 t2 t3).length ≤ 39
    · rw [update_ml_result_fits cfg s label value anomaly t1 t2 t3 env h1 h2 h3 hok hfit] at hr
      simp only [Option.some.injEq] at hr
      subst hr
      intro ad had'
      simp only [radio_ads_append, update_ml_result_led, radio_ads_debounce,
        List.nil_append] at had'
      have hs := radio_ads_adv_start_or_update _ _ _ ad had'
      have hframe : (debounce cfg (after_payload s (text_field label t1 t2 t3))
          (classify cfg label value anomaly).1 (classify cfg label value anomaly).2).1.ad1 =
          s.ad1 := by
        rw [debounce_frame]; rfl
      have had2 : ad1_ok (debounce cfg (after_payload s (text_field label t1 t2 t3))
          (classify cfg label value anomaly).1 (classify cfg label value anomaly).2).1 := by
        unfold ad1_ok
        rw [hframe]
        exact had
      rw [hs, ad_total_len_set _ had2]
      simp only [BT_DATA, List.length_append, List.length_take, preamble, List.length_cons,
        List.length_nil]
      omega
    · rw [update_ml_result, update_ml_result_payload_overflow s label t1 t2 t3 h1 h2 h3 hfit]
        at hr
      exact absurd hr (by simp)
  · intro cap rs hcap hlen h39
    rw [ad_total_len_set s had]
    simp only [BT_DATA, store_rs]
    have : min rs.length cap = cap := Nat.min_eq_right hlen
    rw [this]
    omega

/-- C5 at the shipped configuration: with the stack ready and advertising not started, the
sample `"zoom_in"` with timings 12, 345, 0 (a text of 16 bytes) makes one radio call, which
starts advertising with 30 bytes of advertising data. -/
theorem C5_advertising_data_at_most_31_witness :
    ∃ r, update_ml_result thingy52_config ready_idle_state zoom_in_sample.label
        zoom_in_sample.value zoom_in_sample.anomaly 12 345 0 ⟨1000, 0⟩ = some r ∧
      (radio_ads r.2).length = 1 ∧
      ∀ ad ∈ radio_ads r.2, ad_total_len ad = 30 :=
  have hr := update_ml_result_fits thingy52_config ready_idle_state zoom_in_sample.label
      zoom_in_sample.value zoom_in_sample.anomaly 12 345 0 ⟨1000, 0⟩
      (is_int_small _ (by decide)) (is_int_small _ (by decide)) (is_int_small _ (by decide))
      (by constructor <;> decide) (by decide)
  ⟨_, hr,
    (by
      rw [radio_ads_append]
      unfold update_ml_result_led
      rw [radio_ads_debounce, List.nil_append]
      unfold adv_start_or_update
      rw [debounce_frame]
      simp [after_payload, ready_idle_state, init_state, radio_ads]),
    fun ad had =>
      ((C5_advertising_data_at_most_31 thingy52_config ready_idle_state zoom_in_sample.label
        zoom_in_sample.value zoom_in_sample.anomaly 12 345 0 ⟨1000, 0⟩ _
        (is_int_small _ (by decide)) (is_int_small _ (by decide)) (is_int_small _ (by decide))
        (by constructor <;> decide) (by constructor <;> decide) hr).1 ad had).1.trans
        (by decide)⟩

/-- C6 as stated fails: in data-forwarding mode the handler returns without calling
`update_ml_result`, so a delivered sample leads to no call of `adv_start_or_update`. -/
theorem C6_no_telemetry_outside_model_running :
    (handle_ml_result_event thingy52_config forwarding_state zoom_in_sample ⟨1000, 0⟩).map
      (fun r => adv_calls r.2) = some [] := by
  rfl

/-- C6, amended. A sample event delivered in model-running mode with no blocking effect
pending, whose text fits into `rs` (at most 39 bytes), makes exactly one call of
`adv_start_or_update`, with the payload encoded from the sample's label and timings (the
preamble and the first 17 bytes of the text), whether or not the sample is accepted or
stabilises; in every other mode, and while a blocking effect is pending, the handler does
nothing. -/
theorem C6_telemetry_once_per_handled_sample (cfg : Config) (s : State) (e : ml_result_event)
    (env : Env)
    (h1 : is_int e.dsp_time) (h2 : is_int e.classification_time) (h3 : is_int e.anomaly_time)
    (hok : adata_ok s)
    (hfit : (text_field e.label e.dsp_time e.classification_time e.anomaly_time).length ≤ 39) :
    (s.ml_app_mode = MlAppMode.ML_APP_MODE_MODEL_RUNNING ∧ s.blocking_led_effect = none →
      ∃ r, handle_ml_result_event cfg s e env = some r ∧
        adv_calls r.2 =
          [preamble ++
            (text_field e.label e.dsp_time e.classification_time e.anomaly_time).take 17]) ∧
    (¬ (s.ml_app_mode = MlAppMode.ML_APP_MODE_MODEL_RUNNING ∧ s.blocking_led_effect = none) →
      handle_ml_result_event cfg s e env = some (s, [])) := by
  constructor
  · intro hrun
    unfold handle_ml_result_event
    rw [if_pos hrun, update_ml_result_fits cfg s e.label e.value e.anomaly e.dsp_time
      e.classification_time e.anomaly_time env h1 h2 h3 hok hfit]
    refine ⟨_, rfl, ?_⟩
    simp only [adv_calls_append, update_ml_result_led, adv_calls_debounce,
      adv_calls_adv_start_or_update, List.nil_append]
  · intro hrun
    unfold handle_ml_result_event
    rw [if_neg hrun]

/-- C6, amended, at the shipped configuration: in model-running mode the sample
`"zoom_in"` with timings 12, 345, 0 is passed on once, as the preamble followed by
`"zoom_in;12;345;0"`. -/
theorem C6_telemetry_once_per_handled_sample_witness :
    ∃ r, handle_ml_result_event thingy52_config ready_idle_state zoom_in_sample ⟨1000, 0⟩ =
        some r ∧
      adv_calls r.2 = [preamble ++ cstr "zoom_in;12;345;0"] :=
  (C6_telemetry_once_per_handled_sample thingy52_config ready_idle_state zoom_in_sample
    ⟨1000, 0⟩ (is_int_small _ (by decide)) (is_int_small _ (by decide))
    (is_int_small _ (by decide)) (by constructor <;> decide) (by decide)).1
    ⟨rfl, rfl⟩

/-- C7. Not ready: while `ble_ready` is false a call of `adv_start_or_update` makes no call
to the radio stack, caches the payload (its first 31 bytes, which is all of it for a
payload within the 31-byte contract), leaves `adv_started` and the last-update timestamp
as they were, and leaves the retry scheduled 150 ms later, whether or not one was pending
before, with exactly one `k_work_reschedule` call. -/
theorem C7_not_ready_caches_and_schedules_retry (s : State) (p : List Nat) (env : Env)
    (h : s.ble_ready = false) :
    radio_calls (adv_start_or_update s p env).2 = [] ∧
    cached_payload (adv_start_or_update s p env).1 = p.take 31 ∧
    (p.length ≤ 31 → cached_payload (adv_start_or_update s p env).1 = p) ∧
    (adv_start_or_update s p env).1.ble_ready = false ∧
    (adv_start_or_update s p env).1.adv_started = s.adv_started ∧
    (adv_start_or_update s p env).1.adv_last_update_ms = s.adv_last_update_ms ∧
    (adv_start_or_update s p env).1.adv_retry_work = some 150 ∧
    reschedules (adv_start_or_update s p env).2 = [150] := by
  have hc := (cached_payload_adv_start_or_update s p env).1
  refine ⟨?_, hc, fun hl => by rw [hc, List.take_of_length_le hl], ?_⟩
  · unfold adv_start_or_update
    simp only [h, if_true]
    rfl
  · unfold adv_start_or_update
    simp [h, reschedules]

/-- C7 on a state that is not ready and has a retry pending: the request for the payload
of `start_initial_adv` makes no radio call, is cached and leaves one retry at 150 ms. -/
theorem C7_not_ready_caches_and_schedules_retry_witness :
    radio_calls (adv_start_or_update not_ready_state init_adata ⟨1000, 0⟩).2 = [] ∧
    cached_payload (adv_start_or_update not_ready_state init_adata ⟨1000, 0⟩).1 = init_adata ∧
    (adv_start_or_update not_ready_state init_adata ⟨1000, 0⟩).1.adv_retry_work = some 150 :=
  have h := C7_not_ready_caches_and_schedules_retry not_ready_state init_adata ⟨1000, 0⟩ rfl
  ⟨h.1, h.2.2.1 (by decide), h.2.2.2.2.2.2.1⟩

/-- C8. Transient failure: with the stack ready, a request that reaches the radio stack
(a start attempt while advertising is not started, or an update that is not throttled
while it is started) and gets `-EAGAIN` or `-EBUSY` makes that one radio call, leaves
`adv_started` and the last-update timestamp as they were, and leaves the retry scheduled
150 ms later, with exactly one `k_work_reschedule` call. -/
theorem C8_transient_failure_schedules_retry (s : State) (p : List Nat) (env : Env)
    (hready : s.ble_ready = true)
    (hreach : s.adv_started = false ∨ ¬ (env.now - s.adv_last_update_ms < ADV_MIN_UPDATE_MS))
    (herr : env.err = -EAGAIN ∨ env.err = -EBUSY) :
    (radio_calls (adv_start_or_update s p env).2 =
      (if s.adv_started = false
        then [Ev.bt_le_adv_start (s.ad1.set 2 (BT_DATA BT_DATA_SVC_DATA16 p p.length))]
        else [Ev.bt_le_adv_update_data (s.ad1.set 2 (BT_DATA BT_DATA_SVC_DATA16 p p.length))])) ∧
    (adv_start_or_update s p env).1.adv_started = s.adv_started ∧
    (adv_start_or_update s p env).1.adv_last_update_ms = s.adv_last_update_ms ∧
    (adv_start_or_update s p env).1.adv_retry_work = some 150 ∧
    reschedules (adv_start_or_update s p env).2 = [150] := by
  have hne : env.err ≠ 0 := by
    rcases herr with h | h <;> rw [h] <;> decide
  unfold adv_start_or_update
  by_cases hs : s.adv_started = false
  · simp [hready, hs, hne, herr, radio_calls, reschedules]
  · have hnt : ¬ (env.now - s.adv_last_update_ms < ADV_MIN_UPDATE_MS) := by
      rcases hreach with h | h
      · exact absurd h hs
      · exact h
    simp [hready, hs, hne, herr, hnt, radio_calls, reschedules]

/-- C8 on a start attempt: with the stack ready and advertising not started, a start that
returns `-EBUSY` leaves advertising not started and one retry at 150 ms. -/
theorem C8_transient_failure_schedules_retry_witness :
    (adv_start_or_update ready_idle_state init_adata ⟨1000, -EBUSY⟩).1.adv_started = false ∧
    (adv_start_or_update ready_idle_state init_adata ⟨1000, -EBUSY⟩).1.adv_retry_work =
      some 150 :=
  have h := C8_transient_failure_schedules_retry ready_idle_state init_adata ⟨1000, -EBUSY⟩
    rfl (Or.inl rfl) (Or.inr rfl)
  ⟨h.2.1, h.2.2.2.1⟩

/-- C9. Unsupported update: while advertising is started, a request that is not throttled
and whose `bt_le_adv_update_data` call returns `-ENOTSUP` stops advertising, sets
`adv_started` to false and schedules the retry with zero delay; the stack is still ready,
and when the retry then fires and its start call succeeds, advertising is started again,
with service data that is the cached payload: the first 31 bytes of the payload of the
failed update, which is that payload itself whenever it has at most 31 bytes. -/
theorem C9_unsupported_update_restarts (s : State) (p : List Nat) (env env2 : Env)
    (hready : s.ble_ready = true) (hstarted : s.adv_started = true)
    (hnt : ¬ (env.now - s.adv_last_update_ms < ADV_MIN_UPDATE_MS))
    (herr : env.err = -ENOTSUP) (herr2 : env2.err = 0) :
    radio_calls (adv_start_or_update s p env).2 =
      [Ev.bt_le_adv_update_data (s.ad1.set 2 (BT_DATA BT_DATA_SVC_DATA16 p p.length)),
       Ev.bt_le_adv_stop] ∧
    (adv_start_or_update s p env).1.adv_started = false ∧
    (adv_start_or_update s p env).1.ble_ready = true ∧
    (adv_start_or_update s p env).1.adv_retry_work = some 0 ∧
    reschedules (adv_start_or_update s p env).2 = [0] ∧
    radio_calls (adv_retry_fn (adv_start_or_update s p env).1 env2).2 =
      [Ev.bt_le_adv_start
        (s.ad1.set 2 (BT_DATA BT_DATA_SVC_DATA16 (p.take 31) (p.take 31).length))] ∧
    (p.length ≤ 31 → p.take 31 = p) ∧
    (adv_retry_fn (adv_start_or_update s p env).1 env2).1.adv_started = true ∧
    (adv_retry_fn (adv_start_or_update s p env).1 env2).1.adv_last_update_ms = env2.now ∧
    (adv_retry_fn (adv_start_or_update s p env).1 env2).1.adv_retry_work = none := by
  have hc := cached_payload_adv_start_or_update s p env
  have hfirst : adv_start_or_update s p env =
      ({ s with last_svc_buf := p.take (min p.length 31) ++ s.last_svc_buf.drop (min p.length 31),
                last_svc_len := min p.length 31,
                ad1 := s.ad1.set 2 (BT_DATA BT_DATA_SVC_DATA16 p p.length),
                adv_started := false, adv_retry_work := some 0 },
       [Ev.adv_start_or_update p,
        Ev.bt_le_adv_update_data (s.ad1.set 2 (BT_DATA BT_DATA_SVC_DATA16 p p.length)),
        Ev.bt_le_adv_stop, Ev.k_work_reschedule 0]) := by
    unfold adv_start_or_update
    simp [hready, hstarted, hnt, herr, EAGAIN, EBUSY, ENOTSUP]
  have hcache : (adv_start_or_update s p env).1.last_svc_buf.take
      (adv_start_or_update s p env).1.last_svc_len = p.take 31 := hc.1
  have hsecond : adv_retry_fn (adv_start_or_update s p env).1 env2 =
      adv_start_or_update { (adv_start_or_update s p env).1 with adv_retry_work := none }
        (p.take 31) env2 := by
    unfold adv_retry_fn
    rw [hcache]
  refine ⟨by rw [hfirst]; rfl, by rw [hfirst], by rw [hfirst]; exact hready, by rw [hfirst],
    by rw [hfirst]; rfl, ?_, fun hl => List.take_of_length_le hl, ?_⟩
  · rw [hsecond, hfirst]
    unfold adv_start_or_update
    simp [hready, herr2, radio_calls]
  · rw [hsecond, hfirst]
    unfold adv_start_or_update
    simp [hready, herr2]

/-- C9 on a started state: an update of the `start_initial_adv` payload at time 1000 that
returns `-ENOTSUP` stops advertising, and the retry, succeeding at time 1001, starts it
again with that payload. -/
theorem C9_unsupported_update_restarts_witness :
    (adv_start_or_update active_state init_adata ⟨1000, -ENOTSUP⟩).1.adv_started = false ∧
    radio_calls (adv_retry_fn (adv_start_or_update active_state init_adata
        ⟨1000, -ENOTSUP⟩).1 ⟨1001, 0⟩).2 =
      [Ev.bt_le_adv_start
        [BT_DATA_BYTES BT_DATA_FLAGS [6], BT_DATA_BYTES BT_DATA_UUID16_ALL [0xaa, 0xfe],
         BT_DATA BT_DATA_SVC_DATA16 init_adata 16]] ∧
    (adv_retry_fn (adv_start_or_update active_state init_adata
        ⟨1000, -ENOTSUP⟩).1 ⟨1001, 0⟩).1.adv_started = true :=
  have h := C9_unsupported_update_restarts active_state init_adata ⟨1000, -ENOTSUP⟩ ⟨1001, 0⟩
    rfl rfl (by decide) rfl rfl
  ⟨h.2.1, h.2.2.2.2.2.1, h.2.2.2.2.2.2.2.1⟩

/-- C10 as stated fails: advertising started and last updated at time 0, an update at time
100 that returns `-EBUSY` and a second request at time 101 both call
`bt_le_adv_update_data`, because a failed update does not advance the timestamp. -/
theorem C10_failed_update_is_not_throttled :
    update_calls (adv_start_or_update active_state init_adata ⟨100, -EBUSY⟩).2 ++
    update_calls (adv_start_or_update
      (adv_start_or_update active_state init_adata ⟨100, -EBUSY⟩).1 init_adata ⟨101, 0⟩).2 =
      [[BT_DATA_BYTES BT_DATA_FLAGS [6], BT_DATA_BYTES BT_DATA_UUID16_ALL [0xaa, 0xfe],
        BT_DATA BT_DATA_SVC_DATA16 init_adata 16],
       [BT_DATA_BYTES BT_DATA_FLAGS [6], BT_DATA_BYTES BT_DATA_UUID16_ALL [0xaa, 0xfe],
        BT_DATA BT_DATA_SVC_DATA16 init_adata 16]] := by
  decide

/-- C10, amended. With advertising started, of two consecutive `adv_start_or_update` calls
less than `ADV_MIN_UPDATE_MS` apart at most one calls `bt_le_adv_update_data`, provided
the first call is throttled or its update succeeds or returns `-ENOTSUP`; when the first
call's update fails with another error the timestamp is not advanced, and the second call
(not earlier than the first) calls `bt_le_adv_update_data` again. -/
theorem C10_throttle_after_successful_update (s : State) (p1 p2 : List Nat) (env1 env2 : Env)
    (hready : s.ble_ready = true) (hstarted : s.adv_started = true)
    (hgap : env2.now - env1.now < ADV_MIN_UPDATE_MS) :
    ((env1.now - s.adv_last_update_ms < ADV_MIN_UPDATE_MS ∨ env1.err = 0 ∨
        env1.err = -ENOTSUP) →
      (update_calls (adv_start_or_update s p1 env1).2 ++
        update_calls (adv_start_or_update (adv_start_or_update s p1 env1).1 p2 env2).2).length
        ≤ 1) ∧
    ((¬ (env1.now - s.adv_last_update_ms < ADV_MIN_UPDATE_MS) ∧ env1.err ≠ 0 ∧
        env1.err ≠ -ENOTSUP ∧ env1.now ≤ env2.now) →
      (update_calls (adv_start_or_update s p1 env1).2 ++
        update_calls (adv_start_or_update (adv_start_or_update s p1 env1).1 p2 env2).2).length
        = 2) := by
  simp only [ADV_MIN_UPDATE_MS, ENOTSUP] at *
  constructor
  · intro hfirst
    by_cases ht : env1.now - s.adv_last_update_ms < 50
    · -- the first call is throttled
      have h1 : adv_start_or_update s p1 env1 =
          ({ s with last_svc_buf := p1.take (min p1.length 31) ++
                      s.last_svc_buf.drop (min p1.length 31),
                    last_svc_len := min p1.length 31 }, [Ev.adv_start_or_update p1]) := by
        unfold adv_start_or_update
        simp only [hready, hstarted, ADV_MIN_UPDATE_MS, ht, if_true, if_false,
          Bool.true_eq_false]
      rw [h1]
      unfold adv_start_or_update
      simp only [hready, hstarted, ADV_MIN_UPDATE_MS, EAGAIN, EBUSY, ENOTSUP]
      split_ifs <;> simp [update_calls]
    · by_cases h0 : env1.err = 0
      · -- the first update succeeds: the second call is throttled
        have h1 : adv_start_or_update s p1 env1 =
            ({ s with last_svc_buf := p1.take (min p1.length 31) ++
                        s.last_svc_buf.drop (min p1.length 31),
                      last_svc_len := min p1.length 31,
                      ad1 := s.ad1.set 2 (BT_DATA BT_DATA_SVC_DATA16 p1 p1.length),
                      adv_last_update_ms := env1.now },
             [Ev.adv_start_or_update p1,
              Ev.bt_le_adv_update_data
                (s.ad1.set 2 (BT_DATA BT_DATA_SVC_DATA16 p1 p1.length))]) := by
          unfold adv_start_or_update
          simp only [hready, hstarted, ADV_MIN_UPDATE_MS, ht, h0, if_true, if_false,
            Bool.true_eq_false]
        rw [h1]
        unfold adv_start_or_update
        simp [hready, hstarted, ADV_MIN_UPDATE_MS, hgap, update_calls]
      · -- the first update returns -ENOTSUP: the second call is a start attempt
        have h2 : env1.err = -134 := by
          rcases hfirst with h | h | h
          · exact absurd h ht
          · exact absurd h h0
          · exact h
        have h1 : adv_start_or_update s p1 env1 =
            ({ s with last_svc_buf := p1.take (min p1.length 31) ++
                        s.last_svc_buf.drop (min p1.length 31),
                      last_svc_len := min p1.length 31,
                      ad1 := s.ad1.set 2 (BT_DATA BT_DATA_SVC_DATA16 p1 p1.length),
                      adv_started := false, adv_retry_work := some 0 },
             [Ev.adv_start_or_update p1,
              Ev.bt_le_adv_update_data
                (s.ad1.set 2 (BT_DATA BT_DATA_SVC_DATA16 p1 p1.length)),
              Ev.bt_le_adv_stop, Ev.k_work_reschedule 0]) := by
          unfold adv_start_or_update
          simp [hready, hstarted, ADV_MIN_UPDATE_MS, ht, h2, EAGAIN, EBUSY, ENOTSUP]
        rw [h1]
        unfold adv_start_or_update
        simp only [hready]
        split_ifs <;> simp [update_calls]
  · rintro ⟨ht, h0, hns, hle⟩
    have ht2 : ¬ (env2.now - s.adv_last_update_ms < 50) := by omega
    have hfst : (adv_start_or_update s p1 env1).1.adv_last_update_ms = s.adv_last_update_ms ∧
        (adv_start_or_update s p1 env1).1.ble_ready = true ∧
        (adv_start_or_update s p1 env1).1.adv_started = true ∧
        (update_calls (adv_start_or_update s p1 env1).2).length = 1 := by
      unfold adv_start_or_update
      simp only [hready, hstarted, ADV_MIN_UPDATE_MS, ENOTSUP, ht, h0, hns, if_true, if_false,
        Bool.true_eq_false]
      split_ifs <;> simp [update_calls, hready, hstarted]
    obtain ⟨f1, f2, f3, f4⟩ := hfst
    have hsnd : (update_calls
        (adv_start_or_update (adv_start_or_update s p1 env1).1 p2 env2).2).length = 1 := by
      generalize adv_start_or_update s p1 env1 = r at f1 f2 f3
      unfold adv_start_or_update
      simp only [f1, f2, f3, ADV_MIN_UPDATE_MS, ht2, if_true, if_false, Bool.true_eq_false]
      split_ifs <;> simp [update_calls]
    rw [List.length_append, f4, hsnd]

/-- C10, amended, on a started state last updated at time 0: an update that succeeds at
time 100 and a request at time 101 give one `bt_le_adv_update_data` call at most. -/
theorem C10_throttle_after_successful_update_witness :
    (update_calls (adv_start_or_update active_state init_adata ⟨100, 0⟩).2 ++
      update_calls (adv_start_or_update
        (adv_start_or_update active_state init_adata ⟨100, 0⟩).1 init_adata ⟨101, 0⟩).2).length
      ≤ 1 :=
  (C10_throttle_after_successful_update active_state init_adata init_adata ⟨100, 0⟩ ⟨101, 0⟩
    rfl rfl (by decide)).1 (Or.inr (Or.inl rfl))

/-- C11, evaluated on the code: advertising started and last updated at time 0, an update
at time 100 that returns `-EBUSY` leaves the retry scheduled; the following request at
time 120 is an in-place update that succeeds (it calls `bt_le_adv_update_data` and stamps
the time), and the retry is still scheduled after it: only the start path calls
`k_work_cancel_delayable`. -/
theorem C11_successful_update_keeps_retry :
    (adv_start_or_update active_state init_adata ⟨100, -EBUSY⟩).1.adv_retry_work = some 150 ∧
    (adv_start_or_update active_state init_adata ⟨100, -EBUSY⟩).1.adv_started = true ∧
    (update_calls (adv_start_or_update
      (adv_start_or_update active_state init_adata ⟨100, -EBUSY⟩).1 init_adata
        ⟨120, 0⟩).2).length = 1 ∧
    (adv_start_or_update
      (adv_start_or_update active_state init_adata ⟨100, -EBUSY⟩).1 init_adata
        ⟨120, 0⟩).1.adv_last_update_ms = 120 ∧
    (adv_start_or_update
      (adv_start_or_update active_state init_adata ⟨100, -EBUSY⟩).1 init_adata
        ⟨120, 0⟩).1.adv_retry_work = some 150 := by
  decide

/-- C16. Effect resolver: for an absent label `get_led_effect` returns entry 0; for a text
label it returns the smallest index from 1 on whose entry has that label, and entry 0
exactly when no entry from index 1 on has it (the label of entry 0 is not looked at).  On
the shipped table, whose `ANOMALY_LABEL` is neither `"zoom_in"` nor `"shake"`, `"zoom_in"`
resolves to entry 3 and `"shake"` to entry 0. -/
theorem C16_get_led_effect_resolves (cfg : Config) (l : CStr) (A : CStr)
    (hz : A ≠ cstr "zoom_in") (hsh : A ≠ cstr "shake") :
    get_led_effect cfg none = 0 ∧
    ((get_led_effect cfg (some l) = 0 ∧
        ∀ (i : Nat) (t : ml_result_led_effect), 1 ≤ i →
          cfg.ml_result_led_effects[i]? = some t → t.label ≠ some l) ∨
     (1 ≤ get_led_effect cfg (some l) ∧
        (∃ t, cfg.ml_result_led_effects[get_led_effect cfg (some l)]? = some t ∧
          t.label = some l) ∧
        ∀ (j : Nat) (t : ml_result_led_effect), 1 ≤ j → j < get_led_effect cfg (some l) →
          cfg.ml_result_led_effects[j]? = some t → t.label ≠ some l)) ∧
    (cfg.ml_result_led_effects = ml_result_led_effects A →
      get_led_effect cfg (some (cstr "zoom_in")) = 3 ∧
      get_led_effect cfg (some (cstr "shake")) = 0) := by
  refine ⟨rfl, ?_, ?_⟩
  · unfold get_led_effect
    simp only
    cases h : get_led_effect_loop l (cfg.ml_result_led_effects.drop 1) 1 with
    | none =>
      left
      refine ⟨rfl, ?_⟩
      intro i t hi hit
      have := get_led_effect_loop_none l _ 1 h (i - 1) t
      rw [List.getElem?_drop] at this
      have e : 1 + (i - 1) = i := by omega
      rw [e] at this
      exact this hit
    | some r =>
      right
      obtain ⟨h1, ⟨t, h2, h3⟩, h4⟩ := get_led_effect_loop_some l _ 1 r h
      rw [List.getElem?_drop] at h2
      have e : 1 + (r - 1) = r := by omega
      rw [e] at h2
      refine ⟨h1, ⟨t, h2, h3⟩, ?_⟩
      intro j t' hj1 hj2 hjt
      have hj3 : j < r := hj2
      have := h4 (j - 1) (by omega) t'
      rw [List.getElem?_drop] at this
      have e' : 1 + (j - 1) = j := by omega
      rw [e'] at this
      exact this hjt
  · intro hc
    unfold get_led_effect
    rw [hc]
    constructor
    · simp [ml_result_led_effects, get_led_effect_loop, hz]
      decide
    · simp [ml_result_led_effects, get_led_effect_loop, hsh]
      decide

/-- C16 at the shipped configuration: `"zoom_in"` resolves to entry 3 and `"shake"` to
entry 0. -/
theorem C16_get_led_effect_resolves_witness :
    get_led_effect thingy52_config (some (cstr "zoom_in")) = 3 ∧
    get_led_effect thingy52_config (some (cstr "shake")) = 0 :=
  (C16_get_led_effect_resolves thingy52_config (cstr "zoom_in") (cstr "_anomaly")
    (by decide) (by decide)).2.2 rfl

/-- C18. Low-confidence fallback: a sample whose anomaly score is unavailable (negative)
and whose confidence is below the value threshold is accepted with the candidate label
`"idle"`, whatever its label.  From the cleared state with a streak threshold above 1 the
prediction state afterwards is (`"idle"`, 1) and nothing is displayed; in general the
streak counted for `"idle"` (the current streak if the current label is `"idle"`, else 0)
is incremented, and the call stabilises on `"idle"` when that reaches the threshold. -/
theorem C18_low_confidence_fallback (cfg : Config) (s : State) (label : Option CStr)
    (value anomaly : ℚ) (ha : anomaly < 0) (hv : value < VALUE_THRESH cfg) :
    classify cfg label value anomaly = (some (cstr "idle"), true) ∧
    (s.cur_label = none → s.prediction_streak = 0 → 1 < cfg.PREDICTION_STREAK_THRESH →
      update_ml_result_led cfg s label value anomaly =
        ({ s with cur_label := some (cstr "idle"), prediction_streak := 1 }, [])) ∧
    ((if some (cstr "idle") = s.cur_label then s.prediction_streak else 0) + 1 <
        cfg.PREDICTION_STREAK_THRESH →
      (update_ml_result_led cfg s label value anomaly).1.cur_label = some (cstr "idle") ∧
      (update_ml_result_led cfg s label value anomaly).1.prediction_streak =
        (if some (cstr "idle") = s.cur_label then s.prediction_streak else 0) + 1 ∧
      (update_ml_result_led cfg s label value anomaly).2 = []) ∧
    ((if some (cstr "idle") = s.cur_label then s.prediction_streak else 0) + 1 ≥
        cfg.PREDICTION_STREAK_THRESH →
      display_calls (update_ml_result_led cfg s label value anomaly).2 =
        [(some (cstr "idle"), false)]) := by
  have hcl := classify_fallback cfg label value anomaly ha hv
  have hled : update_ml_result_led cfg s label value anomaly =
      debounce cfg s (some (cstr "idle")) true := by
    unfold update_ml_result_led
    rw [hcl]
  refine ⟨hcl, ?_, ?_, ?_⟩
  · intro h1 h2 hN
    rw [hled, debounce_accept_cases, h1, h2]
    simp only [if_neg (by simp : ¬ (some (cstr "idle") = (none : Option CStr)))]
    rw [if_neg (by omega)]
  · intro h
    rw [hled, debounce_accept_cases, if_neg (by omega)]
    exact ⟨rfl, rfl, rfl⟩
  · intro h
    rw [hled, debounce_accept_cases, if_pos h]
    exact display_calls_display_ml_result _ _ _ _

/-- C18 at the shipped configuration (streak threshold 3): a `"zoom_in"` sample with
confidence 0.5 and anomaly score -1, delivered in the start-up state, leaves the
prediction state (`"idle"`, 1). -/
theorem C18_low_confidence_fallback_witness :
    update_ml_result_led thingy52_config (init_state false) no_anomaly_sample.label
      no_anomaly_sample.value no_anomaly_sample.anomaly =
      ({ init_state false with cur_label := some (cstr "idle"), prediction_streak := 1 }, []) :=
  (C18_low_confidence_fallback thingy52_config (init_state false) no_anomaly_sample.label
    no_anomaly_sample.value no_anomaly_sample.anomaly
    (by simp only [no_anomaly_sample]; norm_num)
    (by simp only [no_anomaly_sample, VALUE_THRESH, thingy52_config]; norm_num)).2.1
    rfl rfl (by decide)

/-- C19. Retry replay: `adv_retry_fn` is `adv_start_or_update` called with the cached
payload (the work item no longer being scheduled when its handler runs), and it leaves the
cached payload as it was, for every state whose `last_svc_len` is within the 31-byte
buffer.  From a ready state with advertising not started, a request with payload `p`
whose start returns `-EBUSY` leaves advertising not started and one retry at 150 ms; when
the retry fires at time `env2.now` and its start succeeds, the radio is started with the
first 31 bytes of `p` (all of `p` when it has at most 31 bytes), advertising is started,
the last-update timestamp is that time and no retry is scheduled. -/
theorem C19_retry_replays_cached_payload (s : State) (p : List Nat) (env1 env2 : Env)
    (hready : s.ble_ready = true) (hidle : s.adv_started = false)
    (hbusy : env1.err = -EBUSY) (hok : env2.err = 0) :
    (∀ (s0 : State) (env : Env),
      adv_retry_fn s0 env =
        adv_start_or_update { s0 with adv_retry_work := none } (cached_payload s0) env) ∧
    (∀ (s0 : State) (env : Env), s0.last_svc_len ≤ 31 →
      cached_payload (adv_retry_fn s0 env).1 = cached_payload s0) ∧
    (adv_start_or_update s p env1).1.adv_started = false ∧
    (adv_start_or_update s p env1).1.adv_retry_work = some 150 ∧
    reschedules (adv_start_or_update s p env1).2 = [150] ∧
    radio_calls (adv_retry_fn (adv_start_or_update s p env1).1 env2).2 =
      [Ev.bt_le_adv_start
        (s.ad1.set 2 (BT_DATA BT_DATA_SVC_DATA16 (p.take 31) (p.take 31).length))] ∧
    (p.length ≤ 31 → p.take 31 = p) ∧
    (adv_retry_fn (adv_start_or_update s p env1).1 env2).1.adv_started = true ∧
    (adv_retry_fn (adv_start_or_update s p env1).1 env2).1.adv_last_update_ms = env2.now ∧
    (adv_retry_fn (adv_start_or_update s p env1).1 env2).1.adv_retry_work = none := by
  have hfirst : adv_start_or_update s p env1 =
      ({ s with last_svc_buf := p.take (min p.length 31) ++ s.last_svc_buf.drop (min p.length 31),
                last_svc_len := min p.length 31,
                ad1 := s.ad1.set 2 (BT_DATA BT_DATA_SVC_DATA16 p p.length),
                adv_retry_work := some 150 },
       [Ev.adv_start_or_update p,
        Ev.bt_le_adv_start (s.ad1.set 2 (BT_DATA BT_DATA_SVC_DATA16 p p.length)),
        Ev.k_work_reschedule 150]) := by
    unfold adv_start_or_update
    simp [hready, hidle, hbusy, EBUSY, EAGAIN]
  have hcache : cached_payload (adv_start_or_update s p env1).1 = p.take 31 :=
    (cached_payload_adv_start_or_update s p env1).1
  have hsecond : adv_retry_fn (adv_start_or_update s p env1).1 env2 =
      adv_start_or_update { (adv_start_or_update s p env1).1 with adv_retry_work := none }
        (p.take 31) env2 := by
    unfold adv_retry_fn
    rw [← hcache]
    rfl
  refine ⟨fun _ _ => rfl, ?_, by rw [hfirst]; exact hidle, by rw [hfirst], by rw [hfirst]; rfl,
    ?_, fun hl => List.take_of_length_le hl, ?_⟩
  · intro s0 env hlen
    have h := (cached_payload_adv_start_or_update { s0 with adv_retry_work := none }
      (cached_payload s0) env).1
    have hl := cached_payload_length_le s0
    unfold adv_retry_fn
    rw [show s0.last_svc_buf.take s0.last_svc_len = cached_payload s0 from rfl, h,
      List.take_of_length_le (by omega)]
  · rw [hsecond, hfirst]
    unfold adv_start_or_update
    simp [hready, hidle, hok, radio_calls]
  · rw [hsecond, hfirst]
    unfold adv_start_or_update
    simp [hready, hidle, hok]

/-- C19 from the ready state with advertising not started: the payload of
`start_initial_adv`, refused with `-EBUSY` at time 1000, is passed to `bt_le_adv_start`
again when the retry fires at time 1150, and advertising is then started. -/
theorem C19_retry_replays_cached_payload_witness :
    (adv_start_or_update ready_idle_state init_adata ⟨1000, -EBUSY⟩).1.adv_retry_work =
      some 150 ∧
    radio_calls (adv_retry_fn (adv_start_or_update ready_idle_state init_adata
        ⟨1000, -EBUSY⟩).1 ⟨1150, 0⟩).2 =
      [Ev.bt_le_adv_start
        [BT_DATA_BYTES BT_DATA_FLAGS [6], BT_DATA_BYTES BT_DATA_UUID16_ALL [0xaa, 0xfe],
         BT_DATA BT_DATA_SVC_DATA16 init_adata 16]] ∧
    (adv_retry_fn (adv_start_or_update ready_idle_state init_adata
        ⟨1000, -EBUSY⟩).1 ⟨1150, 0⟩).1.adv_last_update_ms = 1150 :=
  have h := C19_retry_replays_cached_payload ready_idle_state init_adata ⟨1000, -EBUSY⟩
    ⟨1150, 0⟩ rfl rfl rfl rfl
  ⟨h.2.2.2.1, h.2.2.2.2.2.1, h.2.2.2.2.2.2.2.2.1⟩

/-- C12 as stated fails: in a state that is not ready and whose cached payload is the one
encoded from a `"zoom_in"` sample, the ready signal (`bt_ready_cb` with `err = 0`, and
likewise the `ble_state` READY event) starts advertising with the payload of
`start_initial_adv`, `"idle;0;0;-1"` behind the preamble, which is a different payload and
replaces the cached one. -/
theorem C12_ready_signal_starts_with_initial_payload :
    not_ready_cached_state.ble_ready = false ∧
    cached_payload not_ready_cached_state = zoom_in_payload ∧
    zoom_in_payload ≠ init_adata ∧
    radio_calls (bt_ready_cb not_ready_cached_state 0 ⟨1000, 0⟩).2 =
      [Ev.bt_le_adv_start
        [BT_DATA_BYTES BT_DATA_FLAGS [6], BT_DATA_BYTES BT_DATA_UUID16_ALL [0xaa, 0xfe],
         BT_DATA BT_DATA_SVC_DATA16 init_adata 16]] ∧
    cached_payload (bt_ready_cb not_ready_cached_state 0 ⟨1000, 0⟩).1 = init_adata ∧
    radio_calls (handle_module_state_event all_features not_ready_cached_state
        ⟨ModuleId.ble_state, true⟩ 0 ⟨1000, 0⟩).2 =
      [Ev.bt_le_adv_start
        [BT_DATA_BYTES BT_DATA_FLAGS [6], BT_DATA_BYTES BT_DATA_UUID16_ALL [0xaa, 0xfe],
         BT_DATA BT_DATA_SVC_DATA16 init_adata 16]] ∧
    cached_payload (handle_module_state_event all_features not_ready_cached_state
        ⟨ModuleId.ble_state, true⟩ 0 ⟨1000, 0⟩).1 = init_adata := by
  decide

/-- C12, amended. In every state that is not ready (and so has advertising not started),
whatever its cached payload, the ready signal (`bt_ready_cb` with `err = 0`, or the
`ble_state` READY event where `CONFIG_CAF_BLE_STATE` is defined) sets `ble_ready` and
makes a request with the fixed payload of `start_initial_adv`: `bt_le_adv_start` is called
with that payload, and that payload is the cached payload afterwards. -/
theorem C12_ready_signal_requests_initial_payload (feat : Features) (s : State) (b : Int)
    (env : Env) (hnr : s.ble_ready = false) (hidle : s.adv_started = false)
    (hf : feat.CONFIG_CAF_BLE_STATE = true) :
    bt_ready_cb s 0 env = adv_start_or_update { s with ble_ready := true } init_adata env ∧
    handle_module_state_event feat s ⟨ModuleId.ble_state, true⟩ b env = bt_ready_cb s 0 env ∧
    (bt_ready_cb s 0 env).1.ble_ready = true ∧
    (bt_ready_cb s 0 env).1.ble_ready ≠ s.ble_ready ∧
    radio_calls (bt_ready_cb s 0 env).2 =
      [Ev.bt_le_adv_start (s.ad1.set 2 (BT_DATA BT_DATA_SVC_DATA16 init_adata 16))] ∧
    cached_payload (bt_ready_cb s 0 env).1 = init_adata := by
  have h1 := bt_ready_cb_ok s env
  have h2 := handle_module_state_event_ble_ready feat s b env hf
  refine ⟨h1, h2.trans h1.symm, ?_, ?_, ?_, ?_⟩
  · rw [h1, ble_ready_adv_start_or_update]
  · rw [h1, ble_ready_adv_start_or_update, hnr]
    simp
  · rw [h1]
    unfold adv_start_or_update
    by_cases he : env.err = 0
    · simp [hidle, he, radio_calls, init_adata, preamble, cstr]
    · by_cases ht : env.err = -EAGAIN ∨ env.err = -EBUSY
      · simp [hidle, he, ht, radio_calls, init_adata, preamble, cstr]
      · simp [hidle, he, ht, radio_calls, init_adata, preamble, cstr]
  · rw [h1, (cached_payload_adv_start_or_update _ _ _).1]
    decide

/-- C12, amended, in the start-up state: the ready signal starts advertising with the
initial payload. -/
theorem C12_ready_signal_requests_initial_payload_witness :
    radio_calls (bt_ready_cb (init_state false) 0 ⟨1000, 0⟩).2 =
      [Ev.bt_le_adv_start ((init_state false).ad1.set 2
        (BT_DATA BT_DATA_SVC_DATA16 init_adata 16))] ∧
    cached_payload (bt_ready_cb (init_state false) 0 ⟨1000, 0⟩).1 = init_adata :=
  (C12_ready_signal_requests_initial_payload all_features (init_state false) 0 ⟨1000, 0⟩
    rfl rfl rfl).2.2.2.2

/-- C13 as stated fails: with the stack ready and advertising not started, a further ready
signal calls `bt_le_adv_start` and advertising is started afterwards. -/
theorem C13_second_ready_signal_calls_radio :
    ready_idle_state.ble_ready = true ∧
    radio_calls (bt_ready_cb ready_idle_state 0 ⟨1000, 0⟩).2 =
      [Ev.bt_le_adv_start
        [BT_DATA_BYTES BT_DATA_FLAGS [6], BT_DATA_BYTES BT_DATA_UUID16_ALL [0xaa, 0xfe],
         BT_DATA BT_DATA_SVC_DATA16 init_adata 16]] ∧
    ready_idle_state.adv_started = false ∧
    (bt_ready_cb ready_idle_state 0 ⟨1000, 0⟩).1.adv_started = true := by
  decide

/-- C13, amended. In every state in which `ble_ready` is already set, a further ready
signal (`bt_ready_cb` with `err = 0`, or the `ble_state` READY event where
`CONFIG_CAF_BLE_STATE` is defined) is exactly a request with the payload of
`start_initial_adv`: that payload becomes the cached payload; with advertising not started
`bt_le_adv_start` is called; with advertising started `bt_le_adv_update_data` is called,
unless the signal comes less than `ADV_MIN_UPDATE_MS` after the last update, and only then
is there no radio call and are `adv_started`, the timestamp and the retry left as they
were. -/
theorem C13_second_ready_signal_is_a_request (feat : Features) (s : State) (b : Int)
    (env : Env) (hr : s.ble_ready = true) (hf : feat.CONFIG_CAF_BLE_STATE = true) :
    bt_ready_cb s 0 env = adv_start_or_update s init_adata env ∧
    handle_module_state_event feat s ⟨ModuleId.ble_state, true⟩ b env =
      adv_start_or_update s init_adata env ∧
    (bt_ready_cb s 0 env).1.ble_ready = true ∧
    cached_payload (bt_ready_cb s 0 env).1 = init_adata ∧
    (s.adv_started = false →
      radio_calls (bt_ready_cb s 0 env).2 =
        [Ev.bt_le_adv_start (s.ad1.set 2 (BT_DATA BT_DATA_SVC_DATA16 init_adata 16))]) ∧
    (s.adv_started = true → ¬ (env.now - s.adv_last_update_ms < ADV_MIN_UPDATE_MS) →
      update_calls (bt_ready_cb s 0 env).2 =
        [s.ad1.set 2 (BT_DATA BT_DATA_SVC_DATA16 init_adata 16)]) ∧
    (s.adv_started = true → env.now - s.adv_last_update_ms < ADV_MIN_UPDATE_MS →
      radio_calls (bt_ready_cb s 0 env).2 = [] ∧
      (bt_ready_cb s 0 env).1.adv_started = true ∧
      (bt_ready_cb s 0 env).1.adv_last_update_ms = s.adv_last_update_ms ∧
      (bt_ready_cb s 0 env).1.adv_retry_work = s.adv_retry_work) := by
  have h1 : bt_ready_cb s 0 env = adv_start_or_update s init_adata env := by
    rw [bt_ready_cb_ok, set_ble_ready_of_ready s hr]
  have h2 : handle_module_state_event feat s ⟨ModuleId.ble_state, true⟩ b env =
      adv_start_or_update s init_adata env := by
    rw [handle_module_state_event_ble_ready feat s b env hf, set_ble_ready_of_ready s hr]
  refine ⟨h1, h2, ?_, ?_, ?_, ?_, ?_⟩
  · rw [h1, ble_ready_adv_start_or_update, hr]
  · rw [h1, (cached_payload_adv_start_or_update _ _ _).1]
    decide
  · intro hidle
    rw [h1]
    unfold adv_start_or_update
    by_cases he : env.err = 0
    · simp [hr, hidle, he, radio_calls, init_adata, preamble, cstr]
    · by_cases ht : env.err = -EAGAIN ∨ env.err = -EBUSY
      · simp [hr, hidle, he, ht, radio_calls, init_adata, preamble, cstr]
      · simp [hr, hidle, he, ht, radio_calls, init_adata, preamble, cstr]
  · intro hst hnt
    rw [h1]
    unfold adv_start_or_update
    simp only [hr, hst, hnt, if_false, Bool.true_eq_false]
    split_ifs <;> simp [update_calls, init_adata, preamble, cstr]
  · intro hst ht
    rw [h1]
    unfold adv_start_or_update
    simp [hr, hst, ht, radio_calls]

/-- C13, amended, with advertising not started: the further ready signal is the request
with the initial payload, which starts advertising. -/
theorem C13_second_ready_signal_is_a_request_witness :
    bt_ready_cb ready_idle_state 0 ⟨1000, 0⟩ =
      adv_start_or_update ready_idle_state init_adata ⟨1000, 0⟩ ∧
    cached_payload (bt_ready_cb ready_idle_state 0 ⟨1000, 0⟩).1 = init_adata :=
  have h := C13_second_ready_signal_is_a_request all_features ready_idle_state 0 ⟨1000, 0⟩
    rfl rfl
  ⟨h.1, h.2.2.2.1⟩

/-- C14. Suspension gate: in every state in which a blocking effect is pending,
`handle_ml_result_event` returns without any call and leaves the state as it is, so no
LED display request and no sign-in or sign-out is dispatched and the prediction state
and the displayed effect are unchanged; and along every sequence of events that contains
neither the driver's acknowledgment of that effect on the ML-state LED nor an entry into
model-running mode, every event is handled, the blocking effect stays pending, the
prediction state and the displayed effect stay as they were, and the handling of every
classification sample makes no call. -/
theorem C14_suspension_gate (cfg : Config) (feat : Features) (s : State) (b : led_effect_ptr)
    (hb : s.blocking_led_effect = some b) :
    (∀ (e : ml_result_event) (env : Env), handle_ml_result_event cfg s e env = some (s, [])) ∧
    (∀ evs : List (app_event × Int × Env), (∀ x ∈ evs, ¬ releases b x.1) →
      ∃ rs, run_events cfg feat s evs = some rs ∧ rs.length = evs.length ∧
        (∀ r ∈ rs, r.1.blocking_led_effect = some b ∧ r.1.cur_label = s.cur_label ∧
          r.1.prediction_streak = s.prediction_streak ∧
          r.1.ml_result_effect = s.ml_result_effect) ∧
        (∀ (k : Nat) (e : ml_result_event) (be : Int) (env : Env) (r : State × List Ev),
          evs[k]? = some (app_event.ml_result e, be, env) → rs[k]? = some r → r.2 = [])) := by
  constructor
  · intro e env
    unfold handle_ml_result_event
    rw [if_neg (by rw [hb]; simp)]
  · intro evs hrel
    exact run_events_suspended cfg feat b evs s hb hrel

/-- C14 in a state in which the effect of entry 3 is pending as blocking: an accepted
`"zoom_in"` sample is dropped, also when a mode change to data forwarding comes first. -/
theorem C14_suspension_gate_witness :
    handle_ml_result_event thingy52_config suspended_state zoom_in_sample ⟨1000, 0⟩ =
      some (suspended_state, []) ∧
    ∃ rs, run_events thingy52_config all_features suspended_state
        [(app_event.ml_app_mode ⟨MlAppMode.ML_APP_MODE_DATA_FORWARDING⟩, 0, ⟨1000, 0⟩),
         (app_event.ml_result zoom_in_sample, 0, ⟨1100, 0⟩)] = some rs ∧
      rs.length = 2 :=
  have h := C14_suspension_gate thingy52_config all_features suspended_state
    (led_effect_ptr.ml_result 3) rfl
  have h2 := h.2
    [(app_event.ml_app_mode ⟨MlAppMode.ML_APP_MODE_DATA_FORWARDING⟩, 0, ⟨1000, 0⟩),
     (app_event.ml_result zoom_in_sample, 0, ⟨1100, 0⟩)]
    (by
      intro x hx
      simp only [List.mem_cons, List.mem_singleton, List.not_mem_nil, or_false] at hx
      rcases hx with hx | hx <;> subst hx <;> simp [releases])
  ⟨h.1 zoom_in_sample ⟨1000, 0⟩, h2.elim fun rs hrs => ⟨rs, hrs.1, hrs.2.1⟩⟩

/-- C20 as stated fails: with the sensor-simulation display enabled and the
sensor-simulation effect set by a `"zoom_in"` signal, displaying the result `"zoom_in"`
submits two LED display requests for the effect of entry 3, one for the
sensor-simulation LED and one for the ML-state LED, before the sign-in. -/
theorem C20_two_led_requests_with_sensor_sim :
    sensor_sim_state.sensor_sim_effect = some 3 ∧
    get_led_effect sensor_sim_config (some (cstr "zoom_in")) = 3 ∧
    emissions (display_ml_result sensor_sim_config sensor_sim_state
        (some (cstr "zoom_in")) false).2 =
      [Ev.led_event 255 (led_effect_ptr.ml_result 3),
       Ev.led_event 0 (led_effect_ptr.ml_result 3),
       Ev.signin true] := by
  decide

/-- C20, amended. `display_ml_result(label, force)`: if the effect resolved for the label
is the displayed one and `force` is false, nothing is submitted and the state is left as
it is.  Otherwise one LED display request for the resolved effect is submitted for the
ML-state LED, preceded by a request that re-displays the sensor-simulation effect on its
LED exactly when `DISPLAY_SIM_SIGNAL` is enabled, the resolved effect is not the default
one and a sensor-simulation effect is set; the resolved effect becomes the displayed one
and one notification follows: for a blocking effect (not looping forever, more than one
step) the effect is recorded as pending and sign-out is submitted, else the pending effect
is cleared and sign-in is submitted.  Nothing else of the state changes. -/
theorem C20_display_transition (cfg : Config) (s : State) (label : Option CStr) (force : Bool) :
    (s.ml_result_effect = some (get_led_effect cfg label) ∧ force = false →
      emissions (display_ml_result cfg s label force).2 = [] ∧
      (display_ml_result cfg s label force).1 = s) ∧
    (¬ (s.ml_result_effect = some (get_led_effect cfg label) ∧ force = false) →
      emissions (display_ml_result cfg s label force).2 =
        sensor_sim_sync cfg s (get_led_effect cfg label) ++
          [Ev.led_event (led_map.getD LED_ID_ML_STATE 0)
              (led_effect_ptr.ml_result (get_led_effect cfg label)),
           Ev.signin (!is_led_effect_blocking (effect_at cfg (get_led_effect cfg label)))] ∧
      ((cfg.DISPLAY_SIM_SIGNAL = false ∨ get_led_effect cfg label = 0 ∨
          s.sensor_sim_effect = none) →
        sensor_sim_sync cfg s (get_led_effect cfg label) = []) ∧
      (∀ j, cfg.DISPLAY_SIM_SIGNAL = true → get_led_effect cfg label ≠ 0 →
          s.sensor_sim_effect = some j →
        sensor_sim_sync cfg s (get_led_effect cfg label) =
          [Ev.led_event (led_map.getD LED_ID_SENSOR_SIM 0) (led_effect_ptr.ml_result j)]) ∧
      (display_ml_result cfg s label force).1 =
        { s with ml_result_effect := some (get_led_effect cfg label),
                 blocking_led_effect :=
                   if is_led_effect_blocking (effect_at cfg (get_led_effect cfg label)) = true
                   then some (led_effect_ptr.ml_result (get_led_effect cfg label))
                   else none }) ∧
    (∀ le : led_effect,
      is_led_effect_blocking le = true ↔ (le.loop_forever = false ∧ 1 < le.step_count)) := by
  refine ⟨?_, ?_, ?_⟩
  · intro h
    rw [display_ml_result_unchanged cfg s label force h]
    exact ⟨rfl, rfl⟩
  · intro h
    rw [display_ml_result_changed cfg s label force h]
    refine ⟨?_, ?_, ?_, rfl⟩
    · simp only [emissions, emissions_append, emissions_sensor_sim_sync]
    · intro hsim
      unfold sensor_sim_sync
      rcases hsim with h1 | h1 | h1
      · rw [if_neg (by rw [h1]; simp)]
      · rw [if_neg (by rw [h1]; simp)]
      · rw [h1]
        split <;> rfl
    · intro j h1 h2 h3
      unfold sensor_sim_sync
      rw [if_pos ⟨h1, h2⟩, h3]
  · intro le
    unfold is_led_effect_blocking
    cases le.loop_forever <;> simp

/-- C20, amended, at the shipped configuration: with no effect displayed yet, displaying
`"zoom_in"` submits the request for entry 3 on the ML-state LED and a sign-in. -/
theorem C20_display_transition_witness :
    emissions (display_ml_result thingy52_config ready_idle_state
        (some (cstr "zoom_in")) false).2 =
      [Ev.led_event 0 (led_effect_ptr.ml_result 3), Ev.signin true] :=
  ((C20_display_transition thingy52_config ready_idle_state (some (cstr "zoom_in")) false).2.1
    (by decide)).1

/-- C15. Blocking-effect acknowledgment: in every reachable state in which the effect `E`
is pending as blocking, under a configuration whose default effect is not blocking, a
`led_ready` event for the ML-state LED that carries `E`, received in model-running mode,
calls `display_ml_result(NULL, true)`; the current label is NULL in such a state, so the
effect resolved is the one of the current label (the default effect); the request for it
is submitted whatever effect was displayed, `blocking_led_effect` becomes unset, exactly
one sign-in (state = true) is submitted and the prediction state is untouched.  A
`led_ready` event for another effect, for another LED or outside model-running mode
changes nothing and makes no call. -/
theorem C15_blocking_effect_acknowledgment (cfg : Config) (feat : Features) (s : State)
    (E : led_effect_ptr) (ev : led_ready_event)
    (hreach : Reachable cfg feat s)
    (hdef : is_led_effect_blocking (effect_at cfg 0) = false)
    (hb : s.blocking_led_effect = some E) :
    ((ev.led_id = led_map.getD LED_ID_ML_STATE 0 ∧
        s.ml_app_mode = MlAppMode.ML_APP_MODE_MODEL_RUNNING ∧ ev.led_effect = E) →
      display_calls (handle_led_ready_event cfg s ev).2 = [(none, true)] ∧
      s.cur_label = none ∧
      emissions (handle_led_ready_event cfg s ev).2 =
        [Ev.led_event (led_map.getD LED_ID_ML_STATE 0)
            (led_effect_ptr.ml_result (get_led_effect cfg s.cur_label)),
         Ev.signin true] ∧
      (handle_led_ready_event cfg s ev).1.ml_result_effect =
        some (get_led_effect cfg s.cur_label) ∧
      (handle_led_ready_event cfg s ev).1.blocking_led_effect = none ∧
      (handle_led_ready_event cfg s ev).1.cur_label = s.cur_label ∧
      (handle_led_ready_event cfg s ev).1.prediction_streak = s.prediction_streak) ∧
    (¬ (ev.led_id = led_map.getD LED_ID_ML_STATE 0 ∧
        s.ml_app_mode = MlAppMode.ML_APP_MODE_MODEL_RUNNING ∧ ev.led_effect = E) →
      handle_led_ready_event cfg s ev = (s, [])) := by
  have hinv := reachable_state_inv cfg feat s hreach
  have hcur : s.cur_label = none := (hinv.2 (by rw [hb]; simp)).1
  constructor
  · rintro ⟨h1, h2, h3⟩
    have hc : ev.led_id = led_map.getD LED_ID_ML_STATE 0 ∧
        s.ml_app_mode = MlAppMode.ML_APP_MODE_MODEL_RUNNING ∧
        s.blocking_led_effect = some ev.led_effect := ⟨h1, h2, by rw [hb, h3]⟩
    have hd := display_ml_result_changed cfg s none true (by simp)
    have hsync : sensor_sim_sync cfg s (get_led_effect cfg none) = [] := by
      unfold sensor_sim_sync
      rw [if_neg (fun h => h.2 rfl)]
    have h0 : get_led_effect cfg none = 0 := rfl
    unfold handle_led_ready_event
    rw [if_pos hc, hd, hsync, hcur, h0, hdef]
    refine ⟨rfl, rfl, rfl, rfl, ?_, rfl, rfl⟩
    simp only [blocking_after, hdef]
    rfl
  · intro hn
    have hc : ¬ (ev.led_id = led_map.getD LED_ID_ML_STATE 0 ∧
        s.ml_app_mode = MlAppMode.ML_APP_MODE_MODEL_RUNNING ∧
        s.blocking_led_effect = some ev.led_effect) := by
      rintro ⟨h1, h2, h3⟩
      rw [hb] at h3
      exact hn ⟨h1, h2, (Option.some.inj h3).symm⟩
    unfold handle_led_ready_event
    rw [if_neg hc]

/-- C15 in a reachable state of a configuration whose `"zoom_in"` effect is blocking:
after one accepted `"zoom_in"` sample that effect is pending, and its acknowledgment
clears the suspension and submits the default effect and a sign-in. -/
theorem C15_blocking_effect_acknowledgment_witness :
    ∃ s, Reachable blocking_config all_features s ∧
      s.blocking_led_effect = some (led_effect_ptr.ml_result 3) ∧
      emissions (handle_led_ready_event blocking_config s
          ⟨0, led_effect_ptr.ml_result 3⟩).2 =
        [Ev.led_event 0 (led_effect_ptr.ml_result 0), Ev.signin true] ∧
      (handle_led_ready_event blocking_config s
          ⟨0, led_effect_ptr.ml_result 3⟩).1.blocking_led_effect = none :=
  reachable_suspended_state.elim fun s hs =>
    have h := (C15_blocking_effect_acknowledgment blocking_config all_features s
      (led_effect_ptr.ml_result 3) ⟨0, led_effect_ptr.ml_result 3⟩ hs.1 (by decide) hs.2.2).1
      ⟨rfl, hs.2.1, rfl⟩
    ⟨s, hs.1, hs.2.2, by rw [h.2.2.1, h.2.1]; rfl, h.2.2.2.2.1⟩

/-- C17 as stated fails: after the entry into model-running mode, a first full streak of
accepted `"zoom_in"` samples displays the `"zoom_in"` effect and leaves a reachable state
in model-running mode, not suspended, with the prediction state cleared; a second full
streak delivered in that state submits no LED display request and no notification,
because the effect is already the displayed one. -/
theorem C17_repeated_zoom_in_submits_nothing :
    ∃ r1 r2,
      run_samples thingy52_config (running_state thingy52_config) zoom_in_run = some r1 ∧
      Reachable thingy52_config all_features r1.1 ∧
      r1.1.ml_app_mode = MlAppMode.ML_APP_MODE_MODEL_RUNNING ∧
      r1.1.blocking_led_effect = none ∧
      r1.1.cur_label = none ∧ r1.1.prediction_streak = 0 ∧
      run_samples thingy52_config r1.1 zoom_in_run = some r2 ∧
      emissions r2.2 = [] := by
  obtain ⟨r1, h1, _, a2, a3, a4, a5, a6, a7⟩ := run_samples_accepted thingy52_config
    (some (cstr "zoom_in")) zoom_in_run (running_state thingy52_config) 0
    (by decide) (by decide) (by constructor <;> decide)
    ⟨by decide, fun _ => by decide, fun h => absurd rfl h⟩ (List.cons_ne_nil _ _) (by decide)
    zoom_in_run_scenario
  have hb : r1.1.blocking_led_effect = none := by
    rw [a7]
    decide
  obtain ⟨r2, h2, b1, _⟩ := run_samples_accepted thingy52_config
    (some (cstr "zoom_in")) zoom_in_run r1.1 0 a5 hb a6
    ⟨a3, fun _ => a2, fun h => absurd rfl h⟩ (List.cons_ne_nil _ _) (by decide)
    zoom_in_run_scenario
  refine ⟨r1, r2, h1,
    reachable_run_samples thingy52_config all_features rfl zoom_in_run _ r1
      (reachable_running_state thingy52_config) h1,
    a5, hb, a2, a3, h2, ?_⟩
  rw [b1]
  unfold stable_emissions
  rw [if_pos a4]

/-- C17, amended. In every reachable state in model-running mode that is not suspended and
whose prediction state is cleared, delivering `PREDICTION_STREAK_THRESH` consecutive
samples with label `"zoom_in"`, confidence at least the value threshold, anomaly not
above the anomaly threshold and a text that fits into `rs` handles every sample, leaves
the streak at 0 and the `"zoom_in"` effect displayed, and submits: nothing, when that
effect was already the displayed one; otherwise one LED display request for it on the
ML-state LED and one notification (sign-out if the effect is blocking, else sign-in),
preceded by the request that re-displays the sensor-simulation effect when
`DISPLAY_SIM_SIGNAL` is enabled and such an effect is set. -/
theorem C17_zoom_in_scenario (cfg : Config) (feat : Features) (s : State)
    (samples : List (ml_result_event × Env))
    (hreach : Reachable cfg feat s)
    (hN : 0 < cfg.PREDICTION_STREAK_THRESH)
    (hmode : s.ml_app_mode = MlAppMode.ML_APP_MODE_MODEL_RUNNING)
    (hnb : s.blocking_led_effect = none)
    (hclear : s.cur_label = none ∧ s.prediction_streak = 0)
    (hlen : samples.length = cfg.PREDICTION_STREAK_THRESH)
    (hs : ∀ x ∈ samples, scenario_sample cfg (some (cstr "zoom_in")) x.1) :
    ∃ r, run_samples cfg s samples = some r ∧
      r.1.prediction_streak = 0 ∧ r.1.cur_label = none ∧
      r.1.ml_result_effect = some (get_led_effect cfg (some (cstr "zoom_in"))) ∧
      emissions r.2 = stable_emissions cfg s (some (cstr "zoom_in")) ∧
      (s.ml_result_effect = some (get_led_effect cfg (some (cstr "zoom_in"))) →
        emissions r.2 = []) ∧
      (s.ml_result_effect ≠ some (get_led_effect cfg (some (cstr "zoom_in"))) →
        (cfg.DISPLAY_SIM_SIGNAL = false ∨ s.sensor_sim_effect = none) →
        emissions r.2 =
          [Ev.led_event (led_map.getD LED_ID_ML_STATE 0)
              (led_effect_ptr.ml_result (get_led_effect cfg (some (cstr "zoom_in")))),
           Ev.signin (!is_led_effect_blocking
              (effect_at cfg (get_led_effect cfg (some (cstr "zoom_in")))))]) := by
  have hinv := reachable_state_inv cfg feat s hreach
  have hne : samples ≠ [] := by
    intro h
    rw [h] at hlen
    simp only [List.length_nil] at hlen
    omega
  obtain ⟨r, h1, a1, a2, a3, a4, _⟩ := run_samples_accepted cfg (some (cstr "zoom_in"))
    samples s 0 hmode hnb hinv.1 ⟨hclear.2, fun _ => hclear.1, fun h => absurd rfl h⟩ hne
    (by omega) hs
  refine ⟨r, h1, a3, a2, a4, a1, ?_, ?_⟩
  · intro hsame
    rw [a1]
    unfold stable_emissions
    rw [if_pos hsame]
  · intro hdiff hsim
    rw [a1]
    unfold stable_emissions
    rw [if_neg hdiff]
    have hsync : sensor_sim_sync cfg s (get_led_effect cfg (some (cstr "zoom_in"))) = [] := by
      unfold sensor_sim_sync
      rcases hsim with h | h
      · rw [if_neg (by rw [h]; simp)]
      · rw [h]
        split <;> rfl
    rw [hsync, List.nil_append]

/-- C17, amended, at the shipped configuration: the first full streak of `"zoom_in"`
samples after the entry into model-running mode submits the request for entry 3 on the
ML-state LED and one sign-in. -/
theorem C17_zoom_in_scenario_witness :
    ∃ r, run_samples thingy52_config (running_state thingy52_config) zoom_in_run = some r ∧
      r.1.prediction_streak = 0 ∧
      emissions r.2 = [Ev.led_event 0 (led_effect_ptr.ml_result 3), Ev.signin true] :=
  (C17_zoom_in_scenario thingy52_config all_features (running_state thingy52_config)
    zoom_in_run (reachable_running_state thingy52_config) (by decide) (by decide) (by decide)
    (by constructor <;> decide) (by decide) zoom_in_run_scenario).elim fun r hr =>
    ⟨r, hr.1, hr.2.1, hr.2.2.2.2.2.2 (by decide) (Or.inl rfl)⟩

/-- C21. Cache invariant of the advertising lifecycle: after every call of
`adv_start_or_update` with payload `p` - whatever the readiness and advertising flags of
the state and whatever the radio stack returns - the cached payload is the first
`min(p.length, 31)` bytes of `p` and `last_svc_len` is `min(p.length, 31)`, at most 31.
A request that is throttled makes no call to the radio stack and schedules nothing, and
changes nothing but the cache.  After any further activations of the module (events,
ready callbacks, the start-up hook, retries) the cache holds the bytes of the most recent
request, so the retry that runs then requests exactly these bytes, any advertising data
it passes to the radio stack carries them as service data, and it leaves the cache as it
was. -/
theorem C21_cache_invariant (cfg : Config) (feat : Features) (s : State) (p : List Nat)
    (env : Env) :
    cached_payload (adv_start_or_update s p env).1 = cached_bytes p ∧
    (cached_payload (adv_start_or_update s p env).1).length = min p.length 31 ∧
    (adv_start_or_update s p env).1.last_svc_len = min p.length 31 ∧
    (adv_start_or_update s p env).1.last_svc_len ≤ 31 ∧
    (s.ble_ready = true ∧ s.adv_started = true ∧
        env.now - s.adv_last_update_ms < ADV_MIN_UPDATE_MS →
      (adv_start_or_update s p env).2 = [Ev.adv_start_or_update p] ∧
      (adv_start_or_update s p env).1 =
        { s with last_svc_buf := p.take (min p.length 31) ++
                   s.last_svc_buf.drop (min p.length 31),
                 last_svc_len := min p.length 31 }) ∧
    (∀ (steps : List Step) (r : State × List Ev) (env2 : Env),
      run_steps cfg feat (adv_start_or_update s p env).1 steps = some r →
      cached_payload r.1 = cached_bytes ((adv_calls r.2).getLastD p) ∧
      r.1.last_svc_len = min ((adv_calls r.2).getLastD p).length 31 ∧
      adv_calls (adv_retry_fn r.1 env2).2 = [cached_bytes ((adv_calls r.2).getLastD p)] ∧
      (∀ ad ∈ radio_ads (adv_retry_fn r.1 env2).2,
        ad = r.1.ad1.set 2 (BT_DATA BT_DATA_SVC_DATA16
          (cached_bytes ((adv_calls r.2).getLastD p))
          (min ((adv_calls r.2).getLastD p).length 31))) ∧
      cached_payload (adv_retry_fn r.1 env2).1 =
        cached_bytes ((adv_calls r.2).getLastD p)) := by
  have h1 := cached_payload_adv_start_or_update s p env
  have hc : cached_payload (adv_start_or_update s p env).1 = cached_bytes p := by
    rw [cached_bytes_eq]
    exact h1.1
  refine ⟨hc, by rw [hc, cached_bytes_length], h1.2, by rw [h1.2]; exact Nat.min_le_right _ _,
    ?_, ?_⟩
  · rintro ⟨hr, ha, ht⟩
    unfold adv_start_or_update
    simp [hr, ha, ht]
  · intro steps r env2 hrun
    obtain ⟨hcr, hlr⟩ := run_steps_cache cfg feat steps _ p r hc h1.2 hrun
    have hcall : adv_calls (adv_retry_fn r.1 env2).2 =
        [cached_bytes ((adv_calls r.2).getLastD p)] := by
      rw [(adv_retry_fn_cache r.1 env2).2, hcr]
    refine ⟨hcr, hlr, hcall, ?_, ?_⟩
    · intro ad had
      have h := radio_ads_adv_start_or_update { r.1 with adv_retry_work := none }
        (r.1.last_svc_buf.take r.1.last_svc_len) env2 ad had
      rw [h]
      have hp : r.1.last_svc_buf.take r.1.last_svc_len =
          cached_bytes ((adv_calls r.2).getLastD p) := hcr
      rw [hp, cached_bytes_length]
    · rcases (adv_retry_fn_cache r.1 env2).1 with ⟨hn, _⟩ | ⟨q, hq, hcq, _⟩
      · rw [hcall] at hn
        exact absurd hn (by simp)
      · rw [hcall] at hq
        rw [hcq, ← List.singleton_inj.1 hq, cached_bytes_idem]

/-- C21 in a state with advertising started, last updated at time 1060, and a retry
pending: the request with the `"zoom_in"` payload at time 1070 is throttled, yet it is
cached; an acknowledgment from the LED driver leaves the state as it is, and the retry
that runs at time 1150 requests that payload and passes it to the radio stack. -/
theorem C21_cache_invariant_witness :
    retry_pending_state.adv_retry_work = some 150 ∧
    (adv_start_or_update retry_pending_state zoom_in_payload ⟨1070, 0⟩).2 =
      [Ev.adv_start_or_update zoom_in_payload] ∧
    cached_payload (adv_start_or_update retry_pending_state zoom_in_payload ⟨1070, 0⟩).1 =
      zoom_in_payload ∧
    run_steps thingy52_config all_features
        (adv_start_or_update retry_pending_state zoom_in_payload ⟨1070, 0⟩).1
        [Step.event (app_event.led_ready ⟨0, led_effect_ptr.ml_result 3⟩) 0 ⟨1100, 0⟩] =
      some ((adv_start_or_update retry_pending_state zoom_in_payload ⟨1070, 0⟩).1, []) ∧
    adv_calls (adv_retry_fn
        (adv_start_or_update retry_pending_state zoom_in_payload ⟨1070, 0⟩).1 ⟨1150, 0⟩).2 =
      [zoom_in_payload] ∧
    radio_calls (adv_retry_fn
        (adv_start_or_update retry_pending_state zoom_in_payload ⟨1070, 0⟩).1 ⟨1150, 0⟩).2 =
      [Ev.bt_le_adv_update_data
        [BT_DATA_BYTES BT_DATA_FLAGS [6], BT_DATA_BYTES BT_DATA_UUID16_ALL [0xaa, 0xfe],
         BT_DATA BT_DATA_SVC_DATA16 zoom_in_payload 21]] :=
  have h := C21_cache_invariant thingy52_config all_features retry_pending_state
    zoom_in_payload ⟨1070, 0⟩
  ⟨rfl, (h.2.2.2.2.1 ⟨rfl, rfl, by decide⟩).1, h.1, rfl,
    (h.2.2.2.2.2
      [Step.event (app_event.led_ready ⟨0, led_effect_ptr.ml_result 3⟩) 0 ⟨1100, 0⟩]
      ((adv_start_or_update retry_pending_state zoom_in_payload ⟨1070, 0⟩).1, [])
      ⟨1150, 0⟩ rfl).2.2.1, rfl⟩

end LedState
